import Mathlib

/-!
# Placer: behaviour orchestration of the patrol bot (`src/bot.js`)

A shallow embedding of `src/bot.js`.

* The world-interaction layer (mineflayer, the pathfinder, the JavaScript
  `Math` object, timers) is not part of the repository.  It is taken as a
  parameter: `Bot W` reads an abstract world `W`, `JsMath R` supplies
  `Math.PI`, `Math.cos`, `Math.sin` and `Math.floor` over a number type `R`.
* The module-level variables of `bot.js` (`isProcessing`, `cycleCount`, ...)
  are the fields of `State`; every call issued to the outside is appended to
  `State.trace`.
* An `async function` is a value of `Co`: it runs synchronously until it
  either finishes (`Co.done`) or parks at an `await` (`Co.susp`), and is
  resumed later from whatever state the rest of the system left behind.
-/

namespace Placer

/-! ## Asynchronous control flow -/

/-- A run of an async function over a state `σ`: finished with a result, or
parked at an `await` holding the state at the moment of suspension and the
continuation that is resumed with the state found on wake-up. -/
inductive Co (σ : Type) (α : Type) : Type where
  | done : σ → α → Co σ α
  | susp : σ → (σ → Co σ α) → Co σ α

namespace Co

/-- Run to completion; `env` is everything that happens while the function is
parked (time passing, the world changing, other callbacks running). -/
def run {σ α : Type} (env : σ → σ) : Co σ α → σ × α
  | .done s a => (s, a)
  | .susp s k => run env (k (env s))

/-- The state in which control returns to the caller of an async function: the
state at its first `await`, or at its end when it never awaits. -/
def parked {σ α : Type} : Co σ α → σ
  | .done s _ => s
  | .susp s _ => s

/-- Sequencing inside one function body (no `await` in between). -/
def seq {σ α β : Type} : Co σ α → (α → σ → Co σ β) → Co σ β
  | .done s a, f => f a s
  | .susp s k, f => .susp s (fun t => seq (k t) f)

/-- The statement `await c`: the caller is parked until `c` has finished, and at
least once even when `c` finished synchronously. -/
def bind {σ α β : Type} (c : Co σ α) (f : α → σ → Co σ β) : Co σ β :=
  seq c (fun a s => .susp s (f a))

end Co

/-! ## Data -/

/-- Integer block coordinates (`Vec3` after `floored()`). -/
structure Vec3 where
  x : Int
  y : Int
  z : Int
  deriving DecidableEq, Repr

/-- A block as returned by `bot.blockAt` and `bot.findBlock`. -/
structure Block where
  name : String
  position : Vec3
  deriving DecidableEq, Repr

/-- An inventory or container stack. -/
structure Item where
  name : String
  count : Nat
  type : Nat
  deriving DecidableEq, Repr

/-- The value of `bot.game.gameMode`: a number or a string. -/
inductive GameMode where
  | num (n : Nat)
  | str (s : String)
  deriving DecidableEq, Repr

/-- A patrol point `{ x, z }`. -/
structure Point where
  x : Int
  z : Int
  deriving DecidableEq, Repr

/-- Pathfinder goals built by `bot.js`. -/
inductive Goal where
  | near (x y z : Int) (range : Nat)
  | block (x y z : Int)
  deriving DecidableEq, Repr

/-- Functions of `bot.js` that are handed to timers or called without `await`. -/
inductive Callback where
  | startCircularPattern
  | jump
  | wake
  | reconnect
  | createBot
  deriving DecidableEq, Repr

/-- Calls issued to the outside, in program order. -/
inductive Event where
  | setGoal (goal : Option Goal)
  | setControlState (control : String) (value : Bool)
  | equip (item : Item) (destination : String)
  | placeBlock (reference : Block) (face : Vec3)
  | dig (block : Block)
  | sleep (bed : Block)
  | once (callback : Callback)
  | setInventorySlot (slot : Nat) (itemId : Nat) (count : Nat)
  | openChest (block : Block)
  | deposit (itemType : Nat) (count : Int)
  | withdraw (itemType : Nat) (count : Int)
  | closeChest
  | delay (ms : Nat)
  | awaitArrival (x y z : Int) (threshold : Nat)
  | setTimeout (callback : Callback) (ms : Nat)
  | setInterval (callback : Callback) (ms : Nat)
  | clearInterval (callback : Callback)
  | call (callback : Callback)
  | exit (code : Nat)
  deriving DecidableEq, Repr

/-- The module-level variables of `bot.js` (lines 42, 54-62) together with the
world seen through the bot and the calls issued so far. -/
structure State (W : Type) where
  world : W
  isProcessing : Bool
  cycleCount : Nat
  isSleeping : Bool
  isAttemptingSleep : Bool
  lastSleepAttempt : Int
  creativeInventoryLock : Bool
  reconnectAttempts : Nat
  trace : List Event

/-- Record a call issued to the outside. -/
def State.emit {W : Type} (s : State W) (e : Event) : State W :=
  { s with trace := s.trace ++ [e] }

/-- The capability interface consumed by `bot.js`.  Every field reads the world
as it is at the moment of the call.  `settled` is the outcome of the external
promise the function has just been woken from (`bot.equip`, `bot.placeBlock`,
`bot.dig`, `bot.sleep`, `bot.creative.setInventorySlot`, `bot.openChest`,
`chest.deposit`, `chest.withdraw`); `setGoal` is the outcome of a synchronous
`bot.pathfinder.setGoal`. -/
structure Bot (W : Type) where
  blockAt : W → Vec3 → Option Block
  findBlock : W → (Block → Bool) → Nat → Option Block
  inventoryItems : W → List Item
  containerItems : W → List Item
  gameMode : W → GameMode
  timeOfDay : W → Option Nat
  positionFloored : W → Vec3
  distanceTo : W → Vec3 → ℚ
  canDigBlock : W → Block → Bool
  firstEmptySlotRange : W → Nat → Nat → Option Nat
  randomFloor : W → Nat → Nat
  itemsByName : W → Except String (String → Option Nat)
  now : W → Int
  setGoal : W → Option Goal → Except String Unit
  settled : W → Except String Unit

/-- The part of the JavaScript `Math` object used by `generateCirclePoints`. -/
structure JsMath (R : Type) where
  PI : R
  cos : R → R
  sin : R → R
  floor : R → Int

/-- The entry `config.chestInteraction` of `config.json`. -/
structure ChestConfig where
  enabled : Bool
  depositItems : Option (List (String × Option Int))
  withdrawItems : Option (List (String × Int))

/-- The contents of `config.json` read by `bot.js`. -/
structure Config (R : Type) where
  centerX : R
  centerY : Int
  centerZ : R
  radius : R
  pointsPerCircle : Nat
  walkSpeed : Nat
  delayBetweenActions : Nat
  blockType : String
  autoSleep : Bool
  jumpWhileWalking : Bool
  bedSearchRadius : Option Nat
  chestInteraction : Option ChestConfig

/-- A candidate site of the bed and chest placement loops. -/
structure Attempt where
  pos : Vec3
  ref : Vec3
  name : String
  deriving DecidableEq, Repr

/-- A candidate site of the block placement loop (it also carries the face
vector handed to `bot.placeBlock`). -/
structure BlockAttempt where
  pos : Vec3
  ref : Vec3
  vec : Vec3
  name : String
  deriving DecidableEq, Repr

/-! ## `generateCirclePoints` (bot.js 154-170)

The sums, products and quotients of lines 163-166 are those of the number type
`R`; `Math.PI`, `Math.cos`, `Math.sin` and `Math.floor` come from `JsMath R`.
A run in doubles is covered by `R = ℚ`: every double is a rational number, and
where a sum or product is rounded, the rounding counts as part of the error of
the cosine or sine it is computed from. -/

/-- The point computed by one iteration of the loop of `generateCirclePoints`,
before `Math.floor` is applied (lines 163-166). -/
def circlePointRaw {R : Type} [Field R] (M : JsMath R) (centerX centerZ radius : R)
    (numPoints : Nat) (clockwise : Bool) (i : Nat) : R × R :=
  let angle := (2 * M.PI * (i : R)) / (numPoints : R)
  let actualAngle := if clockwise then angle else -angle
  let x := centerX + radius * M.cos actualAngle
  let z := centerZ + radius * M.sin actualAngle
  (x, z)

/-- The function `generateCirclePoints` of bot.js, lines 154-170. -/
def generateCirclePoints {R : Type} [Field R] (M : JsMath R) (centerX centerZ radius : R)
    (numPoints : Nat) (clockwise : Bool) : List Point :=
  (List.range numPoints).map fun i =>
    let p := circlePointRaw M centerX centerZ radius numPoints clockwise i
    { x := M.floor p.1, z := M.floor p.2 }

/-- Exact real arithmetic, an idealisation of the `Math` object: `Math.PI` is π
and `Math.cos`, `Math.sin`, `Math.floor` are the real functions.  This is not
what the runtime computes: in doubles `Math.PI` is a little below π and the
cosine and sine are not exactly 0 at the angles for 90°, 180° and 270°, which
changes the floor of the coordinates there (see `doubleMath`).  It serves where
the coordinates of the ring do not matter, and to state what would hold in
exact arithmetic. -/
noncomputable def exactMath : JsMath ℝ where
  PI := Real.pi
  cos := Real.cos
  sin := Real.sin
  floor := Int.floor

/-- The angle `actualAngle` of the `i`-th iteration of `generateCirclePoints`
(lines 163-164). -/
def ringAngle {R : Type} [Field R] (M : JsMath R) (numPoints : Nat) (clockwise : Bool)
    (i : Nat) : R :=
  let angle := (2 * M.PI * (i : R)) / (numPoints : R)
  if clockwise then angle else -angle

/-- The value of `Math.PI`: the IEEE-754 double nearest π,
3.141592653589793115997963..., a little below π. -/
def doublePi : ℚ := 884279719003555 / 281474976710656

/-- The doubles that `Math.cos` and `Math.sin` return at the eight angles
`2 * Math.PI * i / 8`, `i = 0, ..., 7`, each of which is itself a double (the
products and quotients are exact): rows of angle, cosine, sine.  At 90°, 180°
and 270° the angle falls just short of the exact multiple of π/2, so the cosine
at 90° is 6.123233995736766e-17, the sine at 180° is 1.2246467991473532e-16
and the cosine at 270° is -1.8369701987210297e-16. -/
def eighthTurnTable : List (ℚ × ℚ × ℚ) :=
  [ (2 * doublePi * 0 / 8, 1, 0),
    (2 * doublePi * 1 / 8, 6369051672525773 / 2 ^ 53, 1592262918131443 / 2 ^ 51),
    (2 * doublePi * 2 / 8, 4967757600021511 / 2 ^ 106, 1),
    (2 * doublePi * 3 / 8, -1592262918131443 / 2 ^ 51, 6369051672525773 / 2 ^ 53),
    (2 * doublePi * 4 / 8, -1, 4967757600021511 / 2 ^ 105),
    (2 * doublePi * 5 / 8, -3184525836262887 / 2 ^ 52, -1592262918131443 / 2 ^ 51),
    (2 * doublePi * 6 / 8, -3725818200016133 / 2 ^ 104, -1),
    (2 * doublePi * 7 / 8, 6369051672525771 / 2 ^ 53, -3184525836262887 / 2 ^ 52) ]

/-- The first row of a table whose angle is `x`. -/
def lookupRow (x : ℚ) : List (ℚ × ℚ × ℚ) → Option (ℚ × ℚ × ℚ)
  | [] => none
  | row :: rest => if row.1 = x then some row else lookupRow x rest

/-- The function `Math.cos` on the tabulated angles and their negatives (the
cosine of a double and of its negative are the same double).  Other arguments
are not tabulated; the value 0 stands in for them and nothing is proved from
it. -/
def doubleCos (x : ℚ) : ℚ :=
  match lookupRow |x| eighthTurnTable with
  | some row => row.2.1
  | none => 0

/-- The function `Math.sin` on the tabulated angles and their negatives (the
sine of the negative of a double is the negative of its sine).  Other arguments
are not tabulated; the value 0 stands in for them and nothing is proved from
it. -/
def doubleSin (x : ℚ) : ℚ :=
  match lookupRow |x| eighthTurnTable with
  | some row => if x < 0 then -row.2.2 else row.2.2
  | none => 0

/-- The `Math` object in IEEE-754 double arithmetic, on rings of 1, 2, 4 or 8
points per lap: `Math.PI`, `Math.cos` and `Math.sin` take the values the
runtime returns, and `Math.floor` is the floor.  Every double is a rational
number, so the values live in ℚ.  The sums and products of lines 165-166 are
those of ℚ; on the rings evaluated below (radius 10 and radius 1 around the
origin) rounding them to doubles changes no floor. -/
def doubleMath : JsMath ℚ where
  PI := doublePi
  cos := doubleCos
  sin := doubleSin
  floor := Int.floor

/-- What IEEE-754 doubles give at the eight clockwise angles
`2 * Math.PI * i / 8`: the exact value where the runtime returns 1, 0 or -1, and
the sign and rough size elsewhere.  The cosine at `i = 6` (just short of 270°)
is a small negative number; the cosine at `i = 2` and the sine at `i = 4` are
small and not negative. -/
def EighthTurnAsInDoubles {R : Type} [LinearOrderedField R] (M : JsMath R) : Prop :=
  (M.cos (2 * M.PI * 0 / 8) = 1 ∧ M.sin (2 * M.PI * 0 / 8) = 0) ∧
  ((7 / 10 ≤ M.cos (2 * M.PI * 1 / 8) ∧ M.cos (2 * M.PI * 1 / 8) < 8 / 10) ∧
    (7 / 10 ≤ M.sin (2 * M.PI * 1 / 8) ∧ M.sin (2 * M.PI * 1 / 8) < 8 / 10)) ∧
  ((0 ≤ M.cos (2 * M.PI * 2 / 8) ∧ M.cos (2 * M.PI * 2 / 8) < 1 / 10) ∧
    M.sin (2 * M.PI * 2 / 8) = 1) ∧
  ((-(8 / 10) ≤ M.cos (2 * M.PI * 3 / 8) ∧ M.cos (2 * M.PI * 3 / 8) < -(7 / 10)) ∧
    (7 / 10 ≤ M.sin (2 * M.PI * 3 / 8) ∧ M.sin (2 * M.PI * 3 / 8) < 8 / 10)) ∧
  (M.cos (2 * M.PI * 4 / 8) = -1 ∧
    (0 ≤ M.sin (2 * M.PI * 4 / 8) ∧ M.sin (2 * M.PI * 4 / 8) < 1 / 10)) ∧
  ((-(8 / 10) ≤ M.cos (2 * M.PI * 5 / 8) ∧ M.cos (2 * M.PI * 5 / 8) < -(7 / 10)) ∧
    (-(8 / 10) ≤ M.sin (2 * M.PI * 5 / 8) ∧ M.sin (2 * M.PI * 5 / 8) < -(7 / 10))) ∧
  ((-(1 / 10) ≤ M.cos (2 * M.PI * 6 / 8) ∧ M.cos (2 * M.PI * 6 / 8) < 0) ∧
    M.sin (2 * M.PI * 6 / 8) = -1) ∧
  ((7 / 10 ≤ M.cos (2 * M.PI * 7 / 8) ∧ M.cos (2 * M.PI * 7 / 8) < 8 / 10) ∧
    (-(8 / 10) ≤ M.sin (2 * M.PI * 7 / 8) ∧ M.sin (2 * M.PI * 7 / 8) < -(7 / 10)))

/-! ## Helpers for calls to the outside -/

section Programs

variable {W : Type}

/-- The statement `await op(...)` for a call `e` to the bot: the call is
recorded, the function parks, and on wake-up it sees whether the promise was
fulfilled or rejected. -/
def awaitCall {α : Type} (bot : Bot W) (e : Event) (s : State W)
    (k : Except String Unit → State W → Co (State W) α) : Co (State W) α :=
  .susp (s.emit e) (fun t => k (bot.settled t.world) t)

/-- The statement `await delay(ms)` (bot.js 742-744). -/
def awaitDelay {α : Type} (ms : Nat) (s : State W)
    (k : State W → Co (State W) α) : Co (State W) α :=
  .susp (s.emit (.delay ms)) k

/-- The test `mode === 1 || mode === 'creative'` (bot.js 336, 591, 825, 986). -/
def isCreative : GameMode → Bool
  | .num n => n == 1
  | .str s => s == "creative"

/-- The filter `item.name === itemName || item.name.includes(itemName)`. -/
def nameMatches (itemName : String) (item : Item) : Bool :=
  item.name == itemName || decide (itemName.data <:+: item.name.data)

/-! ## Night detection (bot.js 912-916) -/

/-- The function `isNightTime` of bot.js, lines 912-916. -/
def isNightTime (bot : Bot W) (w : W) : Bool :=
  match bot.timeOfDay w with
  | none => false
  | some timeOfDay => decide (timeOfDay ≥ 13000) && decide (timeOfDay < 23000)

/-- The night-preemption predicate
`config.autoSleep && isNightTime() && !isSleeping && !isAttemptingSleep`
(bot.js 177, 189, 206, 244). -/
def nightPreempt {R : Type} (cfg : Config R) (bot : Bot W) (s : State W) : Bool :=
  cfg.autoSleep && isNightTime bot s.world && !s.isSleeping && !s.isAttemptingSleep

/-! ## `ensureItemInCreativeInventory` (bot.js 807-880) -/

/-- The sum `items.filter(i => i.name === itemName).reduce(...)` of lines
816-817 and 858-859. -/
def heldCount (items : List Item) (itemName : String) : Nat :=
  (items.filter (fun i => i.name == itemName)).foldl (fun sum item => sum + item.count) 0

/-- The function `ensureItemInCreativeInventory` of bot.js, lines 807-880. -/
def ensureItemInCreativeInventory (bot : Bot W) (itemName : String) (count : Nat)
    (s : State W) : Co (State W) Bool :=
  if s.creativeInventoryLock then
    .done s false
  else
    let s := { s with creativeInventoryLock := true }
    let totalCount := heldCount (bot.inventoryItems s.world) itemName
    if totalCount ≥ count then
      .done { s with creativeInventoryLock := false } true
    else if !isCreative (bot.gameMode s.world) then
      .done { s with creativeInventoryLock := false } false
    else
      match bot.itemsByName s.world with
      | .error _ => .done { s with creativeInventoryLock := false } false
      | .ok itemsByName =>
        match itemsByName itemName with
        | none => .done { s with creativeInventoryLock := false } false
        | some itemId =>
          let targetSlot :=
            match bot.firstEmptySlotRange s.world 9 45 with
            | some slot => slot
            | none => 9 + bot.randomFloor s.world 27
          awaitCall bot (.setInventorySlot targetSlot itemId count) s fun r s1 =>
            match r with
            | .error _ => .done { s1 with creativeInventoryLock := false } false
            | .ok _ =>
              awaitDelay 500 s1 fun s2 =>
                let newTotal := heldCount (bot.inventoryItems s2.world) itemName
                if newTotal > 0 then
                  .done { s2 with creativeInventoryLock := false } true
                else
                  .done { s2 with creativeInventoryLock := false } false

/-! ## `placeAndBreakBlock` (bot.js 576-740) -/

/-- The candidate list built at lines 617-625. -/
def blockPlacementAttempts (botX botY botZ : Int) : List BlockAttempt :=
  (List.range' 2 3).flatMap fun distance =>
    [ { pos := ⟨botX + distance, botY, botZ⟩, ref := ⟨botX + distance, botY - 1, botZ⟩,
        vec := ⟨0, 1, 0⟩, name := toString distance ++ "m east" },
      { pos := ⟨botX - distance, botY, botZ⟩, ref := ⟨botX - distance, botY - 1, botZ⟩,
        vec := ⟨0, 1, 0⟩, name := toString distance ++ "m west" },
      { pos := ⟨botX, botY, botZ + distance⟩, ref := ⟨botX, botY - 1, botZ + distance⟩,
        vec := ⟨0, 1, 0⟩, name := toString distance ++ "m south" },
      { pos := ⟨botX, botY, botZ - distance⟩, ref := ⟨botX, botY - 1, botZ - distance⟩,
        vec := ⟨0, 1, 0⟩, name := toString distance ++ "m north" } ]

/-- The test `targetBlock && targetBlock.name !== "air"` of line 637. -/
def targetOccupied (targetBlock : Option Block) : Bool :=
  match targetBlock with
  | some b => b.name != "air"
  | none => false

/-- The test `verifyBlock && verifyBlock.name !== "air" && verifyBlock.name === blockType`
of lines 660-664. -/
def verifyPlaced (blockType : String) (verifyBlock : Option Block) : Bool :=
  match verifyBlock with
  | some b => b.name != "air" && b.name == blockType
  | none => false

/-- The loop `for (const attempt of placementAttempts)` of lines 629-680.  The
result is the pair `(placementSuccess, placedBlockPosition)` at loop exit. -/
def placementLoop (bot : Bot W) (blockType : String) :
    List BlockAttempt → State W → Co (State W) (Bool × Option Vec3)
  | [], s => .done s (false, none)
  | attempt :: rest, s =>
    let targetBlock := bot.blockAt s.world attempt.pos
    let referenceBlock := bot.blockAt s.world attempt.ref
    if targetOccupied targetBlock then
      placementLoop bot blockType rest s
    else
      match referenceBlock with
      | none => placementLoop bot blockType rest s
      | some reference =>
        if reference.name == "air" then
          placementLoop bot blockType rest s
        else
          awaitCall bot (.placeBlock reference attempt.vec) s fun r s1 =>
            match r with
            | .error _ => placementLoop bot blockType rest s1
            | .ok _ =>
              awaitDelay 500 s1 fun s2 =>
                if verifyPlaced blockType (bot.blockAt s2.world attempt.pos) then
                  .done s2 (true, some attempt.pos)
                else
                  placementLoop bot blockType rest s2

/-- The break step of `placeAndBreakBlock`, lines 682-731. -/
def breakPlacedBlock (bot : Bot W) (r : Bool × Option Vec3) (s : State W) :
    Co (State W) Unit :=
  if !r.1 then
    .done s ()
  else
    awaitDelay 700 s fun s1 =>
      match r.2 with
      | none => .done s1 ()
      | some placedBlockPosition =>
        match bot.blockAt s1.world placedBlockPosition with
        | none => .done s1 ()
        | some placedBlock =>
          if placedBlock.name == "air" then .done s1 ()
          else if !bot.canDigBlock s1.world placedBlock then .done s1 ()
          else
            awaitCall bot (.dig placedBlock) s1 fun d s2 =>
              match d with
              | .error _ => .done s2 ()
              | .ok _ => awaitDelay 200 s2 fun s3 => .done s3 ()

/-- The function `placeAndBreakBlock` of bot.js, lines 576-740. -/
def placeAndBreakBlock {R : Type} (cfg : Config R) (bot : Bot W) (s : State W) :
    Co (State W) Unit :=
  let blockType := cfg.blockType
  match bot.itemsByName s.world with
  | .error _ => .done s ()
  | .ok itemsByName =>
    match itemsByName blockType with
    | none => .done s ()
    | some _ =>
      let afterEnsure : State W → Co (State W) Unit := fun s1 =>
        match (bot.inventoryItems s1.world).find? (fun item => item.name == blockType) with
        | none => .done s1 ()
        | some itemInInventory =>
          awaitCall bot (.equip itemInInventory "hand") s1 fun e s2 =>
            match e with
            | .error _ => .done s2 ()
            | .ok _ =>
              awaitDelay 100 s2 fun s3 =>
                let pos := bot.positionFloored s3.world
                Co.seq (placementLoop bot blockType (blockPlacementAttempts pos.x pos.y pos.z) s3)
                  (breakPlacedBlock bot)
      if isCreative (bot.gameMode s.world) then
        Co.bind (ensureItemInCreativeInventory bot blockType 64 s) (fun _ s1 => afterEnsure s1)
      else
        afterEnsure s

/-! ## Patrol leg (bot.js 229-298) -/

/-- One pass of the inner loop `for (let i = 0; i < points.length; i++)` of
`walkCircle`, lines 243-276.  The result is `ok false` when the function
returned early at line 246, `ok true` when the loop ran out of points, and
`error` when a call threw. -/
def walkPoints {R : Type} (cfg : Config R) (bot : Bot W) :
    List Point → State W → Co (State W) (Except String Bool)
  | [], s => .done s (.ok true)
  | point :: rest, s =>
    if nightPreempt cfg bot s then
      .done s (.ok false)
    else
      let y := cfg.centerY
      let goal := Goal.near point.x y point.z 1
      match bot.setGoal s.world (some goal) with
      | .error e => .done (s.emit (.setGoal (some goal))) (.error e)
      | .ok _ =>
        let s1 := s.emit (.setGoal (some goal))
        let s2 := if cfg.jumpWhileWalking then s1.emit (.setInterval .jump 100) else s1
        .susp (s2.emit (.awaitArrival point.x y point.z 2)) fun s3 =>
          let s4 := if cfg.jumpWhileWalking then s3.emit (.clearInterval .jump) else s3
          let s5 := s4.emit (.setControlState "jump" false)
          match bot.setGoal s5.world none with
          | .error e => .done (s5.emit (.setGoal none)) (.error e)
          | .ok _ =>
            awaitDelay cfg.walkSpeed (s5.emit (.setGoal none)) fun s6 =>
              walkPoints cfg bot rest s6

/-- The outer loop `for (let round = 1; round <= rounds; round++)` of
`walkCircle`, lines 240-277. -/
def walkRounds {R : Type} (cfg : Config R) (bot : Bot W) (points : List Point) :
    Nat → State W → Co (State W) (Except String Unit)
  | 0, s => .done s (.ok ())
  | rounds + 1, s =>
    Co.seq (walkPoints cfg bot points s) fun r s1 =>
      match r with
      | .error e => .done s1 (.error e)
      | .ok false => .done s1 (.ok ())
      | .ok true => walkRounds cfg bot points rounds s1

/-- The function `walkCircle` of bot.js, lines 229-280. -/
def walkCircle {R : Type} [Field R] (M : JsMath R) (cfg : Config R) (bot : Bot W)
    (clockwise : Bool) (rounds : Nat) (s : State W) : Co (State W) (Except String Unit) :=
  let points := generateCirclePoints M cfg.centerX cfg.centerZ cfg.radius
    cfg.pointsPerCircle clockwise
  walkRounds cfg bot points rounds s

/-- The function `moveToLocation` of bot.js, lines 300-321.  The timers of the
promise clear the goal just before they resolve it. -/
def moveToLocation (bot : Bot W) (x y z : Int) (s : State W) :
    Co (State W) (Except String Unit) :=
  let goal := Goal.near x y z 1
  match bot.setGoal s.world (some goal) with
  | .error e => .done (s.emit (.setGoal (some goal))) (.error e)
  | .ok _ =>
    .susp ((s.emit (.setGoal (some goal))).emit (.awaitArrival x y z 2)) fun s1 =>
      .done (s1.emit (.setGoal none)) (.ok ())

/-! ## Container interaction (bot.js 323-574) -/

/-- The function `findNearbyChest` of bot.js, lines 323-330. -/
def findNearbyChest (bot : Bot W) (s : State W) : Co (State W) (Option Block) :=
  let chestNames := ["chest", "trapped_chest", "ender_chest"]
  .done s (bot.findBlock s.world (fun block => chestNames.contains block.name) 64)

/-- The candidate list built at lines 358-366 (chest) and 1004-1012 (bed). -/
def sitePlacementAttempts (botX botY botZ : Int) : List Attempt :=
  (List.range' 2 4).flatMap fun distance =>
    [ { pos := ⟨botX + distance, botY, botZ⟩, ref := ⟨botX + distance, botY - 1, botZ⟩,
        name := toString distance ++ "m east" },
      { pos := ⟨botX - distance, botY, botZ⟩, ref := ⟨botX - distance, botY - 1, botZ⟩,
        name := toString distance ++ "m west" },
      { pos := ⟨botX, botY, botZ + distance⟩, ref := ⟨botX, botY - 1, botZ + distance⟩,
        name := toString distance ++ "m south" },
      { pos := ⟨botX, botY, botZ - distance⟩, ref := ⟨botX, botY - 1, botZ - distance⟩,
        name := toString distance ++ "m north" } ]

/-- The loop `for (const attempt of placementAttempts)` of `placeChest`, lines
368-393; the result is the value returned at line 386, if any. -/
def chestPlacementLoop (bot : Bot W) (chestItem : Item) :
    List Attempt → State W → Co (State W) (Option (Option Block))
  | [], s => .done s none
  | attempt :: rest, s =>
    match bot.blockAt s.world attempt.pos, bot.blockAt s.world attempt.ref with
    | some targetBlock, some referenceBlock =>
      if targetBlock.name == "air" && referenceBlock.name != "air" then
        awaitCall bot (.equip chestItem "hand") s fun e s1 =>
          match e with
          | .error _ => chestPlacementLoop bot chestItem rest s1
          | .ok _ =>
            awaitDelay 200 s1 fun s2 =>
              awaitCall bot (.placeBlock referenceBlock ⟨0, 1, 0⟩) s2 fun r s3 =>
                match r with
                | .error _ => chestPlacementLoop bot chestItem rest s3
                | .ok _ =>
                  awaitDelay 500 s3 fun s4 =>
                    .done s4 (some (bot.blockAt s4.world attempt.pos))
      else
        chestPlacementLoop bot chestItem rest s
    | _, _ => chestPlacementLoop bot chestItem rest s

/-- The function `placeChest` of bot.js, lines 332-401. -/
def placeChest (bot : Bot W) (s : State W) : Co (State W) (Option Block) :=
  let afterEnsure : State W → Co (State W) (Option Block) := fun s1 =>
    match bot.itemsByName s1.world with
    | .error _ => .done s1 none
    | .ok _ =>
      match (bot.inventoryItems s1.world).find?
          (fun item => item.name == "chest" || item.name == "trapped_chest") with
      | none => .done s1 none
      | some chestItem =>
        let pos := bot.positionFloored s1.world
        Co.seq (chestPlacementLoop bot chestItem (sitePlacementAttempts pos.x pos.y pos.z) s1)
          fun r s2 =>
            match r with
            | some placedChest => .done s2 placedChest
            | none => .done s2 none
  if isCreative (bot.gameMode s.world) then
    Co.bind (ensureItemInCreativeInventory bot "chest" 64 s) (fun _ s1 => afterEnsure s1)
  else
    afterEnsure s

/-- The function `openChest` of bot.js, lines 403-429; the result tells whether
a container handle was obtained. -/
def openChest (bot : Bot W) (chestBlock : Block) (s : State W) : Co (State W) Bool :=
  let openIt : State W → Co (State W) Bool := fun s1 =>
    awaitCall bot (.openChest chestBlock) s1 fun r s2 =>
      match r with
      | .error _ => .done s2 false
      | .ok _ => .done s2 true
  let distance := bot.distanceTo s.world chestBlock.position
  if distance > 4 then
    Co.bind (moveToLocation bot chestBlock.position.x chestBlock.position.y
        chestBlock.position.z s) fun m s1 =>
      match m with
      | .error _ => .done s1 false
      | .ok _ => awaitDelay 300 s1 openIt
  else
    openIt s

/-- The loop `for (const item of items)` of `depositItemsToChest`, lines
444-456; `error` is a rejected `chest.deposit`. -/
def depositLoop (bot : Bot W) (count : Option Int) :
    List Item → Int → State W → Co (State W) (Except String Int)
  | [], totalDeposited, s => .done s (.ok totalDeposited)
  | item :: rest, totalDeposited, s =>
    let amountToDeposit : Int :=
      match count with
      | some c => min (c - totalDeposited) item.count
      | none => item.count
    if amountToDeposit ≤ 0 then
      .done s (.ok totalDeposited)
    else
      awaitCall bot (.deposit item.type amountToDeposit) s fun r s1 =>
        match r with
        | .error e => .done s1 (.error e)
        | .ok _ =>
          awaitDelay 300 s1 fun s2 =>
            depositLoop bot count rest (totalDeposited + amountToDeposit) s2

/-- The function `depositItemsToChest` of bot.js, lines 431-464. -/
def depositItemsToChest (bot : Bot W) (itemName : String) (count : Option Int)
    (s : State W) : Co (State W) Int :=
  let items := (bot.inventoryItems s.world).filter (nameMatches itemName)
  if items.length = 0 then
    .done s 0
  else
    Co.seq (depositLoop bot count items 0 s) fun r s1 =>
      match r with
      | .error _ => .done s1 0
      | .ok totalDeposited => .done s1 totalDeposited

/-- The loop `for (const item of targetItems)` of `withdrawItemsFromChest`,
lines 480-489. -/
def withdrawLoop (bot : Bot W) (count : Int) :
    List Item → Int → State W → Co (State W) (Except String Int)
  | [], totalWithdrawn, s => .done s (.ok totalWithdrawn)
  | item :: rest, totalWithdrawn, s =>
    let amountToWithdraw : Int := min (count - totalWithdrawn) item.count
    if amountToWithdraw ≤ 0 then
      .done s (.ok totalWithdrawn)
    else
      awaitCall bot (.withdraw item.type amountToWithdraw) s fun r s1 =>
        match r with
        | .error e => .done s1 (.error e)
        | .ok _ =>
          awaitDelay 300 s1 fun s2 =>
            withdrawLoop bot count rest (totalWithdrawn + amountToWithdraw) s2

/-- The function `withdrawItemsFromChest` of bot.js, lines 466-497. -/
def withdrawItemsFromChest (bot : Bot W) (itemName : String) (count : Int)
    (s : State W) : Co (State W) Int :=
  let targetItems := (bot.containerItems s.world).filter (nameMatches itemName)
  if targetItems.length = 0 then
    .done s 0
  else
    Co.seq (withdrawLoop bot count targetItems 0 s) fun r s1 =>
      match r with
      | .error _ => .done s1 0
      | .ok totalWithdrawn => .done s1 totalWithdrawn

/-- The loop over `config.chestInteraction.depositItems`, lines 542-546. -/
def depositAll (bot : Bot W) : List (String × Option Int) → State W → Co (State W) Unit
  | [], s => .done s ()
  | (itemName, count) :: rest, s =>
    Co.bind (depositItemsToChest bot itemName count s) fun _ s1 => depositAll bot rest s1

/-- The loop over `config.chestInteraction.withdrawItems`, lines 551-555. -/
def withdrawAll (bot : Bot W) : List (String × Int) → State W → Co (State W) Unit
  | [], s => .done s ()
  | (itemName, count) :: rest, s =>
    Co.bind (withdrawItemsFromChest bot itemName count s) fun _ s1 => withdrawAll bot rest s1

/-- The function `chestInteraction` of bot.js, lines 499-574. -/
def chestInteraction {R : Type} (cfg : Config R) (bot : Bot W) (s : State W) :
    Co (State W) Unit :=
  match cfg.chestInteraction with
  | none => .done s ()
  | some chestCfg =>
    if !chestCfg.enabled then
      .done s ()
    else
      let withChest : Block → State W → Co (State W) Unit := fun chestBlock s1 =>
        Co.bind (openChest bot chestBlock s1) fun chest s2 =>
          if !chest then
            .done s2 ()
          else
            let withdrawStep : State W → Co (State W) Unit := fun s3 =>
              match chestCfg.withdrawItems with
              | some entries =>
                Co.seq (withdrawAll bot entries s3) fun _ s4 => .done (s4.emit .closeChest) ()
              | none => .done (s3.emit .closeChest) ()
            match chestCfg.depositItems with
            | some entries => Co.seq (depositAll bot entries s2) fun _ s3 => withdrawStep s3
            | none => withdrawStep s2
      Co.bind (findNearbyChest bot s) fun found s1 =>
        match found with
        | some chestBlock => withChest chestBlock s1
        | none =>
          Co.bind (placeChest bot s1) fun placed s2 =>
            match placed with
            | none => .done s2 ()
            | some chestBlock => withChest chestBlock s2

/-! ## Sleep routine (bot.js 943-1127) -/

/-- The list `bedNames` of lines 958-975. -/
def bedNames : List String :=
  [ "red_bed", "blue_bed", "green_bed", "yellow_bed", "white_bed", "black_bed",
    "brown_bed", "cyan_bed", "gray_bed", "light_blue_bed", "light_gray_bed", "lime_bed",
    "magenta_bed", "orange_bed", "pink_bed", "purple_bed" ]

/-- The predicate `(block) => bedNames.includes(block.name)` of lines 979 and
1033. -/
def bedMatching (block : Block) : Bool :=
  bedNames.contains block.name

/-- The predicate `(item) => bedNames.some((name) => item.name === name)` of
line 994. -/
def isBedItem (item : Item) : Bool :=
  bedNames.any (fun name => item.name == name)

/-- The value `config.bedSearchRadius || 20` of line 977. -/
def bedSearchRadius {R : Type} (cfg : Config R) : Nat :=
  match cfg.bedSearchRadius with
  | some r => if r = 0 then 20 else r
  | none => 20

/-- The clean-up shared by lines 1108-1111, 1115-1118 and 1122-1125: clear the
three flags and schedule `startCircularPattern` in 2000 ms. -/
def sleepAborted (s : State W) : State W :=
  ({ s with isSleeping := false, isProcessing := false, isAttemptingSleep := false }).emit
    (.setTimeout .startCircularPattern 2000)

/-- The handler registered by `bot.once("wake", ...)`, lines 1095-1105. -/
def wakeHandler (s : State W) : State W :=
  ({ s with isSleeping := false, isProcessing := false, isAttemptingSleep := false }).emit
    (.setTimeout .startCircularPattern 2000)

/-- The loop `for (const attempt of placementAttempts)` of `tryToSleep`, lines
1016-1043; the result is the pair `(bedPlaced, bedBlock)` at loop exit. -/
def bedPlacementLoop (bot : Bot W) (bedItem : Item) :
    List Attempt → State W → Co (State W) (Bool × Option Block)
  | [], s => .done s (false, none)
  | attempt :: rest, s =>
    match bot.blockAt s.world attempt.pos, bot.blockAt s.world attempt.ref with
    | some targetBlock, some referenceBlock =>
      if targetBlock.name == "air" && referenceBlock.name != "air" then
        awaitCall bot (.equip bedItem "hand") s fun e s1 =>
          match e with
          | .error _ => bedPlacementLoop bot bedItem rest s1
          | .ok _ =>
            awaitDelay 200 s1 fun s2 =>
              awaitCall bot (.placeBlock referenceBlock ⟨0, 1, 0⟩) s2 fun r s3 =>
                match r with
                | .error _ => bedPlacementLoop bot bedItem rest s3
                | .ok _ =>
                  awaitDelay 500 s3 fun s4 =>
                    .done s4 (true, bot.findBlock s4.world bedMatching 10)
      else
        bedPlacementLoop bot bedItem rest s
    | _, _ => bedPlacementLoop bot bedItem rest s

/-- The second half of `tryToSleep`, lines 1057-1119: travel to the bed and
sleep, or give up when there is no bed. -/
def sleepAtBed (bot : Bot W) (bedBlock : Option Block) (s : State W) : Co (State W) Unit :=
  match bedBlock with
  | none => .done (sleepAborted s) ()
  | some bed =>
    let goSleep : State W → Co (State W) Unit := fun s1 =>
      awaitDelay 300 s1 fun s2 =>
        awaitCall bot (.sleep bed) s2 fun r s3 =>
          match r with
          | .ok _ => .done (s3.emit (.once .wake)) ()
          | .error _ => .done (sleepAborted s3) ()
    let distance := bot.distanceTo s.world bed.position
    if distance > 3 then
      let goal := Goal.block bed.position.x bed.position.y bed.position.z
      match bot.setGoal s.world (some goal) with
      | .error _ => .done (sleepAborted (s.emit (.setGoal (some goal)))) ()
      | .ok _ =>
        .susp ((s.emit (.setGoal (some goal))).emit
            (.awaitArrival bed.position.x bed.position.y bed.position.z 3)) fun s1 =>
          goSleep (s1.emit (.setGoal none))
    else
      goSleep s

/-- The function `tryToSleep` of bot.js, lines 943-1127. -/
def tryToSleep {R : Type} (cfg : Config R) (bot : Bot W) (s : State W) : Co (State W) Unit :=
  if s.isSleeping then
    .done { s with isAttemptingSleep := false } ()
  else
    let s := { s with lastSleepAttempt := bot.now s.world, isSleeping := true,
                      isProcessing := true }
    match bot.setGoal s.world none with
    | .error _ => .done (sleepAborted (s.emit (.setGoal none))) ()
    | .ok _ =>
      let s := s.emit (.setGoal none)
      match bot.itemsByName s.world with
      | .error _ => .done (sleepAborted s) ()
      | .ok _ =>
        match bot.findBlock s.world bedMatching (bedSearchRadius cfg) with
        | some bedBlock => sleepAtBed bot (some bedBlock) s
        | none =>
          let afterEnsure : State W → Co (State W) Unit := fun s1 =>
            match (bot.inventoryItems s1.world).find? isBedItem with
            | some bedItem =>
              let pos := bot.positionFloored s1.world
              Co.seq (bedPlacementLoop bot bedItem (sitePlacementAttempts pos.x pos.y pos.z) s1)
                fun r s2 => sleepAtBed bot r.2 s2
            | none => sleepAtBed bot none s1
          if isCreative (bot.gameMode s.world) then
            Co.bind (ensureItemInCreativeInventory bot "red_bed" 1 s) (fun _ s1 => afterEnsure s1)
          else
            afterEnsure s

/-- The callback of `setInterval` in `startNightMonitoring`, lines 927-940. -/
def nightMonitorTick {R : Type} (cfg : Config R) (bot : Bot W) (s : State W) :
    Co (State W) Unit :=
  if isNightTime bot s.world && !s.isSleeping && !s.isProcessing && !s.isAttemptingSleep then
    let s := { s with isAttemptingSleep := true }
    let now := bot.now s.world
    if now - s.lastSleepAttempt < 10000 then
      .done { s with isAttemptingSleep := false } ()
    else
      Co.bind (tryToSleep cfg bot s) fun _ s1 => .done s1 ()
  else
    .done s ()

/-! ## Cycle orchestrator (bot.js 172-227) -/

/-- The hand-off `isProcessing = false; await tryToSleep(); return;` of lines
178-180, 190-192 and 207-209. -/
def handOffToSleep {R : Type} (cfg : Config R) (bot : Bot W) (s : State W) :
    Co (State W) Unit :=
  Co.bind (tryToSleep cfg bot { s with isProcessing := false }) fun _ s1 => .done s1 ()

/-- The `catch` block of `startCircularPattern`, lines 222-226. -/
def cycleFault {R : Type} (cfg : Config R) (s : State W) : State W :=
  ({ s with isProcessing := false }).emit
    (.setTimeout .startCircularPattern cfg.delayBetweenActions)

/-- The function `startCircularPattern` of bot.js, lines 172-227.  The call
`startCircularPattern()` of line 221, which is not awaited, is recorded as
`Event.call`; the next cycle is a fresh run from the final state. -/
def startCircularPattern {R : Type} [Field R] (M : JsMath R) (cfg : Config R) (bot : Bot W)
    (s : State W) : Co (State W) Unit :=
  if s.isProcessing || s.isSleeping then
    .done s ()
  else
    let s := { s with isProcessing := true }
    if nightPreempt cfg bot s then
      handOffToSleep cfg bot s
    else
      let s := { s with cycleCount := s.cycleCount + 1 }
      Co.bind (walkCircle M cfg bot true 2 s) fun w1 s1 =>
        match w1 with
        | .error _ => .done (cycleFault cfg s1) ()
        | .ok _ =>
          if nightPreempt cfg bot s1 then
            handOffToSleep cfg bot s1
          else
            awaitDelay 1000 s1 fun s2 =>
              Co.bind (placeAndBreakBlock cfg bot s2) fun _ s3 =>
                awaitDelay cfg.delayBetweenActions s3 fun s4 =>
                  Co.bind (chestInteraction cfg bot s4) fun _ s5 =>
                    Co.bind (walkCircle M cfg bot false 2 s5) fun w2 s6 =>
                      match w2 with
                      | .error _ => .done (cycleFault cfg s6) ()
                      | .ok _ =>
                        if nightPreempt cfg bot s6 then
                          handOffToSleep cfg bot s6
                        else
                          awaitDelay 1000 s6 fun s7 =>
                            Co.bind (placeAndBreakBlock cfg bot s7) fun _ s8 =>
                              awaitDelay cfg.delayBetweenActions s8 fun s9 =>
                                .done (({ s9 with isProcessing := false }).emit
                                  (.call .startCircularPattern)) ()

/-! ## Reconnection (bot.js 134-152) -/

/-- The function `attemptReconnect` of bot.js, lines 134-152, up to the point
where the timer is armed. -/
def attemptReconnect (s : State W) : State W :=
  if s.reconnectAttempts ≥ 10 then
    s.emit (.exit 1)
  else
    ({ s with reconnectAttempts := s.reconnectAttempts + 1 }).emit (.setTimeout .reconnect 5000)

/-- The timer callback of `attemptReconnect`, lines 147-151. -/
def reconnectTimer (s : State W) : State W :=
  ({ s with isProcessing := false, cycleCount := 0 }).emit (.call .createBot)

end Programs

/-! ## Reading the placement loop

The words of the placement contract, stated on their own so that the loop of
`placeAndBreakBlock` can be compared with them. -/

section Reading

variable {W : Type}

/-- The directly-below reference cell of a candidate holds a block other than
air. -/
def referenceSolid (bot : Bot W) (w : W) (a : BlockAttempt) : Bool :=
  match bot.blockAt w a.ref with
  | some b => b.name != "air"
  | none => false

/-- Both preconditions of a candidate hold: the target cell is empty (air, or
no block reported) and the reference cell is solid. -/
def siteReady (bot : Bot W) (w : W) (a : BlockAttempt) : Bool :=
  !targetOccupied (bot.blockAt w a.pos) && referenceSolid bot w a

/-- The state in which the function wakes up from the place action issued for
candidate `a` in state `s`. -/
def afterPlace (bot : Bot W) (env : State W → State W) (a : BlockAttempt) (s : State W) :
    State W :=
  match bot.blockAt s.world a.ref with
  | some reference => env (s.emit (.placeBlock reference a.vec))
  | none => s

/-- The state in which the function wakes up from the settle delay that follows
the place action for candidate `a`. -/
def afterSettle (bot : Bot W) (env : State W → State W) (a : BlockAttempt) (s : State W) :
    State W :=
  env ((afterPlace bot env a s).emit (.delay 500))

/-- The place action for `a` is fulfilled and the re-query of the target cell
after the settle delay reports the expected block kind. -/
def placementVerifies (bot : Bot W) (env : State W → State W) (blockType : String)
    (a : BlockAttempt) (s : State W) : Bool :=
  (match bot.settled (afterPlace bot env a s).world with
    | .ok _ => true
    | .error _ => false) &&
  (match bot.blockAt (afterSettle bot env a s).world a.pos with
    | some b => b.name == blockType && b.name != "air"
    | none => false)

/-- A candidate qualifies in state `s`: target empty, reference solid, and the
placement passes verification. -/
def qualifies (bot : Bot W) (env : State W → State W) (blockType : String)
    (a : BlockAttempt) (s : State W) : Bool :=
  siteReady bot s.world a && placementVerifies bot env blockType a s

/-- The state from which the next candidate is examined when `a` did not
qualify: unchanged when a precondition failed, otherwise the state left by the
failed attempt. -/
def passedOver (bot : Bot W) (env : State W → State W) (a : BlockAttempt) (s : State W) :
    State W :=
  if siteReady bot s.world a then
    match bot.settled (afterPlace bot env a s).world with
    | .ok _ => afterSettle bot env a s
    | .error _ => afterPlace bot env a s
  else s

/-- The state reached after passing over a run of candidates. -/
def passedOverAll (bot : Bot W) (env : State W → State W) :
    List BlockAttempt → State W → State W
  | [], s => s
  | a :: rest, s => passedOverAll bot env rest (passedOver bot env a s)

/-- None of the candidates qualifies when its turn comes. -/
def noneQualifies (bot : Bot W) (env : State W → State W) (blockType : String) :
    List BlockAttempt → State W → Bool
  | [], _ => true
  | a :: rest, s =>
    !qualifies bot env blockType a s && noneQualifies bot env blockType rest (passedOver bot env a s)

/-- The rest of a patrol leg, seen from the check made before a point visit:
`remaining` are the points of the current lap still to be visited, and
`roundsLeft` further laps over `points` follow. -/
def walkFrom {R : Type} (cfg : Config R) (bot : Bot W) (points remaining : List Point)
    (roundsLeft : Nat) (s : State W) : Co (State W) (Except String Unit) :=
  Co.seq (walkPoints cfg bot remaining s) fun r s1 =>
    match r with
    | .error e => .done s1 (.error e)
    | .ok false => .done s1 (.ok ())
    | .ok true => walkRounds cfg bot points roundsLeft s1

/-- The bed loop tries a candidate: both lookups return a block, the target is
air and the reference is not (lines 1020-1022). -/
def bedSiteReady (bot : Bot W) (w : W) (a : Attempt) : Bool :=
  match bot.blockAt w a.pos, bot.blockAt w a.ref with
  | some targetBlock, some referenceBlock =>
    targetBlock.name == "air" && referenceBlock.name != "air"
  | _, _ => false

end Reading

/-! ## A small concrete world

Used to evaluate the functions on explicit inputs. -/

/-- A flat world: every cell at height `floorY` or below is stone, the cells in
`placed` hold the named block, every other cell is air. -/
structure DemoWorld where
  placed : List (Vec3 × String)
  floorY : Int
  position : Vec3
  items : List Item
  mode : GameMode
  time : Option Nat
  clock : Int
  bed : Option Block
  deriving DecidableEq, Repr

/-- The block found at a cell of a `DemoWorld`. -/
def DemoWorld.blockAt (w : DemoWorld) (p : Vec3) : Option Block :=
  match w.placed.find? (fun c => c.1 == p) with
  | some c => some { name := c.2, position := p }
  | none => if p.y ≤ w.floorY then some { name := "stone", position := p }
            else some { name := "air", position := p }

/-- The bot over a `DemoWorld`: calls never throw and promises are fulfilled. -/
def demoBot : Bot DemoWorld where
  blockAt := DemoWorld.blockAt
  findBlock := fun w matching _ =>
    match w.bed with
    | some b => if matching b then some b else none
    | none => none
  inventoryItems := fun w => w.items
  containerItems := fun _ => []
  gameMode := fun w => w.mode
  timeOfDay := fun w => w.time
  positionFloored := fun w => w.position
  distanceTo := fun _ _ => 0
  canDigBlock := fun _ _ => true
  firstEmptySlotRange := fun _ _ _ => some 9
  randomFloor := fun _ _ => 0
  itemsByName := fun _ => .ok (fun name => if name == "stone" then some 1 else none)
  now := fun w => w.clock
  setGoal := fun _ _ => .ok ()
  settled := fun _ => .ok ()

/-- What the `DemoWorld` does while a function is parked: a place action puts a
stone block on the face of the reference block, an injection into an inventory
slot adds a stone stack (the only item the game data of `demoBot` knows), and
nothing else changes. -/
def demoEnv (s : State DemoWorld) : State DemoWorld :=
  match s.trace.getLast? with
  | some (.placeBlock reference face) =>
    { s with world :=
        { s.world with placed :=
            (⟨reference.position.x + face.x, reference.position.y + face.y,
              reference.position.z + face.z⟩, "stone") :: s.world.placed } }
  | some (.setInventorySlot _ itemId count) =>
    { s with world :=
        { s.world with items :=
            { name := "stone", count := count, type := itemId } :: s.world.items } }
  | _ => s

/-- The state of a freshly started process (bot.js 42, 54-62) in a given world. -/
def initialState {W : Type} (w : W) : State W where
  world := w
  isProcessing := false
  cycleCount := 0
  isSleeping := false
  isAttemptingSleep := false
  lastSleepAttempt := 0
  creativeInventoryLock := false
  reconnectAttempts := 0
  trace := []

/-- A daytime survival world with a stone floor at height 63, the bot standing
at (0, 64, 0) holding stone. -/
def flatWorld : DemoWorld where
  placed := []
  floorY := 63
  position := ⟨0, 64, 0⟩
  items := [{ name := "stone", count := 64, type := 1 }]
  mode := .num 0
  time := some 1000
  clock := 100000
  bed := none

/-- The world `flatWorld` at night, with a red bed next to the bot, 2000 ms
after the clock value 98000. -/
def nightWorld : DemoWorld :=
  { flatWorld with time := some 14000, bed := some { name := "red_bed", position := ⟨1, 64, 0⟩ } }

/-- A configuration with the patrol of the specification scenario (radius 10,
8 points per lap) and `autoSleep` switched on. -/
noncomputable def demoConfig : Config ℝ where
  centerX := 0
  centerY := 64
  centerZ := 0
  radius := 10
  pointsPerCircle := 8
  walkSpeed := 100
  delayBetweenActions := 1000
  blockType := "stone"
  autoSleep := true
  jumpWhileWalking := false
  bedSearchRadius := some 20
  chestInteraction := none

/-- An idle process at night whose previous sleep attempt was recorded 2000 ms
ago (clock 100000, `lastSleepAttempt` 98000). -/
def recentAttemptState : State DemoWorld :=
  { initialState nightWorld with lastSleepAttempt := 98000 }

/-- The world `flatWorld` at night: no bed nearby, survival mode, no bed in the
inventory. -/
def bedlessNightWorld : DemoWorld :=
  { flatWorld with time := some 14000 }

/-- The world `flatWorld` in creative mode with an empty inventory. -/
def creativeWorld : DemoWorld :=
  { flatWorld with mode := .num 1, items := [] }

/-- The world `flatWorld` with a stone block standing two cells east of the bot. -/
def blockedEastWorld : DemoWorld :=
  { flatWorld with placed := [(⟨2, 64, 0⟩, "stone")] }

/-- The world `flatWorld` with stone blocks standing two cells east, west, south
and north of the bot. -/
def walledWorld : DemoWorld :=
  { flatWorld with placed := [(⟨2, 64, 0⟩, "stone"), (⟨-2, 64, 0⟩, "stone"),
      (⟨0, 64, 2⟩, "stone"), (⟨0, 64, -2⟩, "stone")] }

/-- A process asleep at night after a monitor-triggered attempt, three cycles
into its session. -/
def asleepState : State DemoWorld where
  world := nightWorld
  isProcessing := true
  cycleCount := 3
  isSleeping := true
  isAttemptingSleep := true
  lastSleepAttempt := 90000
  creativeInventoryLock := false
  reconnectAttempts := 0
  trace := []

/-- The world `flatWorld` in creative mode with ten stone in the inventory. -/
def stockedCreativeWorld : DemoWorld :=
  { flatWorld with mode := .num 1, items := [{ name := "stone", count := 10, type := 1 }] }

/-- Surroundings in which nothing changes while a function is parked: promises
are fulfilled but actions have no effect on the world. -/
def stillEnv (s : State DemoWorld) : State DemoWorld := s

/-- A bot over a `DemoWorld` that reports no block at all for the cells above
the floor (as `bot.blockAt` does for cells it has no data for). -/
def fogBot : Bot DemoWorld :=
  { demoBot with
    blockAt := fun w p => if p.y ≤ w.floorY then DemoWorld.blockAt w p else none }

/-- The world `flatWorld` with a red bed in the inventory. -/
def bedCarrierWorld : DemoWorld :=
  { flatWorld with items := [{ name := "red_bed", count := 1, type := 2 }] }

/-- Every state in which the run parks or ends satisfies `P`, provided the run
is only ever resumed in states that satisfy `P`. -/
def Co.Keeps {σ α : Type} (P : σ → Prop) : Co σ α → Prop
  | .done s _ => P s
  | .susp s k => P s ∧ ∀ t, P t → Co.Keeps P (k t)

/-- The amounts of the `chest.deposit` calls among a list of issued calls, in
order. -/
def depositedAmounts : List Event → List Int
  | [] => []
  | .deposit _ count :: rest => count :: depositedAmounts rest
  | _ :: rest => depositedAmounts rest

/-- The total count of a list of stacks. -/
def totalCount (items : List Item) : Int :=
  (items.map (fun item => (item.count : Int))).sum

/-- Surroundings in which night falls while the bot walks to a patrol point;
otherwise as `demoEnv`. -/
def duskEnv (s : State DemoWorld) : State DemoWorld :=
  match s.trace.getLast? with
  | some (.awaitArrival _ _ _ _) => { s with world := { s.world with time := some 14000 } }
  | _ => demoEnv s

/-- The daytime world `flatWorld` with a red bed next to the bot. -/
def dayBedWorld : DemoWorld :=
  { flatWorld with bed := some { name := "red_bed", position := ⟨1, 64, 0⟩ } }

/-- The stacks the loop of `depositItemsToChest` can reach: those in front of
the first empty stack, where the test `amountToDeposit <= 0` of line 450 leaves
the loop. -/
def stacksBeforeEmpty (items : List Item) : List Item :=
  items.takeWhile fun item => decide (0 < item.count)

/-- The world `flatWorld` holding an empty stone stack in front of a stone
stack of five. -/
def emptyStackWorld : DemoWorld :=
  { flatWorld with
    items := [{ name := "stone", count := 0, type := 1 },
              { name := "stone", count := 5, type := 1 }] }

/-! ## Running async functions -/

section CoLemmas

variable {σ α β : Type}

@[simp] theorem Co.run_done (env : σ → σ) (s : σ) (a : α) :
    Co.run env (Co.done s a) = (s, a) := rfl

@[simp] theorem Co.run_susp (env : σ → σ) (s : σ) (k : σ → Co σ α) :
    Co.run env (Co.susp s k) = Co.run env (k (env s)) := rfl

@[simp] theorem Co.seq_done (s : σ) (a : α) (f : α → σ → Co σ β) :
    Co.seq (Co.done s a) f = f a s := rfl

@[simp] theorem Co.seq_susp (s : σ) (k : σ → Co σ α) (f : α → σ → Co σ β) :
    Co.seq (Co.susp s k) f = Co.susp s (fun t => Co.seq (k t) f) := rfl

theorem Co.run_seq (env : σ → σ) (c : Co σ α) (f : α → σ → Co σ β) :
    Co.run env (Co.seq c f) = Co.run env (f (Co.run env c).2 (Co.run env c).1) := by
  induction c with
  | done s a => rfl
  | susp s k ih => simpa using ih (env s)

theorem Co.run_bind (env : σ → σ) (c : Co σ α) (f : α → σ → Co σ β) :
    Co.run env (Co.bind c f) = Co.run env (f (Co.run env c).2 (env (Co.run env c).1)) := by
  unfold Co.bind
  rw [Co.run_seq]
  rfl

@[simp] theorem Co.parked_done (s : σ) (a : α) : Co.parked (Co.done s a) = s := rfl

@[simp] theorem Co.parked_susp (s : σ) (k : σ → Co σ α) : Co.parked (Co.susp s k) = s := rfl

theorem Co.parked_bind (c : Co σ α) (f : α → σ → Co σ β) :
    Co.parked (Co.bind c f) = Co.parked c := by
  cases c <;> rfl

end CoLemmas

section Proofs

variable {W : Type}

@[simp] theorem State.emit_trace (s : State W) (e : Event) :
    (s.emit e).trace = s.trace ++ [e] := rfl

@[simp] theorem State.emit_world (s : State W) (e : Event) : (s.emit e).world = s.world := rfl

/-! ## Placement loop -/

/-- A candidate that fails a precondition is passed over on the spot: the loop
continues as the same program, with no call issued and without parking. -/
theorem placementLoop_skip (bot : Bot W) (blockType : String) (a : BlockAttempt)
    (rest : List BlockAttempt) (s : State W) (h : siteReady bot s.world a = false) :
    placementLoop bot blockType (a :: rest) s = placementLoop bot blockType rest s := by
  unfold siteReady referenceSolid at h
  by_cases hocc : targetOccupied (bot.blockAt s.world a.pos) = true
  · simp [placementLoop, hocc]
  · cases href : bot.blockAt s.world a.ref with
    | none => simp [placementLoop, hocc, href]
    | some reference =>
      have hair : (reference.name == "air") = true := by
        simpa [hocc, href] using h
      simp [placementLoop, hocc, href, hair]

/-- One iteration of the loop, read off the contract: stop at a candidate that
qualifies, otherwise go on from the state the candidate left behind. -/
theorem placementLoop_cons (bot : Bot W) (env : State W → State W) (blockType : String)
    (a : BlockAttempt) (rest : List BlockAttempt) (s : State W) :
    Co.run env (placementLoop bot blockType (a :: rest) s)
      = if qualifies bot env blockType a s then
          (afterSettle bot env a s, (true, some a.pos))
        else
          Co.run env (placementLoop bot blockType rest (passedOver bot env a s)) := by
  by_cases hready : siteReady bot s.world a = true
  · have hocc : targetOccupied (bot.blockAt s.world a.pos) = false := by
      simp [siteReady] at hready; exact hready.1
    cases href : bot.blockAt s.world a.ref with
    | none => simp [siteReady, referenceSolid, href] at hready
    | some reference =>
      have hair : (reference.name == "air") = false := by
        simp [siteReady, referenceSolid, href] at hready
        simpa using hready.2
      cases hset : bot.settled (env (s.emit (.placeBlock reference a.vec))).world with
      | error e =>
        simp [placementLoop, hocc, href, hair, awaitCall, hset, qualifies, hready,
          placementVerifies, afterPlace, passedOver]
      | ok u =>
        cases hq : bot.blockAt (env ((env (s.emit (.placeBlock reference a.vec))).emit
            (.delay 500))).world a.pos with
        | none =>
          simp [placementLoop, hocc, href, hair, awaitCall, awaitDelay, hset, qualifies, hready,
            placementVerifies, afterPlace, afterSettle, passedOver, verifyPlaced, hq]
        | some b =>
          by_cases hv : (b.name != "air" && b.name == blockType) = true
          · have hv2 : (b.name == blockType && b.name != "air") = true := by
              rw [Bool.and_comm]; exact hv
            simp only [Bool.and_eq_true] at hv hv2
            simp [placementLoop, hocc, href, hair, awaitCall, awaitDelay, hset, qualifies,
              hready, placementVerifies, afterPlace, afterSettle, verifyPlaced, hq, hv.1, hv.2,
              hv2.1]
          · have hv2 : (b.name == blockType && b.name != "air") = false := by
              rw [Bool.and_comm]; simpa using hv
            have hv1 : (b.name != "air" && b.name == blockType) = false := by simpa using hv
            simp [placementLoop, hocc, href, hair, awaitCall, awaitDelay, hset, qualifies,
              hready, placementVerifies, afterPlace, afterSettle, passedOver, verifyPlaced, hq,
              hv1, hv2]
  · have hready2 : siteReady bot s.world a = false := by simpa using hready
    rw [placementLoop_skip bot blockType a rest s hready2]
    simp [qualifies, hready2, passedOver]

/-- The candidate list of lines 617-625, written out. -/
theorem blockPlacementAttempts_eq (x y z : Int) :
    blockPlacementAttempts x y z =
      [ ⟨⟨x + 2, y, z⟩, ⟨x + 2, y - 1, z⟩, ⟨0, 1, 0⟩, "2m east"⟩,
        ⟨⟨x - 2, y, z⟩, ⟨x - 2, y - 1, z⟩, ⟨0, 1, 0⟩, "2m west"⟩,
        ⟨⟨x, y, z + 2⟩, ⟨x, y - 1, z + 2⟩, ⟨0, 1, 0⟩, "2m south"⟩,
        ⟨⟨x, y, z - 2⟩, ⟨x, y - 1, z - 2⟩, ⟨0, 1, 0⟩, "2m north"⟩,
        ⟨⟨x + 3, y, z⟩, ⟨x + 3, y - 1, z⟩, ⟨0, 1, 0⟩, "3m east"⟩,
        ⟨⟨x - 3, y, z⟩, ⟨x - 3, y - 1, z⟩, ⟨0, 1, 0⟩, "3m west"⟩,
        ⟨⟨x, y, z + 3⟩, ⟨x, y - 1, z + 3⟩, ⟨0, 1, 0⟩, "3m south"⟩,
        ⟨⟨x, y, z - 3⟩, ⟨x, y - 1, z - 3⟩, ⟨0, 1, 0⟩, "3m north"⟩,
        ⟨⟨x + 4, y, z⟩, ⟨x + 4, y - 1, z⟩, ⟨0, 1, 0⟩, "4m east"⟩,
        ⟨⟨x - 4, y, z⟩, ⟨x - 4, y - 1, z⟩, ⟨0, 1, 0⟩, "4m west"⟩,
        ⟨⟨x, y, z + 4⟩, ⟨x, y - 1, z + 4⟩, ⟨0, 1, 0⟩, "4m south"⟩,
        ⟨⟨x, y, z - 4⟩, ⟨x, y - 1, z - 4⟩, ⟨0, 1, 0⟩, "4m north"⟩ ] := by
  rfl

/-- The loop either stops at the first candidate that qualifies when its turn
comes, or no candidate qualifies and it reports failure. -/
theorem placementLoop_outcome (bot : Bot W) (env : State W → State W) (blockType : String)
    (attempts : List BlockAttempt) :
    ∀ s : State W,
      (∃ pre a post, attempts = pre ++ a :: post ∧
          noneQualifies bot env blockType pre s = true ∧
          qualifies bot env blockType a (passedOverAll bot env pre s) = true ∧
          Co.run env (placementLoop bot blockType attempts s)
            = (afterSettle bot env a (passedOverAll bot env pre s), (true, some a.pos))) ∨
      (noneQualifies bot env blockType attempts s = true ∧
          Co.run env (placementLoop bot blockType attempts s)
            = (passedOverAll bot env attempts s, (false, none))) := by
  induction attempts with
  | nil => intro s; right; simp [noneQualifies, passedOverAll, placementLoop]
  | cons a rest ih =>
    intro s
    rw [placementLoop_cons]
    by_cases hq : qualifies bot env blockType a s = true
    · left
      exact ⟨[], a, rest, rfl, rfl, hq, by simp [hq, passedOverAll]⟩
    · have hq2 : qualifies bot env blockType a s = false := by simpa using hq
      rcases ih (passedOver bot env a s) with ⟨pre, b, post, hsplit, hnone, hb, hrun⟩ | ⟨hnone, hrun⟩
      · left
        refine ⟨a :: pre, b, post, by simp [hsplit], ?_, ?_, ?_⟩
        · simp [noneQualifies, hq2, hnone]
        · simpa [passedOverAll] using hb
        · simpa [hq2, passedOverAll] using hrun
      · right
        refine ⟨by simp [noneQualifies, hq2, hnone], ?_⟩
        simpa [hq2, passedOverAll] using hrun

/-- When the loop reports failure the break step does nothing: no delay, no
dig. -/
theorem breakPlacedBlock_of_failure (bot : Bot W) (p : Option Vec3) (s : State W) :
    breakPlacedBlock bot (false, p) s = .done s () := by
  simp [breakPlacedBlock]

/-- C1. In the placement loop of `placeAndBreakBlock`, `placementSuccess` is set
only for a candidate whose position is recorded in `placedBlockPosition`, for
which a place action was issued against its reference block, and for which the
re-query of the target cell, made on wake-up from the 500 ms settle delay that
follows the place action, returns a block whose name is the configured block
type.  This holds for every world, every behaviour of the surroundings while
the function is parked, and every candidate list. -/
theorem placement_success_requires_verification (bot : Bot W) (env : State W → State W)
    (blockType : String) (attempts : List BlockAttempt) (s : State W)
    (h : (Co.run env (placementLoop bot blockType attempts s)).2.1 = true) :
    ∃ a ∈ attempts, ∃ reference : Block, ∃ s0 : State W, ∃ b : Block,
      (Co.run env (placementLoop bot blockType attempts s)).2.2 = some a.pos ∧
      bot.blockAt s0.world a.ref = some reference ∧
      (Co.run env (placementLoop bot blockType attempts s)).1
        = env ((env (s0.emit (.placeBlock reference a.vec))).emit (.delay 500)) ∧
      bot.blockAt (Co.run env (placementLoop bot blockType attempts s)).1.world a.pos = some b ∧
      b.name = blockType := by
  rcases placementLoop_outcome bot env blockType attempts s with
    ⟨pre, a, post, hsplit, -, hq, hrun⟩ | ⟨-, hrun⟩
  · have hmem : a ∈ attempts := by simp [hsplit]
    simp only [qualifies, Bool.and_eq_true] at hq
    obtain ⟨hready, hver⟩ := hq
    cases href : bot.blockAt (passedOverAll bot env pre s).world a.ref with
    | none => simp [siteReady, referenceSolid, href] at hready
    | some reference =>
      cases hb : bot.blockAt (afterSettle bot env a (passedOverAll bot env pre s)).world a.pos with
      | none => simp [placementVerifies, hb] at hver
      | some b =>
        have hname : b.name = blockType := by
          simp [placementVerifies, hb] at hver
          exact hver.2.1
        refine ⟨a, hmem, reference, passedOverAll bot env pre s, b, ?_, href, ?_, ?_, hname⟩
        · rw [hrun]
        · rw [hrun]; simp [afterSettle, afterPlace, href]
        · rw [hrun]; exact hb
  · rw [hrun] at h
    simp at h

/-- A successful placement in the flat demo world, obtained from C1. -/
theorem placement_success_requires_verification_witness :
    ∃ a ∈ blockPlacementAttempts 0 64 0, ∃ reference : Block, ∃ s0 : State DemoWorld,
      ∃ b : Block,
      (Co.run demoEnv (placementLoop demoBot "stone" (blockPlacementAttempts 0 64 0)
        (initialState flatWorld))).2.2 = some a.pos ∧
      demoBot.blockAt s0.world a.ref = some reference ∧
      (Co.run demoEnv (placementLoop demoBot "stone" (blockPlacementAttempts 0 64 0)
        (initialState flatWorld))).1
        = demoEnv ((demoEnv (s0.emit (.placeBlock reference a.vec))).emit (.delay 500)) ∧
      demoBot.blockAt (Co.run demoEnv (placementLoop demoBot "stone"
        (blockPlacementAttempts 0 64 0) (initialState flatWorld))).1.world a.pos = some b ∧
      b.name = "stone" :=
  placement_success_requires_verification demoBot demoEnv "stone"
    (blockPlacementAttempts 0 64 0) (initialState flatWorld) (by decide)

/-- C2, as the claim states its scenario, fails: with a stone block two cells
east of the bot and a free cell over solid ground three cells east, the loop
still succeeds two cells west, because the west candidate precedes the
three-east candidate in ring order and qualifies. -/
theorem scenario_three_east_counterexample :
    targetOccupied (demoBot.blockAt blockedEastWorld ⟨2, 64, 0⟩) = true ∧
    targetOccupied (demoBot.blockAt blockedEastWorld ⟨3, 64, 0⟩) = false ∧
    (demoBot.blockAt blockedEastWorld ⟨3, 63, 0⟩).map (fun b => b.name) = some "stone" ∧
    (Co.run demoEnv (placementLoop demoBot "stone" (blockPlacementAttempts 0 64 0)
      (initialState blockedEastWorld))).2 = (true, some ⟨-2, 64, 0⟩) := by
  decide

/-- C2 (amended). For every world and every behaviour of the surroundings:
(1) a candidate whose target cell is occupied or whose reference cell is not
solid is passed over without any call and without parking;
(2) the loop either succeeds at the first candidate in list order that
qualifies when its turn comes (target empty, reference solid, placement
verified), all earlier candidates having been passed over or having failed, or
no candidate qualifies and it reports failure with no position recorded;
(3) when the target two cells east is occupied, the other three candidates at
distance two fail a precondition, the cell three east is empty over a solid
reference and the placement there verifies, the loop succeeds three cells east
after a single place action issued from the initial state. -/
theorem placement_first_qualifying_candidate (bot : Bot W) (env : State W → State W)
    (blockType : String) :
    (∀ (a : BlockAttempt) (rest : List BlockAttempt) (s : State W),
      siteReady bot s.world a = false →
        placementLoop bot blockType (a :: rest) s = placementLoop bot blockType rest s ∧
        passedOver bot env a s = s) ∧
    (∀ (attempts : List BlockAttempt) (s : State W),
      (∃ pre a post, attempts = pre ++ a :: post ∧
          noneQualifies bot env blockType pre s = true ∧
          qualifies bot env blockType a (passedOverAll bot env pre s) = true ∧
          Co.run env (placementLoop bot blockType attempts s)
            = (afterSettle bot env a (passedOverAll bot env pre s), (true, some a.pos))) ∨
      (noneQualifies bot env blockType attempts s = true ∧
          Co.run env (placementLoop bot blockType attempts s)
            = (passedOverAll bot env attempts s, (false, none)))) ∧
    (∀ (s : State W) (x y z : Int),
      targetOccupied (bot.blockAt s.world ⟨x + 2, y, z⟩) = true →
      siteReady bot s.world ⟨⟨x - 2, y, z⟩, ⟨x - 2, y - 1, z⟩, ⟨0, 1, 0⟩, "2m west"⟩ = false →
      siteReady bot s.world ⟨⟨x, y, z + 2⟩, ⟨x, y - 1, z + 2⟩, ⟨0, 1, 0⟩, "2m south"⟩ = false →
      siteReady bot s.world ⟨⟨x, y, z - 2⟩, ⟨x, y - 1, z - 2⟩, ⟨0, 1, 0⟩, "2m north"⟩ = false →
      siteReady bot s.world ⟨⟨x + 3, y, z⟩, ⟨x + 3, y - 1, z⟩, ⟨0, 1, 0⟩, "3m east"⟩ = true →
      placementVerifies bot env blockType
        ⟨⟨x + 3, y, z⟩, ⟨x + 3, y - 1, z⟩, ⟨0, 1, 0⟩, "3m east"⟩ s = true →
      Co.run env (placementLoop bot blockType (blockPlacementAttempts x y z) s)
        = (afterSettle bot env ⟨⟨x + 3, y, z⟩, ⟨x + 3, y - 1, z⟩, ⟨0, 1, 0⟩, "3m east"⟩ s,
            (true, some ⟨x + 3, y, z⟩))) := by
  refine ⟨?_, ?_, ?_⟩
  · intro a rest s h
    exact ⟨placementLoop_skip bot blockType a rest s h, by simp [passedOver, h]⟩
  · intro attempts s
    exact placementLoop_outcome bot env blockType attempts s
  · intro s x y z hE2 hW2 hS2 hN2 hE3 hV
    have hE2r : siteReady bot s.world ⟨⟨x + 2, y, z⟩, ⟨x + 2, y - 1, z⟩, ⟨0, 1, 0⟩, "2m east"⟩
        = false := by
      simp [siteReady, hE2]
    rw [blockPlacementAttempts_eq, placementLoop_skip _ _ _ _ _ hE2r,
      placementLoop_skip _ _ _ _ _ hW2, placementLoop_skip _ _ _ _ _ hS2,
      placementLoop_skip _ _ _ _ _ hN2, placementLoop_cons]
    simp [qualifies, hE3, hV]

/-- The scenario of C2 in the demo world whose four cells at distance two are
all occupied: the loop succeeds three cells east. -/
theorem placement_first_qualifying_candidate_witness :
    (Co.run demoEnv (placementLoop demoBot "stone" (blockPlacementAttempts 0 64 0)
      (initialState walledWorld))).2 = (true, some ⟨3, 64, 0⟩) := by
  have h := (placement_first_qualifying_candidate demoBot demoEnv "stone").2.2
    (initialState walledWorld) 0 64 0 (by decide) (by decide) (by decide) (by decide)
    (by decide) (by decide)
  rw [h]
  rfl

/-! ## Orchestrator guard -/

/-- Parking inside a body that continues with `f` after `c`. -/
theorem Co.parked_seq_done {σ α β : Type} (s : σ) (a : α) (f : α → σ → Co σ β) :
    Co.parked (Co.seq (Co.done s a) f) = Co.parked (f a s) := rfl

/-- Up to its first `await`, a pass over the patrol points leaves `cycleCount`
and `isProcessing` alone. -/
theorem walkPoints_parked {R : Type} (cfg : Config R) (bot : Bot W) (points : List Point)
    (s : State W) :
    (walkPoints cfg bot points s).parked.cycleCount = s.cycleCount ∧
    (walkPoints cfg bot points s).parked.isProcessing = s.isProcessing := by
  cases points with
  | nil => simp [walkPoints]
  | cons point rest =>
    unfold walkPoints
    by_cases hn : nightPreempt cfg bot s = true
    · simp [hn]
    · simp only [hn]
      cases hg : bot.setGoal s.world (some (Goal.near point.x cfg.centerY point.z 1)) with
      | error e => simp [State.emit]
      | ok u =>
        by_cases hj : cfg.jumpWhileWalking = true <;> simp [hj, State.emit]

/-- Up to its first `await`, `walkRounds` leaves `cycleCount` and `isProcessing`
alone. -/
theorem walkRounds_parked {R : Type} (cfg : Config R) (bot : Bot W) (points : List Point)
    (rounds : Nat) :
    ∀ s : State W,
      (walkRounds cfg bot points rounds s).parked.cycleCount = s.cycleCount ∧
      (walkRounds cfg bot points rounds s).parked.isProcessing = s.isProcessing := by
  induction rounds with
  | zero => intro s; simp [walkRounds]
  | succ n ih =>
    intro s
    have hp := walkPoints_parked cfg bot points s
    unfold walkRounds
    cases hw : walkPoints cfg bot points s with
    | susp s1 k =>
      rw [hw] at hp
      simpa using hp
    | done s1 r =>
      rw [hw] at hp
      simp only [Co.parked_done] at hp
      rw [Co.seq_done]
      cases r with
      | error e => simpa using hp
      | ok b =>
        cases b with
        | false => simpa using hp
        | true =>
          have h2 := ih s1
          exact ⟨h2.1.trans hp.1, h2.2.trans hp.2⟩

/-- C3, as the claim states its consequence, fails: at night with `autoSleep`
on, the first of two invocations in the same scheduling turn hands off to
`tryToSleep` before reaching `cycleCount++`, the second is blocked by the
guard, and `cycleCount` is still 0 afterwards. -/
theorem two_invocations_at_night_counterexample :
    (initialState nightWorld).isProcessing = false ∧
    (initialState nightWorld).isSleeping = false ∧
    (initialState nightWorld).cycleCount = 0 ∧
    (startCircularPattern exactMath demoConfig demoBot
      (startCircularPattern exactMath demoConfig demoBot
        (initialState nightWorld)).parked).parked.cycleCount = 0 := by
  refine ⟨rfl, rfl, rfl, ?_⟩
  rfl

/-- C3 (amended). A call to `startCircularPattern` made while `isProcessing` or
`isSleeping` is true finishes on the spot in the very state it was given: no
variable changes and no patrol, build, container or sleep step is started.
Hence, when the first of two invocations in the same scheduling turn starts
with both flags clear and the night-preemption predicate false, it has raised
`cycleCount` by one and set `isProcessing` by the time it parks, the second
invocation is such a no-op, and the two together raise `cycleCount` by exactly
one. -/
theorem startCircularPattern_reentrant {R : Type} [Field R] (M : JsMath R) (cfg : Config R)
    (bot : Bot W) :
    (∀ s : State W, (s.isProcessing = true ∨ s.isSleeping = true) →
      startCircularPattern M cfg bot s = .done s ()) ∧
    (∀ s : State W, s.isProcessing = false → s.isSleeping = false →
      nightPreempt cfg bot s = false →
      (startCircularPattern M cfg bot s).parked.cycleCount = s.cycleCount + 1 ∧
      (startCircularPattern M cfg bot s).parked.isProcessing = true ∧
      startCircularPattern M cfg bot (startCircularPattern M cfg bot s).parked
        = .done (startCircularPattern M cfg bot s).parked () ∧
      (startCircularPattern M cfg bot
        (startCircularPattern M cfg bot s).parked).parked.cycleCount = s.cycleCount + 1) := by
  have guard : ∀ s : State W, (s.isProcessing = true ∨ s.isSleeping = true) →
      startCircularPattern M cfg bot s = .done s () := by
    intro s h
    unfold startCircularPattern
    rcases h with h | h <;> simp [h]
  refine ⟨guard, ?_⟩
  intro s hp hs hn
  have hn2 : nightPreempt cfg bot { s with isProcessing := true } = false := by
    simpa [nightPreempt] using hn
  have hpark : (startCircularPattern M cfg bot s).parked
      = (walkCircle M cfg bot true 2
          { s with isProcessing := true, cycleCount := s.cycleCount + 1 }).parked := by
    unfold startCircularPattern
    have e1 : ¬ ((s.isProcessing || s.isSleeping) = true) := by simp [hp, hs]
    have e2 : ¬ (nightPreempt cfg bot { s with isProcessing := true } = true) := by
      rw [hn2]; simp
    rw [if_neg e1]
    dsimp only
    rw [if_neg e2, Co.parked_bind]
  have hw := walkRounds_parked cfg bot
    (generateCirclePoints M cfg.centerX cfg.centerZ cfg.radius cfg.pointsPerCircle true) 2
    { s with isProcessing := true, cycleCount := s.cycleCount + 1 }
  have h1 : (startCircularPattern M cfg bot s).parked.cycleCount = s.cycleCount + 1 := by
    rw [hpark]; exact hw.1
  have h2 : (startCircularPattern M cfg bot s).parked.isProcessing = true := by
    rw [hpark]; exact hw.2
  have h3 := guard (startCircularPattern M cfg bot s).parked (Or.inl h2)
  refine ⟨h1, h2, h3, ?_⟩
  rw [h3]
  exact h1

/-- Two invocations in one turn on a daytime morning: one increment. -/
theorem startCircularPattern_reentrant_witness :
    (startCircularPattern exactMath demoConfig demoBot
      (startCircularPattern exactMath demoConfig demoBot
        (initialState flatWorld)).parked).parked.cycleCount = 0 + 1 :=
  ((startCircularPattern_reentrant exactMath demoConfig demoBot).2 (initialState flatWorld)
    rfl rfl rfl).2.2.2

/-! ## Sleep routine -/

/-- The night monitor rejects an attempt started less than 10 s after the
recorded one: the tick finishes on the spot in the state it was given. -/
theorem nightMonitorTick_debounce {R : Type} (cfg : Config R) (bot : Bot W) (s : State W)
    (h : bot.now s.world - s.lastSleepAttempt < 10000) :
    nightMonitorTick cfg bot s = .done s () := by
  unfold nightMonitorTick
  by_cases hg : (isNightTime bot s.world && !s.isSleeping && !s.isProcessing &&
      !s.isAttemptingSleep) = true
  · have ha : s.isAttemptingSleep = false := by
      simp only [Bool.and_eq_true, Bool.not_eq_true'] at hg
      exact hg.2
    rw [if_pos hg]
    dsimp only
    rw [if_pos h]
    cases s
    simp_all
  · rw [if_neg hg]

/-- C7 at the failing input: an idle process at night, 2000 ms after the
recorded attempt, with a bed next to the bot.  The night monitor rejects the
attempt, but `startCircularPattern` enters `tryToSleep` all the same: by the
time it parks, `isSleeping` and `isProcessing` are set, `lastSleepAttempt` is
overwritten and the goal has been cleared, and the run goes on to call the
sleep action. -/
theorem orchestrator_sleep_not_debounced :
    demoBot.now recentAttemptState.world - recentAttemptState.lastSleepAttempt = 2000 ∧
    nightMonitorTick demoConfig demoBot recentAttemptState = .done recentAttemptState () ∧
    (startCircularPattern exactMath demoConfig demoBot recentAttemptState).parked.isSleeping
      = true ∧
    (startCircularPattern exactMath demoConfig demoBot recentAttemptState).parked.isProcessing
      = true ∧
    (startCircularPattern exactMath demoConfig demoBot
      recentAttemptState).parked.lastSleepAttempt = 100000 ∧
    (Co.run demoEnv (startCircularPattern exactMath demoConfig demoBot
      recentAttemptState)).1.trace
      = [.setGoal none, .delay 300, .sleep { name := "red_bed", position := ⟨1, 64, 0⟩ },
          .once .wake] := by
  refine ⟨by decide, rfl, rfl, rfl, rfl, rfl⟩

/-- C8. A run of `tryToSleep` entered with `isSleeping` false, in which the bed
search finds nothing, the game mode is not creative and no bed item is carried,
finishes without ever parking.  On return `isSleeping`, `isProcessing` and
`isAttemptingSleep` are false, and the only calls issued are the clearing of
the pathfinder goal and `setTimeout(startCircularPattern, 2000)`: no goal is set
to a bed and the sleep action is not called. -/
theorem tryToSleep_no_bed {R : Type} (cfg : Config R) (bot : Bot W) (s : State W)
    (hs : s.isSleeping = false)
    (hfind : bot.findBlock s.world bedMatching (bedSearchRadius cfg) = none)
    (hmode : isCreative (bot.gameMode s.world) = false)
    (hitem : (bot.inventoryItems s.world).find? isBedItem = none) :
    tryToSleep cfg bot s
      = .done { s with lastSleepAttempt := bot.now s.world, isSleeping := false,
                       isProcessing := false, isAttemptingSleep := false,
                       trace := s.trace ++ [.setGoal none,
                         .setTimeout .startCircularPattern 2000] } () := by
  unfold tryToSleep
  rw [if_neg (by simp [hs])]
  dsimp only
  cases hg : bot.setGoal s.world none with
  | error e => simp [sleepAborted, State.emit]
  | ok u =>
    cases hi : bot.itemsByName s.world with
    | error e => simp [sleepAborted, State.emit, hi]
    | ok d => simp [sleepAborted, State.emit, hi, hfind, hmode, hitem, sleepAtBed]

/-- The run of C8 in the bedless night world. -/
theorem tryToSleep_no_bed_witness :
    tryToSleep demoConfig demoBot (initialState bedlessNightWorld)
      = .done { initialState bedlessNightWorld with
                  lastSleepAttempt := 100000,
                  trace := [.setGoal none, .setTimeout .startCircularPattern 2000] } () :=
  tryToSleep_no_bed demoConfig demoBot (initialState bedlessNightWorld) rfl rfl rfl rfl

/-! ## Inventory provisioning lock -/

/-- C9. A call of `ensureItemInCreativeInventory` that starts with the lock free
returns with the lock free, whatever happens while it is parked and whichever
way it ends: quantity already sufficient, not in creative mode, game data
unavailable, unknown item, injection rejected, injection verified or not
verified. -/
theorem ensureItem_releases_lock (bot : Bot W) (env : State W → State W) (itemName : String)
    (count : Nat) (s : State W) (h : s.creativeInventoryLock = false) :
    (Co.run env (ensureItemInCreativeInventory bot itemName count s)).1.creativeInventoryLock
      = false := by
  unfold ensureItemInCreativeInventory
  rw [if_neg (by simp [h])]
  dsimp only
  split
  · rfl
  · split
    · rfl
    · split
      · rfl
      · split
        · rfl
        · simp only [awaitCall, awaitDelay, Co.run_susp]
          split
          · rfl
          · simp only [Co.run_susp]
            split <;> rfl

/-- A creative-mode call of C9 that injects the item, returns `true` and leaves
the lock free. -/
theorem ensureItem_releases_lock_witness :
    (Co.run demoEnv (ensureItemInCreativeInventory demoBot "stone" 64
      (initialState creativeWorld))).2 = true ∧
    (Co.run demoEnv (ensureItemInCreativeInventory demoBot "stone" 64
      (initialState creativeWorld))).1.creativeInventoryLock = false :=
  ⟨by decide,
    ensureItem_releases_lock demoBot demoEnv "stone" 64 (initialState creativeWorld) rfl⟩

/-- C10. A call of `ensureItemInCreativeInventory` made while the lock is held
returns `false` on the spot in the state it was given: nothing is injected, no
call is issued, and the lock stays held. -/
theorem ensureItem_while_locked (bot : Bot W) (itemName : String) (count : Nat) (s : State W)
    (h : s.creativeInventoryLock = true) :
    ensureItemInCreativeInventory bot itemName count s = .done s false := by
  unfold ensureItemInCreativeInventory
  rw [if_pos h]

/-- A call of C10 made while another call holds the lock. -/
theorem ensureItem_while_locked_witness :
    ensureItemInCreativeInventory demoBot "stone" 64
        { initialState creativeWorld with creativeInventoryLock := true }
      = .done { initialState creativeWorld with creativeInventoryLock := true } false :=
  ensureItem_while_locked demoBot "stone" 64
    { initialState creativeWorld with creativeInventoryLock := true } rfl

end Proofs


/-! ## Patrol ring -/

section Circle

theorem generateCirclePoints_length {R : Type} [Field R] (M : JsMath R)
    (centerX centerZ radius : R) (numPoints : Nat) (clockwise : Bool) :
    (generateCirclePoints M centerX centerZ radius numPoints clockwise).length = numPoints := by
  simp [generateCirclePoints]

theorem generateCirclePoints_getElem_opt {R : Type} [Field R] (M : JsMath R)
    (centerX centerZ radius : R) (numPoints : Nat) (clockwise : Bool) (i : Nat)
    (hi : i < numPoints) :
    (generateCirclePoints M centerX centerZ radius numPoints clockwise)[i]?
      = some { x := M.floor (circlePointRaw M centerX centerZ radius numPoints clockwise i).1,
               z := M.floor (circlePointRaw M centerX centerZ radius numPoints clockwise i).2 } := by
  simp [generateCirclePoints, List.getElem?_range hi]

/-! ### The ring in IEEE-754 doubles -/

/-- The cosine of a double and of its negative are the same double. -/
theorem doubleCos_neg (x : ℚ) : doubleCos (-x) = doubleCos x := by
  unfold doubleCos
  rw [abs_neg]

/-- The sine of the negative of a double is the negative of its sine. -/
theorem doubleSin_neg (x : ℚ) : doubleSin (-x) = -doubleSin x := by
  unfold doubleSin
  rw [abs_neg]
  rcases lt_trichotomy x 0 with h | h | h
  · have h2 : ¬ (-x < 0) := by linarith
    cases lookupRow |x| eighthTurnTable <;> simp [h, h2]
  · subst h
    have h0 : lookupRow 0 eighthTurnTable = some (2 * doublePi * 0 / 8, 1, 0) := by
      simp [lookupRow, eighthTurnTable]
    simp [h0]
  · have h2 : ¬ (x < 0) := by linarith
    have h3 : -x < 0 := by linarith
    cases lookupRow |x| eighthTurnTable <;> simp [h2, h3]

/-- The tabulated values of `Math.cos` and `Math.sin`. -/
theorem doubleMath_table :
    (doubleCos (2 * doublePi * 0 / 8) = 1 ∧ doubleSin (2 * doublePi * 0 / 8) = 0) ∧
    (doubleCos (2 * doublePi * 1 / 8) = 6369051672525773 / 2 ^ 53 ∧
      doubleSin (2 * doublePi * 1 / 8) = 1592262918131443 / 2 ^ 51) ∧
    (doubleCos (2 * doublePi * 2 / 8) = 4967757600021511 / 2 ^ 106 ∧
      doubleSin (2 * doublePi * 2 / 8) = 1) ∧
    (doubleCos (2 * doublePi * 3 / 8) = -1592262918131443 / 2 ^ 51 ∧
      doubleSin (2 * doublePi * 3 / 8) = 6369051672525773 / 2 ^ 53) ∧
    (doubleCos (2 * doublePi * 4 / 8) = -1 ∧
      doubleSin (2 * doublePi * 4 / 8) = 4967757600021511 / 2 ^ 105) ∧
    (doubleCos (2 * doublePi * 5 / 8) = -3184525836262887 / 2 ^ 52 ∧
      doubleSin (2 * doublePi * 5 / 8) = -1592262918131443 / 2 ^ 51) ∧
    (doubleCos (2 * doublePi * 6 / 8) = -3725818200016133 / 2 ^ 104 ∧
      doubleSin (2 * doublePi * 6 / 8) = -1) ∧
    (doubleCos (2 * doublePi * 7 / 8) = 6369051672525771 / 2 ^ 53 ∧
      doubleSin (2 * doublePi * 7 / 8) = -3184525836262887 / 2 ^ 52) := by
  have habs : ∀ k : ℚ, 0 ≤ k → |2 * doublePi * k / 8| = 2 * doublePi * k / 8 := by
    intro k hk
    have h0 : (0 : ℚ) ≤ doublePi := by norm_num [doublePi]
    exact abs_of_nonneg (by positivity)
  have hnn : ∀ k : ℚ, 0 ≤ k → ¬ (2 * doublePi * k / 8 < 0) := by
    intro k hk
    have h0 : (0 : ℚ) ≤ doublePi := by norm_num [doublePi]
    have : 0 ≤ 2 * doublePi * k / 8 := by positivity
    linarith
  unfold doubleCos doubleSin
  rw [habs 0 (by norm_num), habs 1 (by norm_num), habs 2 (by norm_num), habs 3 (by norm_num),
    habs 4 (by norm_num), habs 5 (by norm_num), habs 6 (by norm_num), habs 7 (by norm_num)]
  simp only [hnn 0 (by norm_num), hnn 1 (by norm_num), hnn 2 (by norm_num),
    hnn 3 (by norm_num), hnn 4 (by norm_num), hnn 5 (by norm_num), hnn 6 (by norm_num),
    hnn 7 (by norm_num), if_false]
  norm_num [lookupRow, eighthTurnTable, doublePi]

/-- The values of `doubleMath` have the signs and sizes recorded in
`EighthTurnAsInDoubles`. -/
theorem doubleMath_values : EighthTurnAsInDoubles doubleMath := by
  obtain ⟨h0, h1, h2, h3, h4, h5, h6, h7⟩ := doubleMath_table
  unfold EighthTurnAsInDoubles
  simp only [doubleMath]
  rw [h0.1, h0.2, h1.1, h1.2, h2.1, h2.2, h3.1, h3.2, h4.1, h4.2, h5.1, h5.2, h6.1, h6.2,
    h7.1, h7.2]
  norm_num

/-- In doubles the clockwise ring of radius 10 with 8 points around the origin
has (-1, -10) as its seventh point. -/
theorem doubleMath_ring_clockwise :
    generateCirclePoints doubleMath 0 0 10 8 true
      = [⟨10, 0⟩, ⟨7, 7⟩, ⟨0, 10⟩, ⟨-8, 7⟩, ⟨-10, 0⟩, ⟨-8, -8⟩, ⟨-1, -10⟩, ⟨7, -8⟩] := by
  obtain ⟨h0, h1, h2, h3, h4, h5, h6, h7⟩ := doubleMath_table
  have hr : List.range 8 = [0, 1, 2, 3, 4, 5, 6, 7] := rfl
  simp only [generateCirclePoints, hr, List.map_cons, List.map_nil, circlePointRaw, doubleMath,
    if_true, Nat.cast_ofNat, Nat.cast_zero, Nat.cast_one]
  rw [h0.1, h0.2, h1.1, h1.2, h2.1, h2.2, h3.1, h3.2, h4.1, h4.2, h5.1, h5.2, h6.1, h6.2,
    h7.1, h7.2]
  norm_num

/-- In doubles the counter-clockwise ring of radius 10 with 8 points around the
origin. -/
theorem doubleMath_ring_counterclockwise :
    generateCirclePoints doubleMath 0 0 10 8 false
      = [⟨10, 0⟩, ⟨7, -8⟩, ⟨0, -10⟩, ⟨-8, -8⟩, ⟨-10, -1⟩, ⟨-8, 7⟩, ⟨-1, 10⟩, ⟨7, 7⟩] := by
  obtain ⟨h0, h1, h2, h3, h4, h5, h6, h7⟩ := doubleMath_table
  have hr : List.range 8 = [0, 1, 2, 3, 4, 5, 6, 7] := rfl
  simp only [generateCirclePoints, hr, List.map_cons, List.map_nil, circlePointRaw, doubleMath,
    Bool.false_eq_true, if_false, Nat.cast_ofNat, Nat.cast_zero, Nat.cast_one, doubleCos_neg,
    doubleSin_neg]
  rw [h0.1, h0.2, h1.1, h1.2, h2.1, h2.2, h3.1, h3.2, h4.1, h4.2, h5.1, h5.2, h6.1, h6.2,
    h7.1, h7.2]
  norm_num

/-- In doubles the clockwise ring of radius 1 with 8 points around the origin. -/
theorem doubleMath_unit_ring :
    generateCirclePoints doubleMath 0 0 1 8 true
      = [⟨1, 0⟩, ⟨0, 0⟩, ⟨0, 1⟩, ⟨-1, 0⟩, ⟨-1, 0⟩, ⟨-1, -1⟩, ⟨-1, -1⟩, ⟨0, -1⟩] := by
  obtain ⟨h0, h1, h2, h3, h4, h5, h6, h7⟩ := doubleMath_table
  have hr : List.range 8 = [0, 1, 2, 3, 4, 5, 6, 7] := rfl
  simp only [generateCirclePoints, hr, List.map_cons, List.map_nil, circlePointRaw, doubleMath,
    if_true, Nat.cast_ofNat, Nat.cast_zero, Nat.cast_one]
  rw [h0.1, h0.2, h1.1, h1.2, h2.1, h2.2, h3.1, h3.2, h4.1, h4.2, h5.1, h5.2, h6.1, h6.2,
    h7.1, h7.2]
  norm_num

/-- Flooring ten times a value between 0.7 and 0.8, between -0.8 and -0.7,
between 0 and 0.1, or between -0.1 and 0. -/
theorem floor_ten_times {R : Type} [LinearOrderedField R] [FloorRing R] (c : R) :
    (7 / 10 ≤ c ∧ c < 8 / 10 → ⌊(0 : R) + 10 * c⌋ = 7) ∧
    (-(8 / 10) ≤ c ∧ c < -(7 / 10) → ⌊(0 : R) + 10 * c⌋ = -8) ∧
    (0 ≤ c ∧ c < 1 / 10 → ⌊(0 : R) + 10 * c⌋ = 0) ∧
    (-(1 / 10) ≤ c ∧ c < 0 → ⌊(0 : R) + 10 * c⌋ = -1) := by
  refine ⟨?_, ?_, ?_, ?_⟩ <;> intro h <;> rw [Int.floor_eq_iff] <;> constructor <;>
    push_cast <;> linarith [h.1, h.2]

/-- C6 (amended). For radius 10, 8 points per lap, clockwise, centre (0, 0):
the `i`-th point returned by `generateCirclePoints` is
(floor(10·cos(2·PI·i/8)), floor(10·sin(2·PI·i/8))), and with the values that
cosine and sine take in IEEE-754 doubles (in particular a small negative cosine
at the angle for 270°) the result is exactly
[(10,0),(7,7),(0,10),(-8,7),(-10,0),(-8,-8),(-1,-10),(7,-8)]: the seventh point
is (-1,-10), not (0,-10). -/
theorem scenario_ring_in_doubles {R : Type} [LinearOrderedField R] [FloorRing R]
    (M : JsMath R) (hfloor : ∀ x : R, M.floor x = ⌊x⌋) (h : EighthTurnAsInDoubles M) :
    (∀ i : Nat, i < 8 →
      (generateCirclePoints M 0 0 10 8 true)[i]?
        = some { x := ⌊(0 : R) + 10 * M.cos (2 * M.PI * (i : R) / 8)⌋,
                 z := ⌊(0 : R) + 10 * M.sin (2 * M.PI * (i : R) / 8)⌋ }) ∧
    generateCirclePoints M 0 0 10 8 true
      = [⟨10, 0⟩, ⟨7, 7⟩, ⟨0, 10⟩, ⟨-8, 7⟩, ⟨-10, 0⟩, ⟨-8, -8⟩, ⟨-1, -10⟩, ⟨7, -8⟩] := by
  constructor
  · intro i hi
    rw [generateCirclePoints_getElem_opt _ _ _ _ _ _ i hi]
    simp [circlePointRaw, hfloor]
  · obtain ⟨⟨c0, s0⟩, ⟨c1, s1⟩, ⟨c2, s2⟩, ⟨c3, s3⟩, ⟨c4, s4⟩, ⟨c5, s5⟩, ⟨c6, s6⟩, ⟨c7, s7⟩⟩ := h
    have hr : List.range 8 = [0, 1, 2, 3, 4, 5, 6, 7] := rfl
    have e10 : ⌊(0 : R) + 10 * 1⌋ = 10 := by
      rw [Int.floor_eq_iff]; constructor <;> push_cast <;> linarith
    have e0 : ⌊(0 : R) + 10 * 0⌋ = 0 := by simp
    have em10 : ⌊(0 : R) + 10 * -1⌋ = -10 := by
      rw [Int.floor_eq_iff]; constructor <;> push_cast <;> linarith
    simp only [generateCirclePoints, hr, List.map_cons, List.map_nil, circlePointRaw, if_true,
      Nat.cast_ofNat, Nat.cast_zero, Nat.cast_one, hfloor]
    rw [c0, s0, s2, c4, s6, e10, e0, em10,
      (floor_ten_times _).1 c1, (floor_ten_times _).1 s1,
      (floor_ten_times _).2.2.1 c2,
      (floor_ten_times _).2.1 c3, (floor_ten_times _).1 s3,
      (floor_ten_times _).2.2.1 s4,
      (floor_ten_times _).2.1 c5, (floor_ten_times _).2.1 s5,
      (floor_ten_times _).2.2.2 c6,
      (floor_ten_times _).1 c7, (floor_ten_times _).2.1 s7]

/-- The scenario ring for the double values of `doubleMath`. -/
theorem scenario_ring_in_doubles_witness :
    EighthTurnAsInDoubles doubleMath ∧
    generateCirclePoints doubleMath 0 0 10 8 true
      = [⟨10, 0⟩, ⟨7, 7⟩, ⟨0, 10⟩, ⟨-8, 7⟩, ⟨-10, 0⟩, ⟨-8, -8⟩, ⟨-1, -10⟩, ⟨7, -8⟩] :=
  ⟨doubleMath_values, (scenario_ring_in_doubles doubleMath (fun _ => rfl) doubleMath_values).2⟩

/-- C6, as stated, fails: in doubles the cosine of `2 * Math.PI * 6 / 8` is
-1.8369701987210297e-16, so the seventh point of the scenario ring is
(-1, -10), and the ring is not the list of the claim. -/
theorem scenario_ring_counterexample :
    doubleMath.cos (2 * doubleMath.PI * 6 / 8) = -3725818200016133 / 2 ^ 104 ∧
    (generateCirclePoints doubleMath 0 0 10 8 true)[6]? = some { x := -1, z := -10 } ∧
    generateCirclePoints doubleMath 0 0 10 8 true
      ≠ [⟨10, 0⟩, ⟨7, 7⟩, ⟨0, 10⟩, ⟨-8, 7⟩, ⟨-10, 0⟩, ⟨-8, -8⟩, ⟨0, -10⟩, ⟨7, -8⟩] := by
  refine ⟨doubleMath_table.2.2.2.2.2.2.1.1, ?_, ?_⟩
  · rw [doubleMath_ring_clockwise]; rfl
  · rw [doubleMath_ring_clockwise]; decide

/-- C5, as stated, fails: in doubles, for radius 10 and 8 points around the
origin, the counter-clockwise point of index 2 is (0, -10) while the clockwise
point of index (8 - 2) % 8 = 6 is (-1, -10); the points of index 4 and 6 differ
from their mirror indices in the same way. -/
theorem mirror_index_counterexample :
    (generateCirclePoints doubleMath 0 0 10 8 false)[2]? = some { x := 0, z := -10 } ∧
    (generateCirclePoints doubleMath 0 0 10 8 true)[(8 - 2) % 8]? = some { x := -1, z := -10 } ∧
    (generateCirclePoints doubleMath 0 0 10 8 false)[2]?
      ≠ (generateCirclePoints doubleMath 0 0 10 8 true)[(8 - 2) % 8]? ∧
    (generateCirclePoints doubleMath 0 0 10 8 false)[4]?
      ≠ (generateCirclePoints doubleMath 0 0 10 8 true)[(8 - 4) % 8]? ∧
    (generateCirclePoints doubleMath 0 0 10 8 false)[6]?
      ≠ (generateCirclePoints doubleMath 0 0 10 8 true)[(8 - 6) % 8]? := by
  rw [doubleMath_ring_clockwise, doubleMath_ring_counterclockwise]
  decide

/-- C5 (amended). For every centre, radius and `n ≥ 1`, with a cosine that is
even and 1 at 0 and a sine that is odd (as in doubles): the counter-clockwise
ring has as many points as the clockwise ring, both start at the point
(floor(centerX + radius), floor(centerZ)) of angle zero, and the `i`-th
counter-clockwise point is the reflection of the `i`-th clockwise point in the
line z = centerZ through the centre, for every `i < n`: the two points have the
same x, and the sum of their z differs from `2 * centerZ` by less than 2 (each
`Math.floor` takes away less than 1). -/
theorem counterclockwise_reflects_clockwise {R : Type} [LinearOrderedField R] [FloorRing R]
    (M : JsMath R) (centerX centerZ radius : R) (n : Nat) (hn : 1 ≤ n)
    (hfloor : ∀ x : R, M.floor x = ⌊x⌋) (hzero : M.cos 0 = 1)
    (hcos : ∀ x : R, M.cos (-x) = M.cos x) (hsin : ∀ x : R, M.sin (-x) = -M.sin x) :
    (generateCirclePoints M centerX centerZ radius n false).length
      = (generateCirclePoints M centerX centerZ radius n true).length ∧
    (generateCirclePoints M centerX centerZ radius n false)[0]?
      = some { x := ⌊centerX + radius⌋, z := ⌊centerZ⌋ } ∧
    (generateCirclePoints M centerX centerZ radius n true)[0]?
      = some { x := ⌊centerX + radius⌋, z := ⌊centerZ⌋ } ∧
    ∀ i : Nat, i < n → ∃ p q : Point,
      (generateCirclePoints M centerX centerZ radius n false)[i]? = some p ∧
      (generateCirclePoints M centerX centerZ radius n true)[i]? = some q ∧
      p.x = q.x ∧ |((p.z + q.z : Int) : R) - 2 * centerZ| < 2 := by
  have hs0 : M.sin 0 = 0 := by
    have h := hsin 0
    rw [neg_zero] at h
    linarith
  refine ⟨?_, ?_, ?_, ?_⟩
  · simp [generateCirclePoints_length]
  · rw [generateCirclePoints_getElem_opt _ _ _ _ _ _ 0 hn]
    simp [circlePointRaw, hfloor, hzero, hs0]
  · rw [generateCirclePoints_getElem_opt _ _ _ _ _ _ 0 hn]
    simp [circlePointRaw, hfloor, hzero, hs0]
  · intro i hi
    refine ⟨_, _, generateCirclePoints_getElem_opt _ _ _ _ _ _ i hi,
      generateCirclePoints_getElem_opt _ _ _ _ _ _ i hi, ?_, ?_⟩
    · simp only [circlePointRaw, Bool.false_eq_true, if_false, if_true, hcos]
    · simp only [circlePointRaw, Bool.false_eq_true, if_false, if_true, hsin, hfloor]
      have a1 := Int.floor_le (centerZ + radius * -M.sin (2 * M.PI * (i : R) / (n : R)))
      have a2 := Int.lt_floor_add_one (centerZ + radius * -M.sin (2 * M.PI * (i : R) / (n : R)))
      have b1 := Int.floor_le (centerZ + radius * M.sin (2 * M.PI * (i : R) / (n : R)))
      have b2 := Int.lt_floor_add_one (centerZ + radius * M.sin (2 * M.PI * (i : R) / (n : R)))
      rw [abs_lt]
      push_cast
      constructor <;> linarith

/-- The reflection property of C5 for the ring of radius 10 with 8 points in
doubles. -/
theorem counterclockwise_reflects_clockwise_witness :
    (generateCirclePoints doubleMath 0 0 10 8 false).length
      = (generateCirclePoints doubleMath 0 0 10 8 true).length ∧
    (generateCirclePoints doubleMath 0 0 10 8 false)[0]?
      = some { x := ⌊(0 : ℚ) + 10⌋, z := ⌊(0 : ℚ)⌋ } ∧
    (generateCirclePoints doubleMath 0 0 10 8 true)[0]?
      = some { x := ⌊(0 : ℚ) + 10⌋, z := ⌊(0 : ℚ)⌋ } ∧
    ∀ i : Nat, i < 8 → ∃ p q : Point,
      (generateCirclePoints doubleMath 0 0 10 8 false)[i]? = some p ∧
      (generateCirclePoints doubleMath 0 0 10 8 true)[i]? = some q ∧
      p.x = q.x ∧ |((p.z + q.z : Int) : ℚ) - 2 * 0| < 2 :=
  counterclockwise_reflects_clockwise doubleMath 0 0 10 8 (by norm_num) (fun _ => rfl)
    (by have h := doubleMath_table.1.1; simpa [doubleMath] using h) doubleCos_neg doubleSin_neg

/-! ### The ring in exact arithmetic -/

/-- In exact arithmetic the counter-clockwise angle of index `i` and the
clockwise angle of index `(n - i) % n` have the same cosine and sine. -/
theorem mirror_angle (n i : Nat) (hi : i < n) :
    Real.cos (-(2 * Real.pi * (i : ℝ) / (n : ℝ)))
        = Real.cos (2 * Real.pi * (((n - i) % n : Nat) : ℝ) / (n : ℝ)) ∧
    Real.sin (-(2 * Real.pi * (i : ℝ) / (n : ℝ)))
        = Real.sin (2 * Real.pi * (((n - i) % n : Nat) : ℝ) / (n : ℝ)) := by
  have hn : (n : ℝ) ≠ 0 := by
    have : 0 < n := Nat.lt_of_le_of_lt (Nat.zero_le i) hi
    exact_mod_cast this.ne'
  rcases Nat.eq_zero_or_pos i with h0 | hpos
  · subst h0
    simp
  · have hmod : (n - i) % n = n - i := Nat.mod_eq_of_lt (by omega)
    have hcast : ((n - i : Nat) : ℝ) = (n : ℝ) - (i : ℝ) := by
      rw [Nat.cast_sub hi.le]
    have hang : 2 * Real.pi * ((n : ℝ) - (i : ℝ)) / (n : ℝ)
        = 2 * Real.pi - 2 * Real.pi * (i : ℝ) / (n : ℝ) := by
      field_simp
      ring
    rw [hmod, hcast, hang, Real.cos_two_pi_sub, Real.sin_two_pi_sub, Real.cos_neg, Real.sin_neg]
    exact ⟨rfl, rfl⟩

/-- In exact real arithmetic, which the runtime does not have, the `i`-th
counter-clockwise point is the clockwise point of index `(n - i) % n`, for every
centre, radius, `n ≥ 1` and `i < n`.  In doubles this fails at the angles where
a coordinate sits on an integer. -/
theorem exact_ring_index_mirror (centerX centerZ radius : ℝ) (n : Nat) (hn : 1 ≤ n) :
    (generateCirclePoints exactMath centerX centerZ radius n false).length
      = (generateCirclePoints exactMath centerX centerZ radius n true).length ∧
    (generateCirclePoints exactMath centerX centerZ radius n false)[0]?
      = some { x := ⌊centerX + radius⌋, z := ⌊centerZ⌋ } ∧
    (generateCirclePoints exactMath centerX centerZ radius n true)[0]?
      = some { x := ⌊centerX + radius⌋, z := ⌊centerZ⌋ } ∧
    ∀ i : Nat, i < n →
      (generateCirclePoints exactMath centerX centerZ radius n false)[i]?
        = (generateCirclePoints exactMath centerX centerZ radius n true)[(n - i) % n]? := by
  refine ⟨?_, ?_, ?_, ?_⟩
  · simp [generateCirclePoints_length]
  · rw [generateCirclePoints_getElem_opt _ _ _ _ _ _ 0 hn]
    simp [circlePointRaw, exactMath]
  · rw [generateCirclePoints_getElem_opt _ _ _ _ _ _ 0 hn]
    simp [circlePointRaw, exactMath]
  · intro i hi
    have hm : (n - i) % n < n := Nat.mod_lt _ (by omega)
    rw [generateCirclePoints_getElem_opt _ _ _ _ _ _ i hi,
      generateCirclePoints_getElem_opt _ _ _ _ _ _ _ hm]
    obtain ⟨hc, hs⟩ := mirror_angle n i hi
    simp only [circlePointRaw, exactMath, Bool.false_eq_true, if_false, if_true]
    rw [hc, hs]

/-- For an angle strictly between 0° and 90°, the point of the unit ring around
the origin floors to (0, 0). -/
theorem unit_ring_first_quadrant (θ : ℝ) (h0 : 0 < θ) (h1 : θ < Real.pi / 2) :
    ⌊(0 : ℝ) + 1 * Real.cos θ⌋ = 0 ∧ ⌊(0 : ℝ) + 1 * Real.sin θ⌋ = 0 := by
  have hpi := Real.pi_pos
  have hc0 : 0 < Real.cos θ := Real.cos_pos_of_mem_Ioo ⟨by linarith, h1⟩
  have hc1 : Real.cos θ < 1 := by
    have := Real.cos_lt_cos_of_nonneg_of_le_pi_div_two (le_refl 0) h1.le h0
    simpa using this
  have hs0 : 0 < Real.sin θ := Real.sin_pos_of_pos_of_lt_pi h0 (by linarith)
  have hs1 : Real.sin θ < 1 := by
    have := Real.cos_lt_cos_of_nonneg_of_le_pi_div_two (le_refl 0)
      (show Real.pi / 2 - θ ≤ Real.pi / 2 by linarith) (show 0 < Real.pi / 2 - θ by linarith)
    rw [Real.cos_pi_div_two_sub] at this
    simpa using this
  constructor
  · rw [Int.floor_eq_zero_iff]; constructor <;> linarith
  · rw [Int.floor_eq_zero_iff]; constructor <;> linarith

/-- In exact arithmetic too a small ring repeats points: with radius 1 and 12
points per lap around the origin the points of index 1 (30°) and 2 (60°) both
floor to (0, 0). -/
theorem exact_small_ring_points_coincide :
    (0 : ℝ) < 1 ∧ 3 ≤ 12 ∧
    (generateCirclePoints exactMath 0 0 1 12 true)[1]? = some { x := 0, z := 0 } ∧
    (generateCirclePoints exactMath 0 0 1 12 true)[2]? = some { x := 0, z := 0 } ∧
    ¬ (generateCirclePoints exactMath 0 0 1 12 true).Nodup := by
  have hpi := Real.pi_pos
  have h1 : (generateCirclePoints exactMath 0 0 1 12 true)[1]? = some { x := 0, z := 0 } := by
    rw [generateCirclePoints_getElem_opt _ _ _ _ _ _ 1 (by norm_num)]
    have h := unit_ring_first_quadrant (2 * Real.pi * ((1 : Nat) : ℝ) / ((12 : Nat) : ℝ))
      (by push_cast; positivity) (by push_cast; linarith)
    simp only [circlePointRaw, exactMath, if_true]
    rw [h.1, h.2]
  have h2 : (generateCirclePoints exactMath 0 0 1 12 true)[2]? = some { x := 0, z := 0 } := by
    rw [generateCirclePoints_getElem_opt _ _ _ _ _ _ 2 (by norm_num)]
    have h := unit_ring_first_quadrant (2 * Real.pi * ((2 : Nat) : ℝ) / ((12 : Nat) : ℝ))
      (by push_cast; positivity) (by push_cast; linarith)
    simp only [circlePointRaw, exactMath, if_true]
    rw [h.1, h.2]
  refine ⟨by norm_num, by norm_num, h1, h2, ?_⟩
  intro hnd
  rw [List.nodup_iff_getElem?_ne_getElem?] at hnd
  exact hnd 1 2 (by norm_num) (by simp [generateCirclePoints_length]) (h1.trans h2.symm)

/-- The values ⌊10·(√2/2)⌋ = 7 and ⌊-10·(√2/2)⌋ = -8. -/
theorem floor_ten_sqrt_two :
    ⌊(0 : ℝ) + 10 * (√2 / 2)⌋ = 7 ∧ ⌊(0 : ℝ) + 10 * (-(√2 / 2))⌋ = -8 := by
  have hlo : (7 / 5 : ℝ) < √2 := by
    rw [Real.lt_sqrt (by norm_num)]; norm_num
  have hhi : √2 < (8 / 5 : ℝ) := by
    rw [Real.sqrt_lt' (by norm_num)]; norm_num
  constructor
  · rw [Int.floor_eq_iff]; constructor <;> push_cast <;> linarith
  · rw [Int.floor_eq_iff]; constructor <;> push_cast <;> linarith

/-- Cosine and sine at the eight angles 0°, 45°, ..., 315°. -/
theorem eighth_turn_values :
    (Real.cos (2 * Real.pi * 0 / 8) = 1 ∧ Real.sin (2 * Real.pi * 0 / 8) = 0) ∧
    (Real.cos (2 * Real.pi * 1 / 8) = √2 / 2 ∧ Real.sin (2 * Real.pi * 1 / 8) = √2 / 2) ∧
    (Real.cos (2 * Real.pi * 2 / 8) = 0 ∧ Real.sin (2 * Real.pi * 2 / 8) = 1) ∧
    (Real.cos (2 * Real.pi * 3 / 8) = -(√2 / 2) ∧ Real.sin (2 * Real.pi * 3 / 8) = √2 / 2) ∧
    (Real.cos (2 * Real.pi * 4 / 8) = -1 ∧ Real.sin (2 * Real.pi * 4 / 8) = 0) ∧
    (Real.cos (2 * Real.pi * 5 / 8) = -(√2 / 2) ∧ Real.sin (2 * Real.pi * 5 / 8) = -(√2 / 2)) ∧
    (Real.cos (2 * Real.pi * 6 / 8) = 0 ∧ Real.sin (2 * Real.pi * 6 / 8) = -1) ∧
    (Real.cos (2 * Real.pi * 7 / 8) = √2 / 2 ∧ Real.sin (2 * Real.pi * 7 / 8) = -(√2 / 2)) := by
  have e1 : 2 * Real.pi * 1 / 8 = Real.pi / 4 := by ring
  have e2 : 2 * Real.pi * 2 / 8 = Real.pi / 2 := by ring
  have e3 : 2 * Real.pi * 3 / 8 = Real.pi - Real.pi / 4 := by ring
  have e4 : 2 * Real.pi * 4 / 8 = Real.pi := by ring
  have e5 : 2 * Real.pi * 5 / 8 = Real.pi / 4 + Real.pi := by ring
  have e6 : 2 * Real.pi * 6 / 8 = Real.pi / 2 + Real.pi := by ring
  have e7 : 2 * Real.pi * 7 / 8 = 2 * Real.pi - Real.pi / 4 := by ring
  refine ⟨⟨by simp, by simp⟩, ⟨?_, ?_⟩, ⟨?_, ?_⟩, ⟨?_, ?_⟩, ⟨?_, ?_⟩, ⟨?_, ?_⟩, ⟨?_, ?_⟩, ⟨?_, ?_⟩⟩
  · rw [e1, Real.cos_pi_div_four]
  · rw [e1, Real.sin_pi_div_four]
  · rw [e2, Real.cos_pi_div_two]
  · rw [e2, Real.sin_pi_div_two]
  · rw [e3, Real.cos_pi_sub, Real.cos_pi_div_four]
  · rw [e3, Real.sin_pi_sub, Real.sin_pi_div_four]
  · rw [e4, Real.cos_pi]
  · rw [e4, Real.sin_pi]
  · rw [e5, Real.cos_add_pi, Real.cos_pi_div_four]
  · rw [e5, Real.sin_add_pi, Real.sin_pi_div_four]
  · rw [e6, Real.cos_add_pi, Real.cos_pi_div_two]; simp
  · rw [e6, Real.sin_add_pi, Real.sin_pi_div_two]
  · rw [e7, Real.cos_two_pi_sub, Real.cos_pi_div_four]
  · rw [e7, Real.sin_two_pi_sub, Real.sin_pi_div_four]

/-- In exact real arithmetic the ring of radius 10 with 8 points around the
origin is the list of the specification scenario. -/
theorem scenario_ring_exact :
    generateCirclePoints exactMath 0 0 10 8 true
      = [⟨10, 0⟩, ⟨7, 7⟩, ⟨0, 10⟩, ⟨-8, 7⟩, ⟨-10, 0⟩, ⟨-8, -8⟩, ⟨0, -10⟩, ⟨7, -8⟩] := by
  obtain ⟨h0, h1, h2, h3, h4, h5, h6, h7⟩ := eighth_turn_values
  obtain ⟨f7, f8⟩ := floor_ten_sqrt_two
  have hr : List.range 8 = [0, 1, 2, 3, 4, 5, 6, 7] := rfl
  simp only [generateCirclePoints, hr, List.map_cons, List.map_nil, circlePointRaw, exactMath,
    if_true, Nat.cast_ofNat, Nat.cast_zero, Nat.cast_one]
  rw [h0.1, h0.2, h1.1, h1.2, h2.1, h2.2, h3.1, h3.2, h4.1, h4.2, h5.1, h5.2, h6.1, h6.2,
    h7.1, h7.2, f7, f8]
  norm_num

/-! ### Distinct points on a wide ring -/

/-- Between `δ` and `π - δ` the sine is at least `sin δ`. -/
theorem sin_ge_sin_of_between (δ x : ℝ) (h1 : δ ≤ x) (h2 : x ≤ Real.pi - δ)
    (h0 : 0 ≤ δ) : Real.sin δ ≤ Real.sin x := by
  have hpi := Real.pi_pos
  by_cases hx : x ≤ Real.pi / 2
  · exact Real.sin_le_sin_of_le_of_le_pi_div_two (by linarith) hx h1
  · rw [← Real.sin_pi_sub x]
    exact Real.sin_le_sin_of_le_of_le_pi_div_two (by linarith) (by linarith) (by linarith)

/-- The squared chord between two points of the unit circle. -/
theorem chord_sq (a b : ℝ) :
    (Real.cos a - Real.cos b) ^ 2 + (Real.sin a - Real.sin b) ^ 2
      = 4 * Real.sin ((a - b) / 2) ^ 2 := by
  rw [Real.cos_sub_cos, Real.sin_sub_sin]
  have h := Real.sin_sq_add_cos_sq ((a + b) / 2)
  linear_combination (4 * Real.sin ((a - b) / 2) ^ 2) * h

/-- Two coordinates with the same floor, computed with a cosine or sine that is
within `ε` of the exact one, come from exact values less than `1 + 2·r·ε`
apart. -/
theorem exact_gap_of_floor_eq (center radius u v : ℚ) (U V ε : ℝ) (hr : 0 < radius)
    (hu : |(u : ℝ) - U| ≤ ε) (hv : |(v : ℝ) - V| ≤ ε)
    (h : ⌊center + radius * u⌋ = ⌊center + radius * v⌋) :
    ((radius : ℝ) * (U - V)) ^ 2 < (1 + 2 * (radius : ℝ) * ε) ^ 2 := by
  have hq := Int.abs_sub_lt_one_of_floor_eq_floor h
  have hreal : |(radius : ℝ) * ((u : ℝ) - (v : ℝ))| < 1 := by
    have h2 : |radius * (u - v)| < 1 := by
      have e : center + radius * u - (center + radius * v) = radius * (u - v) := by ring
      rwa [e] at hq
    have h3 : ((|radius * (u - v)| : ℚ) : ℝ) < ((1 : ℚ) : ℝ) := by exact_mod_cast h2
    simpa using h3
  have hR : (0 : ℝ) < (radius : ℝ) := by exact_mod_cast hr
  rw [abs_lt] at hreal
  rw [abs_le] at hu hv
  have a1 := mul_le_mul_of_nonneg_left hu.1 hR.le
  have a2 := mul_le_mul_of_nonneg_left hu.2 hR.le
  have a3 := mul_le_mul_of_nonneg_left hv.1 hR.le
  have a4 := mul_le_mul_of_nonneg_left hv.2 hR.le
  apply sq_lt_sq'
  · linarith [hreal.1]
  · linarith [hreal.2]

/-- Half the angle between the ring points of index `i` and `j` has the same
squared sine as `PI·(j - i)/n`. -/
theorem ring_half_angle (M : JsMath ℚ) (n : Nat) (clockwise : Bool) (i j : Nat)
    (hn : 0 < n) :
    Real.sin ((((ringAngle M n clockwise i : ℚ) : ℝ)
        - ((ringAngle M n clockwise j : ℚ) : ℝ)) / 2) ^ 2
      = Real.sin ((M.PI : ℝ) * ((j : ℝ) - (i : ℝ)) / (n : ℝ)) ^ 2 := by
  have hnpos : (n : ℝ) ≠ 0 := by
    have : (0 : ℝ) < (n : ℝ) := by exact_mod_cast hn
    exact this.ne'
  cases clockwise with
  | true =>
    have e : (((ringAngle M n true i : ℚ) : ℝ) - ((ringAngle M n true j : ℚ) : ℝ)) / 2
        = -((M.PI : ℝ) * ((j : ℝ) - (i : ℝ)) / (n : ℝ)) := by
      simp only [ringAngle, if_true]
      push_cast
      field_simp
      ring
    rw [e, Real.sin_neg, neg_sq]
  | false =>
    have e : (((ringAngle M n false i : ℚ) : ℝ) - ((ringAngle M n false j : ℚ) : ℝ)) / 2
        = (M.PI : ℝ) * ((j : ℝ) - (i : ℝ)) / (n : ℝ) := by
      simp only [ringAngle, Bool.false_eq_true, if_false]
      push_cast
      field_simp
      ring
    rw [e]

/-- Between two different ring points the half angle `PI·(j - i)/n` has a sine
no smaller than that of half a step, `PI/n`, which is not negative. -/
theorem ring_half_angle_sine (P : ℝ) (n i j : Nat) (hP0 : 0 < P) (hP : P ≤ Real.pi)
    (hij : i < j) (hj : j < n) :
    0 ≤ Real.sin (P / (n : ℝ)) ∧
    Real.sin (P / (n : ℝ)) ≤ Real.sin (P * ((j : ℝ) - (i : ℝ)) / (n : ℝ)) := by
  have hnpos : (0 : ℝ) < (n : ℝ) := by
    have : 0 < n := by omega
    exact_mod_cast this
  have hijr : (i : ℝ) + 1 ≤ (j : ℝ) := by exact_mod_cast hij
  have hjr : (j : ℝ) + 1 ≤ (n : ℝ) := by exact_mod_cast hj
  have hi0 : (0 : ℝ) ≤ (i : ℝ) := Nat.cast_nonneg i
  have hδ0 : 0 ≤ P / (n : ℝ) := by positivity
  have hlow : P / (n : ℝ) ≤ P * ((j : ℝ) - (i : ℝ)) / (n : ℝ) := by
    apply div_le_div_of_nonneg_right _ hnpos.le
    exact le_mul_of_one_le_right hP0.le (by linarith)
  have hhigh : P * ((j : ℝ) - (i : ℝ)) / (n : ℝ) ≤ Real.pi - P / (n : ℝ) := by
    have h1 : P * ((j : ℝ) - (i : ℝ)) / (n : ℝ) ≤ P * ((n : ℝ) - 1) / (n : ℝ) := by
      apply div_le_div_of_nonneg_right _ hnpos.le
      exact mul_le_mul_of_nonneg_left (by linarith) hP0.le
    have h2 : P * ((n : ℝ) - 1) / (n : ℝ) = P - P / (n : ℝ) := by
      field_simp
      ring
    linarith
  exact ⟨Real.sin_nonneg_of_nonneg_of_le_pi hδ0 (by linarith),
    sin_ge_sin_of_between _ _ hlow hhigh hδ0⟩

/-- On a wide ring two different indices never give the same point. -/
theorem ring_points_differ (M : JsMath ℚ) (centerX centerZ radius : ℚ) (n : Nat)
    (clockwise : Bool) (ε : ℝ) (hr : 0 < radius)
    (hfloor : ∀ x : ℚ, M.floor x = ⌊x⌋)
    (hpi0 : 0 < M.PI) (hpi : (M.PI : ℝ) ≤ Real.pi)
    (hcos : ∀ i : Nat, i < n →
      |((M.cos (ringAngle M n clockwise i) : ℚ) : ℝ)
        - Real.cos ((ringAngle M n clockwise i : ℚ) : ℝ)| ≤ ε)
    (hsin : ∀ i : Nat, i < n →
      |((M.sin (ringAngle M n clockwise i) : ℚ) : ℝ)
        - Real.sin ((ringAngle M n clockwise i : ℚ) : ℝ)| ≤ ε)
    (hwide : (1 + 2 * (radius : ℝ) * ε) ^ 2
      ≤ 2 * ((radius : ℝ) * Real.sin ((M.PI : ℝ) / (n : ℝ))) ^ 2)
    (i j : Nat) (hij : i < j) (hj : j < n)
    (h : (⟨M.floor (circlePointRaw M centerX centerZ radius n clockwise i).1,
            M.floor (circlePointRaw M centerX centerZ radius n clockwise i).2⟩ : Point)
      = ⟨M.floor (circlePointRaw M centerX centerZ radius n clockwise j).1,
          M.floor (circlePointRaw M centerX centerZ radius n clockwise j).2⟩) : False := by
  have hi : i < n := lt_trans hij hj
  have hraw : ∀ k : Nat, circlePointRaw M centerX centerZ radius n clockwise k
      = (centerX + radius * M.cos (ringAngle M n clockwise k),
         centerZ + radius * M.sin (ringAngle M n clockwise k)) := fun _ => rfl
  rw [hraw i, hraw j] at h
  simp only [hfloor, Point.mk.injEq] at h
  obtain ⟨hx, hz⟩ := h
  have gx := exact_gap_of_floor_eq _ _ _ _ _ _ ε hr (hcos i hi) (hcos j hj) hx
  have gz := exact_gap_of_floor_eq _ _ _ _ _ _ ε hr (hsin i hi) (hsin j hj) hz
  have hP : (0 : ℝ) < (M.PI : ℝ) := by exact_mod_cast hpi0
  obtain ⟨hsin0, hge⟩ := ring_half_angle_sine (M.PI : ℝ) n i j hP hpi hij hj
  have hsq : Real.sin ((M.PI : ℝ) / (n : ℝ)) ^ 2
      ≤ Real.sin ((M.PI : ℝ) * ((j : ℝ) - (i : ℝ)) / (n : ℝ)) ^ 2 :=
    pow_le_pow_left₀ hsin0 hge 2
  have hchord := chord_sq ((ringAngle M n clockwise i : ℚ) : ℝ)
    ((ringAngle M n clockwise j : ℚ) : ℝ)
  rw [ring_half_angle M n clockwise i j (by omega)] at hchord
  have hR2 : (0 : ℝ) ≤ (radius : ℝ) ^ 2 := sq_nonneg _
  have e1 : ((radius : ℝ) * (Real.cos ((ringAngle M n clockwise i : ℚ) : ℝ)
        - Real.cos ((ringAngle M n clockwise j : ℚ) : ℝ))) ^ 2
      + ((radius : ℝ) * (Real.sin ((ringAngle M n clockwise i : ℚ) : ℝ)
        - Real.sin ((ringAngle M n clockwise j : ℚ) : ℝ))) ^ 2
      = (radius : ℝ) ^ 2
        * (4 * Real.sin ((M.PI : ℝ) * ((j : ℝ) - (i : ℝ)) / (n : ℝ)) ^ 2) := by
    rw [← hchord]
    ring
  have e2 := mul_le_mul_of_nonneg_left hsq hR2
  have e3 : ((radius : ℝ) * Real.sin ((M.PI : ℝ) / (n : ℝ))) ^ 2
      = (radius : ℝ) ^ 2 * Real.sin ((M.PI : ℝ) / (n : ℝ)) ^ 2 := mul_pow _ _ _
  linarith

/-- C4 (amended). For every centre, every radius `r > 0` and every
`pointsPerLap` `n`, `generateCirclePoints` returns exactly `n` points, and the
`n` returned points are pairwise distinct whenever the ring is wide for its
point count: the chord `2·r·sin(PI/n)` between neighbouring ring points is at
least `√2·(1 + 2·r·ε)`, the diagonal of a block cell with allowance for a
cosine and sine that are within `ε` of the exact ones at the angles of the
ring, with `Math.PI` positive and not above π, as in doubles.  The numbers are
rationals, as all doubles are. -/
theorem ring_distinct_when_wide (M : JsMath ℚ) (centerX centerZ radius : ℚ) (n : Nat)
    (clockwise : Bool) (ε : ℝ) (hr : 0 < radius)
    (hfloor : ∀ x : ℚ, M.floor x = ⌊x⌋)
    (hpi0 : 0 < M.PI) (hpi : (M.PI : ℝ) ≤ Real.pi)
    (hcos : ∀ i : Nat, i < n →
      |((M.cos (ringAngle M n clockwise i) : ℚ) : ℝ)
        - Real.cos ((ringAngle M n clockwise i : ℚ) : ℝ)| ≤ ε)
    (hsin : ∀ i : Nat, i < n →
      |((M.sin (ringAngle M n clockwise i) : ℚ) : ℝ)
        - Real.sin ((ringAngle M n clockwise i : ℚ) : ℝ)| ≤ ε)
    (hwide : (1 + 2 * (radius : ℝ) * ε) ^ 2
      ≤ 2 * ((radius : ℝ) * Real.sin ((M.PI : ℝ) / (n : ℝ))) ^ 2) :
    (generateCirclePoints M centerX centerZ radius n clockwise).length = n ∧
    (generateCirclePoints M centerX centerZ radius n clockwise).Nodup := by
  refine ⟨generateCirclePoints_length _ _ _ _ _ _, ?_⟩
  unfold generateCirclePoints
  apply List.Nodup.map_on _ (List.nodup_range n)
  intro i hi j hj h
  rw [List.mem_range] at hi hj
  by_contra hne
  rcases Nat.lt_or_gt_of_ne hne with hlt | hgt
  · exact ring_points_differ M centerX centerZ radius n clockwise ε hr hfloor hpi0 hpi hcos hsin
      hwide i j hlt hj h
  · exact ring_points_differ M centerX centerZ radius n clockwise ε hr hfloor hpi0 hpi hcos hsin
      hwide j i hgt hi h.symm

/-- Cosine and sine change by no more than their argument does. -/
theorem cos_sin_lipschitz (a b : ℝ) :
    |Real.cos a - Real.cos b| ≤ |a - b| ∧ |Real.sin a - Real.sin b| ≤ |a - b| := by
  have h1 := Real.abs_sin_le_abs (x := (a - b) / 2)
  have h2 : |(a - b) / 2| = |a - b| / 2 := by rw [abs_div]; norm_num
  have h3 := Real.abs_sin_le_one ((a + b) / 2)
  have h4 := Real.abs_cos_le_one ((a + b) / 2)
  have n1 := abs_nonneg (Real.sin ((a - b) / 2))
  have n3 := abs_nonneg (Real.sin ((a + b) / 2))
  have n4 := abs_nonneg (Real.cos ((a + b) / 2))
  constructor
  · rw [Real.cos_sub_cos, abs_mul, abs_mul]
    have : |(-2 : ℝ)| = 2 := by norm_num
    rw [this]
    nlinarith
  · rw [Real.sin_sub_sin, abs_mul, abs_mul]
    have : |(2 : ℝ)| = 2 := by norm_num
    rw [this]
    nlinarith

/-- A tabulated value close to the exact value at a nearby angle is close to
the exact value at its own angle. -/
theorem close_of_close (q v : ℚ) (t C S : ℝ) (hq : |(q : ℝ) - t| ≤ 1 / 1000) :
    (Real.cos t = C → |(v : ℝ) - C| ≤ 1 / 1000 → |(v : ℝ) - Real.cos (q : ℝ)| ≤ 1 / 100) ∧
    (Real.sin t = S → |(v : ℝ) - S| ≤ 1 / 1000 → |(v : ℝ) - Real.sin (q : ℝ)| ≤ 1 / 100) := by
  obtain ⟨lc, ls⟩ := cos_sin_lipschitz (q : ℝ) t
  have lc2 := lc.trans hq
  have ls2 := ls.trans hq
  rw [abs_le] at lc2 ls2
  constructor
  · intro hC hv
    rw [← hC, abs_le] at hv
    rw [abs_le]
    constructor <;> linarith [lc2.1, lc2.2, hv.1, hv.2]
  · intro hS hv
    rw [← hS, abs_le] at hv
    rw [abs_le]
    constructor <;> linarith [ls2.1, ls2.2, hv.1, hv.2]

/-- The tabulated angles are within a thousandth of the exact multiples of
45°. -/
theorem doublePi_angle_close (k : ℚ) (K : ℝ) (hk : (k : ℝ) = K) (h0 : 0 ≤ K) (h7 : K ≤ 7) :
    |((2 * doublePi * k / 8 : ℚ) : ℝ) - 2 * Real.pi * K / 8| ≤ 1 / 1000 := by
  have h1 := Real.pi_gt_d6
  have h2 := Real.pi_lt_d6
  have e : ((2 * doublePi * k / 8 : ℚ) : ℝ) - 2 * Real.pi * K / 8
      = ((884279719003555 / 281474976710656 : ℝ) - Real.pi) * (K / 4) := by
    simp only [doublePi]
    push_cast
    rw [hk]
    ring
  rw [e, abs_le]
  constructor <;> nlinarith

/-- The values of `doubleMath` at the clockwise angles for 0° and 45° are
within a hundredth of the exact cosine and sine. -/
theorem doubleMath_accurate_first (i : Nat) (hi : i < 2) :
    |((doubleMath.cos (ringAngle doubleMath 8 true i) : ℚ) : ℝ)
        - Real.cos ((ringAngle doubleMath 8 true i : ℚ) : ℝ)| ≤ 1 / 100 ∧
    |((doubleMath.sin (ringAngle doubleMath 8 true i) : ℚ) : ℝ)
        - Real.sin ((ringAngle doubleMath 8 true i : ℚ) : ℝ)| ≤ 1 / 100 := by
  obtain ⟨t0, t1, t2, t3, t4, t5, t6, t7⟩ := doubleMath_table
  obtain ⟨v0, v1, v2, v3, v4, v5, v6, v7⟩ := eighth_turn_values
  have hlo : (14142 / 10000 : ℝ) < √2 := by
    rw [Real.lt_sqrt (by norm_num)]; norm_num
  have hhi : √2 < (14143 / 10000 : ℝ) := by
    rw [Real.sqrt_lt' (by norm_num)]; norm_num
  interval_cases i
  · have hq := doublePi_angle_close 0 0 (by norm_num) (by norm_num) (by norm_num)
    simp only [ringAngle, doubleMath, if_true, Nat.cast_zero, Nat.cast_ofNat]
    rw [t0.1, t0.2]
    refine ⟨(close_of_close _ _ _ _ 0 hq).1 v0.1 ?_, (close_of_close _ _ _ 0 _ hq).2 v0.2 ?_⟩ <;>
      · rw [abs_le]; push_cast; constructor <;> linarith
  · have hq := doublePi_angle_close 1 1 (by norm_num) (by norm_num) (by norm_num)
    simp only [ringAngle, doubleMath, if_true, Nat.cast_one, Nat.cast_ofNat]
    rw [t1.1, t1.2]
    refine ⟨(close_of_close _ _ _ _ 0 hq).1 v1.1 ?_, (close_of_close _ _ _ 0 _ hq).2 v1.2 ?_⟩ <;>
      · rw [abs_le]; push_cast; constructor <;> linarith

/-- The values of `doubleMath` at the clockwise angles for 90° and 135° are
within a hundredth of the exact cosine and sine. -/
theorem doubleMath_accurate_second (i : Nat) (hge : 2 ≤ i) (hi : i < 4) :
    |((doubleMath.cos (ringAngle doubleMath 8 true i) : ℚ) : ℝ)
        - Real.cos ((ringAngle doubleMath 8 true i : ℚ) : ℝ)| ≤ 1 / 100 ∧
    |((doubleMath.sin (ringAngle doubleMath 8 true i) : ℚ) : ℝ)
        - Real.sin ((ringAngle doubleMath 8 true i : ℚ) : ℝ)| ≤ 1 / 100 := by
  obtain ⟨t0, t1, t2, t3, t4, t5, t6, t7⟩ := doubleMath_table
  obtain ⟨v0, v1, v2, v3, v4, v5, v6, v7⟩ := eighth_turn_values
  have hlo : (14142 / 10000 : ℝ) < √2 := by
    rw [Real.lt_sqrt (by norm_num)]; norm_num
  have hhi : √2 < (14143 / 10000 : ℝ) := by
    rw [Real.sqrt_lt' (by norm_num)]; norm_num
  interval_cases i
  · have hq := doublePi_angle_close 2 2 (by norm_num) (by norm_num) (by norm_num)
    simp only [ringAngle, doubleMath, if_true, Nat.cast_ofNat]
    rw [t2.1, t2.2]
    refine ⟨(close_of_close _ _ _ _ 0 hq).1 v2.1 ?_, (close_of_close _ _ _ 0 _ hq).2 v2.2 ?_⟩ <;>
      · rw [abs_le]; push_cast; constructor <;> linarith
  · have hq := doublePi_angle_close 3 3 (by norm_num) (by norm_num) (by norm_num)
    simp only [ringAngle, doubleMath, if_true, Nat.cast_ofNat]
    rw [t3.1, t3.2]
    refine ⟨(close_of_close _ _ _ _ 0 hq).1 v3.1 ?_, (close_of_close _ _ _ 0 _ hq).2 v3.2 ?_⟩ <;>
      · rw [abs_le]; push_cast; constructor <;> linarith

/-- The values of `doubleMath` at the clockwise angles for 180° and 225° are
within a hundredth of the exact cosine and sine. -/
theorem doubleMath_accurate_third (i : Nat) (hge : 4 ≤ i) (hi : i < 6) :
    |((doubleMath.cos (ringAngle doubleMath 8 true i) : ℚ) : ℝ)
        - Real.cos ((ringAngle doubleMath 8 true i : ℚ) : ℝ)| ≤ 1 / 100 ∧
    |((doubleMath.sin (ringAngle doubleMath 8 true i) : ℚ) : ℝ)
        - Real.sin ((ringAngle doubleMath 8 true i : ℚ) : ℝ)| ≤ 1 / 100 := by
  obtain ⟨t0, t1, t2, t3, t4, t5, t6, t7⟩ := doubleMath_table
  obtain ⟨v0, v1, v2, v3, v4, v5, v6, v7⟩ := eighth_turn_values
  have hlo : (14142 / 10000 : ℝ) < √2 := by
    rw [Real.lt_sqrt (by norm_num)]; norm_num
  have hhi : √2 < (14143 / 10000 : ℝ) := by
    rw [Real.sqrt_lt' (by norm_num)]; norm_num
  interval_cases i
  · have hq := doublePi_angle_close 4 4 (by norm_num) (by norm_num) (by norm_num)
    simp only [ringAngle, doubleMath, if_true, Nat.cast_ofNat]
    rw [t4.1, t4.2]
    refine ⟨(close_of_close _ _ _ _ 0 hq).1 v4.1 ?_, (close_of_close _ _ _ 0 _ hq).2 v4.2 ?_⟩ <;>
      · rw [abs_le]; push_cast; constructor <;> linarith
  · have hq := doublePi_angle_close 5 5 (by norm_num) (by norm_num) (by norm_num)
    simp only [ringAngle, doubleMath, if_true, Nat.cast_ofNat]
    rw [t5.1, t5.2]
    refine ⟨(close_of_close _ _ _ _ 0 hq).1 v5.1 ?_, (close_of_close _ _ _ 0 _ hq).2 v5.2 ?_⟩ <;>
      · rw [abs_le]; push_cast; constructor <;> linarith

/-- The values of `doubleMath` at the clockwise angles for 270° and 315° are
within a hundredth of the exact cosine and sine. -/
theorem doubleMath_accurate_fourth (i : Nat) (hge : 6 ≤ i) (hi : i < 8) :
    |((doubleMath.cos (ringAngle doubleMath 8 true i) : ℚ) : ℝ)
        - Real.cos ((ringAngle doubleMath 8 true i : ℚ) : ℝ)| ≤ 1 / 100 ∧
    |((doubleMath.sin (ringAngle doubleMath 8 true i) : ℚ) : ℝ)
        - Real.sin ((ringAngle doubleMath 8 true i : ℚ) : ℝ)| ≤ 1 / 100 := by
  obtain ⟨t0, t1, t2, t3, t4, t5, t6, t7⟩ := doubleMath_table
  obtain ⟨v0, v1, v2, v3, v4, v5, v6, v7⟩ := eighth_turn_values
  have hlo : (14142 / 10000 : ℝ) < √2 := by
    rw [Real.lt_sqrt (by norm_num)]; norm_num
  have hhi : √2 < (14143 / 10000 : ℝ) := by
    rw [Real.sqrt_lt' (by norm_num)]; norm_num
  interval_cases i
  · have hq := doublePi_angle_close 6 6 (by norm_num) (by norm_num) (by norm_num)
    simp only [ringAngle, doubleMath, if_true, Nat.cast_ofNat]
    rw [t6.1, t6.2]
    refine ⟨(close_of_close _ _ _ _ 0 hq).1 v6.1 ?_, (close_of_close _ _ _ 0 _ hq).2 v6.2 ?_⟩ <;>
      · rw [abs_le]; push_cast; constructor <;> linarith
  · have hq := doublePi_angle_close 7 7 (by norm_num) (by norm_num) (by norm_num)
    simp only [ringAngle, doubleMath, if_true, Nat.cast_ofNat]
    rw [t7.1, t7.2]
    refine ⟨(close_of_close _ _ _ _ 0 hq).1 v7.1 ?_, (close_of_close _ _ _ 0 _ hq).2 v7.2 ?_⟩ <;>
      · rw [abs_le]; push_cast; constructor <;> linarith

/-- The values of `doubleMath` at the eight clockwise angles are within a
hundredth of the exact cosine and sine. -/
theorem doubleMath_accurate (i : Nat) (hi : i < 8) :
    |((doubleMath.cos (ringAngle doubleMath 8 true i) : ℚ) : ℝ)
        - Real.cos ((ringAngle doubleMath 8 true i : ℚ) : ℝ)| ≤ 1 / 100 ∧
    |((doubleMath.sin (ringAngle doubleMath 8 true i) : ℚ) : ℝ)
        - Real.sin ((ringAngle doubleMath 8 true i : ℚ) : ℝ)| ≤ 1 / 100 := by
  rcases Nat.lt_or_ge i 2 with h2 | h2
  · exact doubleMath_accurate_first i h2
  rcases Nat.lt_or_ge i 4 with h4 | h4
  · exact doubleMath_accurate_second i h2 h4
  rcases Nat.lt_or_ge i 6 with h6 | h6
  · exact doubleMath_accurate_third i h4 h6
  · exact doubleMath_accurate_fourth i h6 hi

/-- `Math.PI` is positive and not above π. -/
theorem doublePi_le_pi : 0 < doubleMath.PI ∧ ((doubleMath.PI : ℚ) : ℝ) ≤ Real.pi := by
  constructor
  · norm_num [doubleMath, doublePi]
  · have h := Real.pi_gt_d20
    simp only [doubleMath, doublePi]
    push_cast
    have : (884279719003555 / 281474976710656 : ℝ) ≤ 3.14159265358979323846 := by norm_num
    linarith

/-- The ring of radius 10 with 8 points is wide: `2·10·sin(PI/8)` is about
7.65, well above `√2·(1 + 2·10/100)`. -/
theorem scenario_ring_wide :
    (1 + 2 * ((10 : ℚ) : ℝ) * (1 / 100)) ^ 2
      ≤ 2 * (((10 : ℚ) : ℝ) * Real.sin (((doubleMath.PI : ℚ) : ℝ) / ((8 : Nat) : ℝ))) ^ 2 := by
  have hx : ((doubleMath.PI : ℚ) : ℝ) / ((8 : Nat) : ℝ)
      = (884279719003555 / 2251799813685248 : ℝ) := by
    simp only [doubleMath, doublePi]
    push_cast
    norm_num
  rw [hx]
  have h := Real.sin_gt_sub_cube (x := (884279719003555 / 2251799813685248 : ℝ))
    (by norm_num) (by norm_num)
  have h3 : (3 / 10 : ℝ) < Real.sin (884279719003555 / 2251799813685248 : ℝ) := by
    refine lt_trans ?_ h
    norm_num
  push_cast
  nlinarith

/-- The scenario ring in doubles: radius 10, 8 points per lap, cosine and sine
within a hundredth of the exact ones; its 8 points are pairwise distinct. -/
theorem ring_distinct_when_wide_witness :
    (generateCirclePoints doubleMath 0 0 10 8 true).length = 8 ∧
    (generateCirclePoints doubleMath 0 0 10 8 true).Nodup :=
  ring_distinct_when_wide doubleMath 0 0 10 8 true (1 / 100) (by norm_num) (fun _ => rfl)
    doublePi_le_pi.1 doublePi_le_pi.2 (fun i hi => (doubleMath_accurate i hi).1)
    (fun i hi => (doubleMath_accurate i hi).2) scenario_ring_wide

/-- C4, as stated, fails: in doubles, with radius 1 and 8 points per lap around
the origin, the points of index 3 (135°) and 4 (180°) are both (-1, 0), and
those of index 5 and 6 are both (-1, -1), so the ring is not pairwise
distinct. -/
theorem small_ring_points_coincide_counterexample :
    (0 : ℚ) < 1 ∧ 3 ≤ 8 ∧
    (generateCirclePoints doubleMath 0 0 1 8 true).length = 8 ∧
    (generateCirclePoints doubleMath 0 0 1 8 true)[3]? = some { x := -1, z := 0 } ∧
    (generateCirclePoints doubleMath 0 0 1 8 true)[4]? = some { x := -1, z := 0 } ∧
    ¬ (generateCirclePoints doubleMath 0 0 1 8 true).Nodup := by
  rw [doubleMath_unit_ring]
  decide

end Circle

/-! ## Remaining contracts -/

section Contracts

variable {W : Type}

/-- C18. `isNightTime` returns true exactly when the time of day is available
and lies in the range 13000 ≤ timeOfDay < 23000; it returns false for every
other time and whenever the time is unavailable. -/
theorem isNightTime_iff (bot : Bot W) (w : W) :
    (isNightTime bot w = true ↔
      ∃ t : Nat, bot.timeOfDay w = some t ∧ 13000 ≤ t ∧ t < 23000) ∧
    (bot.timeOfDay w = none → isNightTime bot w = false) ∧
    (∀ t : Nat, bot.timeOfDay w = some t → (t < 13000 ∨ 23000 ≤ t) →
      isNightTime bot w = false) := by
  unfold isNightTime
  refine ⟨?_, ?_, ?_⟩
  · cases h : bot.timeOfDay w with
    | none => simp
    | some t => simp
  · intro h; simp [h]
  · intro t h ht
    simp only [h, Bool.and_eq_false_imp, decide_eq_true_eq, decide_eq_false_iff_not, not_lt]
    intro h1
    omega

/-- Night time 14000 in the demo world is night. -/
theorem isNightTime_iff_witness : isNightTime demoBot nightWorld = true :=
  (isNightTime_iff demoBot nightWorld).1.mpr ⟨14000, rfl, by norm_num, by norm_num⟩

/-- The candidate list of lines 1004-1012 (and 358-366), written out. -/
theorem sitePlacementAttempts_eq (x y z : Int) :
    sitePlacementAttempts x y z =
      [ ⟨⟨x + 2, y, z⟩, ⟨x + 2, y - 1, z⟩, "2m east"⟩,
        ⟨⟨x - 2, y, z⟩, ⟨x - 2, y - 1, z⟩, "2m west"⟩,
        ⟨⟨x, y, z + 2⟩, ⟨x, y - 1, z + 2⟩, "2m south"⟩,
        ⟨⟨x, y, z - 2⟩, ⟨x, y - 1, z - 2⟩, "2m north"⟩,
        ⟨⟨x + 3, y, z⟩, ⟨x + 3, y - 1, z⟩, "3m east"⟩,
        ⟨⟨x - 3, y, z⟩, ⟨x - 3, y - 1, z⟩, "3m west"⟩,
        ⟨⟨x, y, z + 3⟩, ⟨x, y - 1, z + 3⟩, "3m south"⟩,
        ⟨⟨x, y, z - 3⟩, ⟨x, y - 1, z - 3⟩, "3m north"⟩,
        ⟨⟨x + 4, y, z⟩, ⟨x + 4, y - 1, z⟩, "4m east"⟩,
        ⟨⟨x - 4, y, z⟩, ⟨x - 4, y - 1, z⟩, "4m west"⟩,
        ⟨⟨x, y, z + 4⟩, ⟨x, y - 1, z + 4⟩, "4m south"⟩,
        ⟨⟨x, y, z - 4⟩, ⟨x, y - 1, z - 4⟩, "4m north"⟩,
        ⟨⟨x + 5, y, z⟩, ⟨x + 5, y - 1, z⟩, "5m east"⟩,
        ⟨⟨x - 5, y, z⟩, ⟨x - 5, y - 1, z⟩, "5m west"⟩,
        ⟨⟨x, y, z + 5⟩, ⟨x, y - 1, z + 5⟩, "5m south"⟩,
        ⟨⟨x, y, z - 5⟩, ⟨x, y - 1, z - 5⟩, "5m north"⟩ ] := by
  rfl

/-- C14. For every floored actor position (x, y, z) the candidate targets are,
in this order: for block placement the 12 cells at distances 2, 3, 4, and for
bed placement the 16 cells at distances 2, 3, 4, 5, each distance contributing
east (x+d, y, z), west (x-d, y, z), south (x, y, z+d), north (x, y, z-d); and
the reference position of every candidate is the cell directly below its
target. -/
theorem placement_ring_order (x y z : Int) :
    (blockPlacementAttempts x y z).map (fun a => a.pos) =
      [ ⟨x + 2, y, z⟩, ⟨x - 2, y, z⟩, ⟨x, y, z + 2⟩, ⟨x, y, z - 2⟩,
        ⟨x + 3, y, z⟩, ⟨x - 3, y, z⟩, ⟨x, y, z + 3⟩, ⟨x, y, z - 3⟩,
        ⟨x + 4, y, z⟩, ⟨x - 4, y, z⟩, ⟨x, y, z + 4⟩, ⟨x, y, z - 4⟩ ] ∧
    (sitePlacementAttempts x y z).map (fun a => a.pos) =
      [ ⟨x + 2, y, z⟩, ⟨x - 2, y, z⟩, ⟨x, y, z + 2⟩, ⟨x, y, z - 2⟩,
        ⟨x + 3, y, z⟩, ⟨x - 3, y, z⟩, ⟨x, y, z + 3⟩, ⟨x, y, z - 3⟩,
        ⟨x + 4, y, z⟩, ⟨x - 4, y, z⟩, ⟨x, y, z + 4⟩, ⟨x, y, z - 4⟩,
        ⟨x + 5, y, z⟩, ⟨x - 5, y, z⟩, ⟨x, y, z + 5⟩, ⟨x, y, z - 5⟩ ] ∧
    (blockPlacementAttempts x y z).length = 12 ∧
    (sitePlacementAttempts x y z).length = 16 ∧
    (∀ a ∈ blockPlacementAttempts x y z, a.ref = ⟨a.pos.x, a.pos.y - 1, a.pos.z⟩) ∧
    (∀ a ∈ sitePlacementAttempts x y z, a.ref = ⟨a.pos.x, a.pos.y - 1, a.pos.z⟩) := by
  refine ⟨rfl, rfl, rfl, rfl, ?_, ?_⟩
  · intro a ha
    rw [blockPlacementAttempts_eq] at ha
    simp only [List.mem_cons, List.mem_singleton, List.not_mem_nil, or_false] at ha
    rcases ha with h | h | h | h | h | h | h | h | h | h | h | h <;> subst h <;> rfl
  · intro a ha
    rw [sitePlacementAttempts_eq] at ha
    simp only [List.mem_cons, List.mem_singleton, List.not_mem_nil, or_false] at ha
    rcases ha with h | h | h | h | h | h | h | h | h | h | h | h | h | h | h | h <;>
      subst h <;> rfl

/-- The candidate three cells east of (0, 64, 0) rests on the cell below it. -/
theorem placement_ring_order_witness :
    (⟨⟨0 + 3, 64, 0⟩, ⟨0 + 3, 64 - 1, 0⟩, ⟨0, 1, 0⟩, "3m east"⟩ : BlockAttempt).ref
      = ⟨0 + 3, 64 - 1, 0⟩ :=
  (placement_ring_order 0 64 0).2.2.2.2.1 ⟨⟨0 + 3, 64, 0⟩, ⟨0 + 3, 64 - 1, 0⟩, ⟨0, 1, 0⟩, "3m east"⟩
    (by rw [blockPlacementAttempts_eq]; simp)

/-- C17 at the failing input: a process that lost its session while asleep.  The
reconnection timer resets `isProcessing` and `cycleCount` but leaves
`isSleeping` and `isAttemptingSleep` set, and `startCircularPattern` called in
the resulting state returns at its guard without starting anything. -/
theorem reconnect_leaves_sleep_flags :
    (reconnectTimer asleepState).isProcessing = false ∧
    (reconnectTimer asleepState).cycleCount = 0 ∧
    (reconnectTimer asleepState).isSleeping = true ∧
    (reconnectTimer asleepState).isAttemptingSleep = true ∧
    startCircularPattern exactMath demoConfig demoBot (reconnectTimer asleepState)
      = .done (reconnectTimer asleepState) () := by
  refine ⟨rfl, rfl, rfl, rfl, rfl⟩

/-- C16 at the failing input: an idle process at night.  Entered through the
night monitor, the sleep routine runs with `isAttemptingSleep` set; entered
through `startCircularPattern`, it records the timestamp and sets `isSleeping`
but `isAttemptingSleep` is still false when it parks and when it has gone to
sleep. -/
theorem orchestrator_entry_leaves_attempt_flag :
    (nightMonitorTick demoConfig demoBot (initialState nightWorld)).parked.isAttemptingSleep
      = true ∧
    (startCircularPattern exactMath demoConfig demoBot
      (initialState nightWorld)).parked.isSleeping = true ∧
    (startCircularPattern exactMath demoConfig demoBot
      (initialState nightWorld)).parked.lastSleepAttempt = 100000 ∧
    (startCircularPattern exactMath demoConfig demoBot
      (initialState nightWorld)).parked.isAttemptingSleep = false ∧
    (Co.run demoEnv (startCircularPattern exactMath demoConfig demoBot
      (initialState nightWorld))).1.isAttemptingSleep = false ∧
    (Co.run demoEnv (startCircularPattern exactMath demoConfig demoBot
      (initialState nightWorld))).1.trace
      = [.setGoal none, .delay 300, .sleep { name := "red_bed", position := ⟨1, 64, 0⟩ },
          .once .wake] := by
  refine ⟨rfl, rfl, rfl, rfl, rfl, rfl⟩

/-- C15, as stated, fails: in creative mode with ten stone held and 64
requested, an injection that has no effect on the inventory is still reported
as success, although the held quantity after the settle delay (10) is not
greater than before (10). -/
theorem injection_without_increase_counterexample :
    heldCount (demoBot.inventoryItems (initialState stockedCreativeWorld).world) "stone" = 10 ∧
    (Co.run stillEnv (ensureItemInCreativeInventory demoBot "stone" 64
      (initialState stockedCreativeWorld))).2 = true ∧
    (Co.run stillEnv (ensureItemInCreativeInventory demoBot "stone" 64
      (initialState stockedCreativeWorld))).1.trace = [.setInventorySlot 9 1 64, .delay 500] ∧
    heldCount (demoBot.inventoryItems (Co.run stillEnv (ensureItemInCreativeInventory demoBot
      "stone" 64 (initialState stockedCreativeWorld))).1.world) "stone" = 10 := by
  decide

/-- C15 (amended). When `ensureItemInCreativeInventory` reaches the injection
path (lock free, held quantity below the requested count), it returns true
only if the held quantity of the item after the injection and the settle delay
is greater than zero. -/
theorem injection_success_requires_item (bot : Bot W) (env : State W → State W)
    (itemName : String) (count : Nat) (s : State W)
    (hlock : s.creativeInventoryLock = false)
    (hlt : heldCount (bot.inventoryItems s.world) itemName < count)
    (htrue : (Co.run env (ensureItemInCreativeInventory bot itemName count s)).2 = true) :
    0 < heldCount (bot.inventoryItems
      (Co.run env (ensureItemInCreativeInventory bot itemName count s)).1.world) itemName := by
  revert htrue
  unfold ensureItemInCreativeInventory
  rw [if_neg (by simp [hlock])]
  dsimp only
  rw [if_neg (by simpa using hlt)]
  split
  · simp
  · split
    · simp
    · split
      · simp
      · simp only [awaitCall, awaitDelay, Co.run_susp]
        split
        · simp
        · simp only [Co.run_susp]
          split
          · rename_i hpos
            intro _
            simpa using hpos
          · simp

/-- A creative-mode injection that works: the call returns true and stone is
held afterwards. -/
theorem injection_success_requires_item_witness :
    0 < heldCount (demoBot.inventoryItems (Co.run demoEnv (ensureItemInCreativeInventory demoBot
      "stone" 64 (initialState creativeWorld))).1.world) "stone" :=
  injection_success_requires_item demoBot demoEnv "stone" 64 (initialState creativeWorld)
    rfl (by decide) (by decide)

/-! ### Patrol leg and night -/

/-- A lap of `walkRounds` is the rest of the leg seen from its first point. -/
theorem walkRounds_succ {R : Type} (cfg : Config R) (bot : Bot W) (points : List Point)
    (rounds : Nat) (s : State W) :
    walkRounds cfg bot points (rounds + 1) s = walkFrom cfg bot points points rounds s := rfl

/-- After a point has been visited, the leg goes on as the rest of the leg seen
from the next point. -/
theorem walkFrom_visit {R : Type} (cfg : Config R) (bot : Bot W) (env : State W → State W)
    (points : List Point) (point : Point) (rest : List Point) (roundsLeft : Nat) (s : State W)
    (hday : nightPreempt cfg bot s = false)
    (hgo : bot.setGoal s.world (some (Goal.near point.x cfg.centerY point.z 1)) = .ok ())
    (hclear : ∀ w, bot.setGoal w none = .ok ()) :
    ∃ s6 : State W,
      Co.run env (walkFrom cfg bot points (point :: rest) roundsLeft s)
        = Co.run env (walkFrom cfg bot points rest roundsLeft s6) := by
  refine ⟨?_, ?_⟩
  swap
  · conv_lhs =>
      unfold walkFrom walkPoints
      simp only [hday, Bool.false_eq_true, if_false, hgo, Co.seq_susp, Co.run_susp, hclear,
        awaitDelay]
    conv_rhs => unfold walkFrom
    exact rfl

/-- C11. In `walkCircle`, whenever the night-preemption predicate holds at the
check made before a point visit, the rest of the leg, i.e. the remaining points
of the current lap and every remaining lap, finishes on the spot in the state
of the check: no goal is set and the function does not park again.  In
particular, when the predicate holds at entry, `walkCircle` returns at once
without any call. -/
theorem walk_aborts_at_night {R : Type} [Field R] (M : JsMath R) (cfg : Config R)
    (bot : Bot W) :
    (∀ (points : List Point) (point : Point) (rest : List Point) (roundsLeft : Nat)
        (s : State W), nightPreempt cfg bot s = true →
      walkFrom cfg bot points (point :: rest) roundsLeft s = .done s (.ok ())) ∧
    (∀ (clockwise : Bool) (rounds : Nat) (s : State W), nightPreempt cfg bot s = true →
      walkCircle M cfg bot clockwise rounds s = .done s (.ok ())) := by
  have h1 : ∀ (points : List Point) (point : Point) (rest : List Point) (roundsLeft : Nat)
      (s : State W), nightPreempt cfg bot s = true →
      walkFrom cfg bot points (point :: rest) roundsLeft s = .done s (.ok ()) := by
    intro points point rest roundsLeft s h
    simp [walkFrom, walkPoints, h]
  refine ⟨h1, ?_⟩
  intro clockwise rounds s h
  unfold walkCircle
  dsimp only
  generalize generateCirclePoints M cfg.centerX cfg.centerZ cfg.radius cfg.pointsPerCircle
    clockwise = points
  induction rounds with
  | zero => rfl
  | succ n ih =>
    cases points with
    | nil => simpa [walkRounds, walkPoints] using ih
    | cons point rest => rw [walkRounds_succ]; exact h1 _ point rest n s h

/-- A leg started at night in the demo world: `walkCircle` returns at once. -/
theorem walk_aborts_at_night_witness :
    walkCircle exactMath demoConfig demoBot true 2 (initialState nightWorld)
      = .done (initialState nightWorld) (.ok ()) :=
  (walk_aborts_at_night exactMath demoConfig demoBot).2 true 2 (initialState nightWorld) rfl

/-! ### Bed loop against block loop -/

/-- A candidate the bed loop does not try is passed over on the spot. -/
theorem bedPlacementLoop_skip (bot : Bot W) (bedItem : Item) (a : Attempt)
    (rest : List Attempt) (s : State W) (h : bedSiteReady bot s.world a = false) :
    bedPlacementLoop bot bedItem (a :: rest) s = bedPlacementLoop bot bedItem rest s := by
  unfold bedSiteReady at h
  cases ht : bot.blockAt s.world a.pos with
  | none => simp [bedPlacementLoop, ht]
  | some t =>
    cases hr : bot.blockAt s.world a.ref with
    | none => simp [bedPlacementLoop, ht, hr]
    | some r =>
      simp only [ht, hr] at h
      simp [bedPlacementLoop, ht, hr, h]

/-- A candidate the bed loop tries is accepted as soon as `bot.equip` and
`bot.placeBlock` are fulfilled: `bedPlaced` is set and the bed is looked up with
`bot.findBlock` after the settle delay. -/
theorem bedPlacementLoop_accept (bot : Bot W) (env : State W → State W) (bedItem : Item)
    (a : Attempt) (rest : List Attempt) (s : State W) (reference : Block)
    (href : bot.blockAt s.world a.ref = some reference)
    (h : bedSiteReady bot s.world a = true)
    (hok : ∀ w, bot.settled w = .ok ()) :
    Co.run env (bedPlacementLoop bot bedItem (a :: rest) s)
      = (env ((env ((env ((env (s.emit (.equip bedItem "hand"))).emit (.delay 200))).emit
            (.placeBlock reference ⟨0, 1, 0⟩))).emit (.delay 500)),
          (true, bot.findBlock (env ((env ((env ((env (s.emit (.equip bedItem "hand"))).emit
            (.delay 200))).emit (.placeBlock reference ⟨0, 1, 0⟩))).emit (.delay 500))).world
            bedMatching 10)) := by
  unfold bedSiteReady at h
  cases ht : bot.blockAt s.world a.pos with
  | none => simp [ht] at h
  | some t =>
    simp only [ht, href] at h
    simp [bedPlacementLoop, ht, href, h, awaitCall, awaitDelay, hok]

/-- C13, as stated, fails on both counts.  (1) When the lookup of the target
cell returns nothing while the reference cell is solid, the block loop places
against the reference and the bed loop skips the candidate.  (2) When the place
action is fulfilled but leaves the world unchanged, the bed loop still reports
`bedPlaced`, with the target cell holding air, where the block loop rejects
every candidate. -/
theorem bed_loop_differs_counterexample :
    fogBot.blockAt flatWorld ⟨2, 64, 0⟩ = none ∧
    (fogBot.blockAt flatWorld ⟨2, 63, 0⟩).map (fun b => b.name) = some "stone" ∧
    (Co.run stillEnv (placementLoop fogBot "stone"
      [⟨⟨2, 64, 0⟩, ⟨2, 63, 0⟩, ⟨0, 1, 0⟩, "2m east"⟩] (initialState flatWorld))).1.trace
      = [.placeBlock { name := "stone", position := ⟨2, 63, 0⟩ } ⟨0, 1, 0⟩, .delay 500] ∧
    bedPlacementLoop fogBot { name := "red_bed", count := 1, type := 2 }
      [⟨⟨2, 64, 0⟩, ⟨2, 63, 0⟩, "2m east"⟩] (initialState flatWorld)
      = .done (initialState flatWorld) (false, none) ∧
    (Co.run stillEnv (bedPlacementLoop demoBot { name := "red_bed", count := 1, type := 2 }
      (sitePlacementAttempts 0 64 0) (initialState bedCarrierWorld))).2 = (true, none) ∧
    (demoBot.blockAt (Co.run stillEnv (bedPlacementLoop demoBot
      { name := "red_bed", count := 1, type := 2 } (sitePlacementAttempts 0 64 0)
      (initialState bedCarrierWorld))).1.world ⟨2, 64, 0⟩).map (fun b => b.name) = some "air" ∧
    (Co.run stillEnv (placementLoop demoBot "stone" (blockPlacementAttempts 0 64 0)
      (initialState flatWorld))).2 = (false, none) := by
  refine ⟨rfl, rfl, rfl, rfl, rfl, rfl, rfl⟩

/-- C13 (amended). For candidates with the same target and reference cells:
(1) whenever the lookup of the target cell returns a block, the bed loop and
the block loop make the same decision, trying the candidate exactly when the
target is air and the reference is a block other than air, and passing it over
on the spot otherwise;
(2) when the lookup of the target cell returns nothing, the bed loop passes the
candidate over while the block loop decides on the reference cell alone;
(3) the block loop accepts a tried candidate only if the re-query of its target
cell after the settle delay reports the configured block type, whereas the bed
loop accepts a tried candidate as soon as the equip and place actions are
fulfilled, and then looks for any bed within 10 blocks. -/
theorem bed_loop_against_block_loop (bot : Bot W) (env : State W → State W)
    (blockType : String) (bedItem : Item) (a : Attempt) (b : BlockAttempt)
    (hpos : a.pos = b.pos) (href : a.ref = b.ref) :
    (∀ (s : State W), bot.blockAt s.world b.pos ≠ none →
      bedSiteReady bot s.world a = siteReady bot s.world b) ∧
    (∀ (s : State W) (restA : List Attempt),
      bedSiteReady bot s.world a = false →
        bedPlacementLoop bot bedItem (a :: restA) s = bedPlacementLoop bot bedItem restA s) ∧
    (∀ (s : State W) (restB : List BlockAttempt), siteReady bot s.world b = false →
        placementLoop bot blockType (b :: restB) s = placementLoop bot blockType restB s) ∧
    (∀ (s : State W), bot.blockAt s.world b.pos = none →
      bedSiteReady bot s.world a = false ∧
      siteReady bot s.world b = referenceSolid bot s.world b) ∧
    (∀ (s : State W) (restB : List BlockAttempt),
      Co.run env (placementLoop bot blockType (b :: restB) s)
        = if qualifies bot env blockType b s then
            (afterSettle bot env b s, (true, some b.pos))
          else
            Co.run env (placementLoop bot blockType restB (passedOver bot env b s))) ∧
    (∀ (s : State W) (restA : List Attempt) (reference : Block),
      bot.blockAt s.world a.ref = some reference → bedSiteReady bot s.world a = true →
      (∀ w, bot.settled w = .ok ()) →
      (Co.run env (bedPlacementLoop bot bedItem (a :: restA) s)).2.1 = true) := by
  refine ⟨?_, ?_, ?_, ?_, ?_, ?_⟩
  · intro s hsome
    unfold bedSiteReady siteReady referenceSolid targetOccupied
    rw [hpos, href]
    cases ht : bot.blockAt s.world b.pos with
    | none => exact absurd ht hsome
    | some t =>
      cases hr : bot.blockAt s.world b.ref with
      | none => simp
      | some r =>
        by_cases hair : t.name = "air" <;> simp [hair, bne]
  · intro s restA h
    exact bedPlacementLoop_skip bot bedItem a restA s h
  · intro s restB h
    exact placementLoop_skip bot blockType b restB s h
  · intro s hnone
    unfold bedSiteReady siteReady targetOccupied
    rw [hpos, hnone]
    simp
  · intro s restB
    exact placementLoop_cons bot env blockType b restB s
  · intro s restA reference hr h hok
    rw [bedPlacementLoop_accept bot env bedItem a restA s reference hr h hok]

/-- The two loops on flat ground in the demo world: both try the cell two
cells east, and the bed loop accepts it. -/
theorem bed_loop_against_block_loop_witness :
    bedSiteReady demoBot (initialState bedCarrierWorld).world ⟨⟨2, 64, 0⟩, ⟨2, 63, 0⟩, "2m east"⟩
      = siteReady demoBot (initialState bedCarrierWorld).world
          ⟨⟨2, 64, 0⟩, ⟨2, 63, 0⟩, ⟨0, 1, 0⟩, "2m east"⟩ ∧
    (Co.run demoEnv (bedPlacementLoop demoBot { name := "red_bed", count := 1, type := 2 }
      [⟨⟨2, 64, 0⟩, ⟨2, 63, 0⟩, "2m east"⟩] (initialState bedCarrierWorld))).2.1 = true :=
  ⟨(bed_loop_against_block_loop demoBot demoEnv "stone" { name := "red_bed", count := 1, type := 2 }
      ⟨⟨2, 64, 0⟩, ⟨2, 63, 0⟩, "2m east"⟩ ⟨⟨2, 64, 0⟩, ⟨2, 63, 0⟩, ⟨0, 1, 0⟩, "2m east"⟩
      rfl rfl).1 (initialState bedCarrierWorld) (by decide),
   (bed_loop_against_block_loop demoBot demoEnv "stone" { name := "red_bed", count := 1, type := 2 }
      ⟨⟨2, 64, 0⟩, ⟨2, 63, 0⟩, "2m east"⟩ ⟨⟨2, 64, 0⟩, ⟨2, 63, 0⟩, ⟨0, 1, 0⟩, "2m east"⟩
      rfl rfl).2.2.2.2.2 (initialState bedCarrierWorld) []
      { name := "stone", position := ⟨2, 63, 0⟩ } rfl rfl (fun _ => rfl)⟩

end Contracts

section Invariants

variable {σ α β : Type} {W : Type}

/-! ### Cycle counter and deposits -/

set_option linter.unusedTactic false
set_option linter.unreachableTactic false

@[simp] theorem Co.keeps_done (P : σ → Prop) (s : σ) (a : α) :
    Co.Keeps P (Co.done s a) ↔ P s := Iff.rfl

@[simp] theorem Co.keeps_susp (P : σ → Prop) (s : σ) (k : σ → Co σ α) :
    Co.Keeps P (Co.susp s k) ↔ (P s ∧ ∀ t, P t → Co.Keeps P (k t)) := Iff.rfl

/-- A property kept by a run and by its surroundings holds when the run ends. -/
theorem Co.Keeps.run {P : σ → Prop} {c : Co σ α} (h : Co.Keeps P c) (env : σ → σ)
    (henv : ∀ t, P t → P (env t)) : P (Co.run env c).1 := by
  induction c with
  | done s a => exact h
  | susp s k ih => exact ih (env s) (h.2 _ (henv _ h.1))

/-- Sequencing keeps what both parts keep. -/
theorem Co.Keeps.seq {P : σ → Prop} {c : Co σ α} {f : α → σ → Co σ β} (h : Co.Keeps P c)
    (hf : ∀ a t, P t → Co.Keeps P (f a t)) : Co.Keeps P (Co.seq c f) := by
  induction c with
  | done s a => exact hf a s h
  | susp s k ih => exact ⟨h.1, fun t ht => ih t (h.2 t ht)⟩

/-- Awaiting keeps what both parts keep. -/
theorem Co.Keeps.bind {P : σ → Prop} {c : Co σ α} {f : α → σ → Co σ β} (h : Co.Keeps P c)
    (hf : ∀ a t, P t → Co.Keeps P (f a t)) : Co.Keeps P (Co.bind c f) :=
  Co.Keeps.seq h (fun a _ ht => ⟨ht, fun u hu => hf a u hu⟩)

/-- Recording a call leaves `cycleCount` alone. -/
@[simp] theorem State.emit_cycleCount (s : State W) (e : Event) :
    (s.emit e).cycleCount = s.cycleCount := rfl

/-- Invariance of `cycleCount` under `ensureItem`. -/
theorem ensureItem_keeps_cycleCount (bot : Bot W) (itemName : String) (count n : Nat)
    (s : State W) (hs : s.cycleCount = n) :
    Co.Keeps (fun t => t.cycleCount = n) (ensureItemInCreativeInventory bot itemName count s) := by
  unfold ensureItemInCreativeInventory awaitCall awaitDelay
  repeat' first
    | split
    | intro _
    | simp only [Co.keeps_done, Co.keeps_susp, State.emit_cycleCount]
    | constructor
    | assumption

/-- Invariance of `cycleCount` under `placementLoop`. -/
theorem placementLoop_keeps_cycleCount (bot : Bot W) (blockType : String) (n : Nat)
    (attempts : List BlockAttempt) :
    ∀ s : State W, s.cycleCount = n →
      Co.Keeps (fun t => t.cycleCount = n) (placementLoop bot blockType attempts s) := by
  induction attempts with
  | nil => intro s hs; simpa [placementLoop] using hs
  | cons a rest ih =>
    intro s hs
    unfold placementLoop awaitCall awaitDelay
    repeat' first
      | exact ih _ ‹_›
      | split
      | intro _
      | simp only [Co.keeps_done, Co.keeps_susp, State.emit_cycleCount]
      | constructor
      | assumption

/-- Invariance of `cycleCount` under `breakPlacedBlock`. -/
theorem breakPlacedBlock_keeps_cycleCount (bot : Bot W) (r : Bool × Option Vec3) (n : Nat)
    (s : State W) (hs : s.cycleCount = n) :
    Co.Keeps (fun t => t.cycleCount = n) (breakPlacedBlock bot r s) := by
  unfold breakPlacedBlock awaitCall awaitDelay
  try dsimp only
  repeat' first
    | assumption
    | split
    | intro _
    | simp only [Co.keeps_done, Co.keeps_susp, State.emit_cycleCount, sleepAborted,
        cycleFault]
    | constructor
    | refine Co.Keeps.bind ?_ ?_
    | refine Co.Keeps.seq ?_ ?_

/-- Invariance of `cycleCount` under `placeAndBreakBlock`. -/
theorem placeAndBreakBlock_keeps_cycleCount {R : Type} (cfg : Config R) (bot : Bot W) (n : Nat)
    (s : State W) (hs : s.cycleCount = n) :
    Co.Keeps (fun t => t.cycleCount = n) (placeAndBreakBlock cfg bot s) := by
  unfold placeAndBreakBlock awaitCall awaitDelay
  try dsimp only
  repeat' first
    | assumption
    | (apply ensureItem_keeps_cycleCount <;> assumption)
    | (apply placementLoop_keeps_cycleCount <;> assumption)
    | (apply breakPlacedBlock_keeps_cycleCount <;> assumption)
    | split
    | intro _
    | simp only [Co.keeps_done, Co.keeps_susp, State.emit_cycleCount, sleepAborted,
        cycleFault]
    | constructor
    | refine Co.Keeps.bind ?_ ?_
    | refine Co.Keeps.seq ?_ ?_

/-- Invariance of `cycleCount` under `walkPoints`. -/
theorem walkPoints_keeps_cycleCount {R : Type} (cfg : Config R) (bot : Bot W) (n : Nat)
    (points : List Point) :
    ∀ (s : State W), s.cycleCount = n →
      Co.Keeps (fun t => t.cycleCount = n) (walkPoints cfg bot points s) := by
  induction points with
  | nil =>
    intro s hs
    simpa [walkPoints] using hs
  | cons a rest ih =>
    intro s hs
    unfold walkPoints awaitDelay
    try dsimp only
    repeat' first
      | assumption
      | exact ih _ ‹_›
      | split
      | intro _
      | simp only [Co.keeps_done, Co.keeps_susp, State.emit_cycleCount, sleepAborted,
          cycleFault]
      | constructor
      | refine Co.Keeps.bind ?_ ?_
      | refine Co.Keeps.seq ?_ ?_

/-- Invariance of `cycleCount` under `moveToLocation`. -/
theorem moveToLocation_keeps_cycleCount (bot : Bot W) (x y z : Int) (n : Nat)
    (s : State W) (hs : s.cycleCount = n) :
    Co.Keeps (fun t => t.cycleCount = n) (moveToLocation bot x y z s) := by
  unfold moveToLocation
  try dsimp only
  repeat' first
    | assumption
    | split
    | intro _
    | simp only [Co.keeps_done, Co.keeps_susp, State.emit_cycleCount, sleepAborted,
        cycleFault]
    | constructor
    | refine Co.Keeps.bind ?_ ?_
    | refine Co.Keeps.seq ?_ ?_

/-- Invariance of `cycleCount` under `findNearbyChest`. -/
theorem findNearbyChest_keeps_cycleCount (bot : Bot W) (n : Nat)
    (s : State W) (hs : s.cycleCount = n) :
    Co.Keeps (fun t => t.cycleCount = n) (findNearbyChest bot s) := by
  unfold findNearbyChest
  try dsimp only
  repeat' first
    | assumption
    | split
    | intro _
    | simp only [Co.keeps_done, Co.keeps_susp, State.emit_cycleCount, sleepAborted,
        cycleFault]
    | constructor
    | refine Co.Keeps.bind ?_ ?_
    | refine Co.Keeps.seq ?_ ?_

/-- Invariance of `cycleCount` under `chestPlacementLoop`. -/
theorem chestPlacementLoop_keeps_cycleCount (bot : Bot W) (chestItem : Item) (n : Nat)
    (attempts : List Attempt) :
    ∀ (s : State W), s.cycleCount = n →
      Co.Keeps (fun t => t.cycleCount = n) (chestPlacementLoop bot chestItem attempts s) := by
  induction attempts with
  | nil =>
    intro s hs
    simpa [chestPlacementLoop] using hs
  | cons a rest ih =>
    intro s hs
    unfold chestPlacementLoop awaitCall awaitDelay
    try dsimp only
    repeat' first
      | assumption
      | exact ih _ ‹_›
      | split
      | intro _
      | simp only [Co.keeps_done, Co.keeps_susp, State.emit_cycleCount, sleepAborted,
          cycleFault]
      | constructor
      | refine Co.Keeps.bind ?_ ?_
      | refine Co.Keeps.seq ?_ ?_

/-- Invariance of `cycleCount` under `placeChest`. -/
theorem placeChest_keeps_cycleCount (bot : Bot W) (n : Nat)
    (s : State W) (hs : s.cycleCount = n) :
    Co.Keeps (fun t => t.cycleCount = n) (placeChest bot s) := by
  unfold placeChest
  try dsimp only
  repeat' first
    | assumption
    | (apply ensureItem_keeps_cycleCount <;> assumption)
    | (apply chestPlacementLoop_keeps_cycleCount <;> assumption)
    | split
    | intro _
    | simp only [Co.keeps_done, Co.keeps_susp, State.emit_cycleCount, sleepAborted,
        cycleFault]
    | constructor
    | refine Co.Keeps.bind ?_ ?_
    | refine Co.Keeps.seq ?_ ?_

/-- Invariance of `cycleCount` under `openChest`. -/
theorem openChest_keeps_cycleCount (bot : Bot W) (chestBlock : Block) (n : Nat)
    (s : State W) (hs : s.cycleCount = n) :
    Co.Keeps (fun t => t.cycleCount = n) (openChest bot chestBlock s) := by
  unfold openChest awaitCall awaitDelay
  try dsimp only
  repeat' first
    | assumption
    | (apply moveToLocation_keeps_cycleCount <;> assumption)
    | split
    | intro _
    | simp only [Co.keeps_done, Co.keeps_susp, State.emit_cycleCount, sleepAborted,
        cycleFault]
    | constructor
    | refine Co.Keeps.bind ?_ ?_
    | refine Co.Keeps.seq ?_ ?_

/-- Invariance of `cycleCount` under `depositLoop`. -/
theorem depositLoop_keeps_cycleCount (bot : Bot W) (count : Option Int) (n : Nat)
    (items : List Item) :
    ∀ (total : Int) (s : State W), s.cycleCount = n →
      Co.Keeps (fun t => t.cycleCount = n) (depositLoop bot count items total s) := by
  induction items with
  | nil =>
    intro total s hs
    simpa [depositLoop] using hs
  | cons a rest ih =>
    intro total s hs
    unfold depositLoop awaitCall awaitDelay
    try dsimp only
    repeat' first
      | assumption
      | exact ih _ _ ‹_›
      | split
      | intro _
      | simp only [Co.keeps_done, Co.keeps_susp, State.emit_cycleCount, sleepAborted,
          cycleFault]
      | constructor
      | refine Co.Keeps.bind ?_ ?_
      | refine Co.Keeps.seq ?_ ?_

/-- Invariance of `cycleCount` under `depositItemsToChest`. -/
theorem depositItemsToChest_keeps_cycleCount (bot : Bot W) (itemName : String) (count : Option Int) (n : Nat)
    (s : State W) (hs : s.cycleCount = n) :
    Co.Keeps (fun t => t.cycleCount = n) (depositItemsToChest bot itemName count s) := by
  unfold depositItemsToChest
  try dsimp only
  repeat' first
    | assumption
    | (apply depositLoop_keeps_cycleCount <;> assumption)
    | split
    | intro _
    | simp only [Co.keeps_done, Co.keeps_susp, State.emit_cycleCount, sleepAborted,
        cycleFault]
    | constructor
    | refine Co.Keeps.bind ?_ ?_
    | refine Co.Keeps.seq ?_ ?_

/-- Invariance of `cycleCount` under `withdrawLoop`. -/
theorem withdrawLoop_keeps_cycleCount (bot : Bot W) (count : Int) (n : Nat)
    (items : List Item) :
    ∀ (total : Int) (s : State W), s.cycleCount = n →
      Co.Keeps (fun t => t.cycleCount = n) (withdrawLoop bot count items total s) := by
  induction items with
  | nil =>
    intro total s hs
    simpa [withdrawLoop] using hs
  | cons a rest ih =>
    intro total s hs
    unfold withdrawLoop awaitCall awaitDelay
    try dsimp only
    repeat' first
      | assumption
      | exact ih _ _ ‹_›
      | split
      | intro _
      | simp only [Co.keeps_done, Co.keeps_susp, State.emit_cycleCount, sleepAborted,
          cycleFault]
      | constructor
      | refine Co.Keeps.bind ?_ ?_
      | refine Co.Keeps.seq ?_ ?_

/-- Invariance of `cycleCount` under `withdrawItemsFromChest`. -/
theorem withdrawItemsFromChest_keeps_cycleCount (bot : Bot W) (itemName : String) (count : Int) (n : Nat)
    (s : State W) (hs : s.cycleCount = n) :
    Co.Keeps (fun t => t.cycleCount = n) (withdrawItemsFromChest bot itemName count s) := by
  unfold withdrawItemsFromChest
  try dsimp only
  repeat' first
    | assumption
    | (apply withdrawLoop_keeps_cycleCount <;> assumption)
    | split
    | intro _
    | simp only [Co.keeps_done, Co.keeps_susp, State.emit_cycleCount, sleepAborted,
        cycleFault]
    | constructor
    | refine Co.Keeps.bind ?_ ?_
    | refine Co.Keeps.seq ?_ ?_

/-- Invariance of `cycleCount` under `depositAll`. -/
theorem depositAll_keeps_cycleCount (bot : Bot W) (n : Nat)
    (entries : List (String × Option Int)) :
    ∀ (s : State W), s.cycleCount = n →
      Co.Keeps (fun t => t.cycleCount = n) (depositAll bot entries s) := by
  induction entries with
  | nil =>
    intro s hs
    simpa [depositAll] using hs
  | cons a rest ih =>
    intro s hs
    unfold depositAll
    try dsimp only
    repeat' first
      | assumption
      | exact ih _ ‹_›
      | (apply depositItemsToChest_keeps_cycleCount <;> assumption)
      | split
      | intro _
      | simp only [Co.keeps_done, Co.keeps_susp, State.emit_cycleCount, sleepAborted,
          cycleFault]
      | constructor
      | refine Co.Keeps.bind ?_ ?_
      | refine Co.Keeps.seq ?_ ?_

/-- Invariance of `cycleCount` under `withdrawAll`. -/
theorem withdrawAll_keeps_cycleCount (bot : Bot W) (n : Nat)
    (entries : List (String × Int)) :
    ∀ (s : State W), s.cycleCount = n →
      Co.Keeps (fun t => t.cycleCount = n) (withdrawAll bot entries s) := by
  induction entries with
  | nil =>
    intro s hs
    simpa [withdrawAll] using hs
  | cons a rest ih =>
    intro s hs
    unfold withdrawAll
    try dsimp only
    repeat' first
      | assumption
      | exact ih _ ‹_›
      | (apply withdrawItemsFromChest_keeps_cycleCount <;> assumption)
      | split
      | intro _
      | simp only [Co.keeps_done, Co.keeps_susp, State.emit_cycleCount, sleepAborted,
          cycleFault]
      | constructor
      | refine Co.Keeps.bind ?_ ?_
      | refine Co.Keeps.seq ?_ ?_

/-- Invariance of `cycleCount` under `chestInteraction`. -/
theorem chestInteraction_keeps_cycleCount {R : Type} (cfg : Config R) (bot : Bot W) (n : Nat)
    (s : State W) (hs : s.cycleCount = n) :
    Co.Keeps (fun t => t.cycleCount = n) (chestInteraction cfg bot s) := by
  unfold chestInteraction
  try dsimp only
  repeat' first
    | assumption
    | (apply findNearbyChest_keeps_cycleCount <;> assumption)
    | (apply placeChest_keeps_cycleCount <;> assumption)
    | (apply openChest_keeps_cycleCount <;> assumption)
    | (apply depositAll_keeps_cycleCount <;> assumption)
    | (apply withdrawAll_keeps_cycleCount <;> assumption)
    | split
    | intro _
    | simp only [Co.keeps_done, Co.keeps_susp, State.emit_cycleCount, sleepAborted,
        cycleFault]
    | constructor
    | refine Co.Keeps.bind ?_ ?_
    | refine Co.Keeps.seq ?_ ?_

/-- Invariance of `cycleCount` under `bedPlacementLoop`. -/
theorem bedPlacementLoop_keeps_cycleCount (bot : Bot W) (bedItem : Item) (n : Nat)
    (attempts : List Attempt) :
    ∀ (s : State W), s.cycleCount = n →
      Co.Keeps (fun t => t.cycleCount = n) (bedPlacementLoop bot bedItem attempts s) := by
  induction attempts with
  | nil =>
    intro s hs
    simpa [bedPlacementLoop] using hs
  | cons a rest ih =>
    intro s hs
    unfold bedPlacementLoop awaitCall awaitDelay
    try dsimp only
    repeat' first
      | assumption
      | exact ih _ ‹_›
      | split
      | intro _
      | simp only [Co.keeps_done, Co.keeps_susp, State.emit_cycleCount, sleepAborted,
          cycleFault]
      | constructor
      | refine Co.Keeps.bind ?_ ?_
      | refine Co.Keeps.seq ?_ ?_

/-- Invariance of `cycleCount` under `sleepAtBed`. -/
theorem sleepAtBed_keeps_cycleCount (bot : Bot W) (bedBlock : Option Block) (n : Nat)
    (s : State W) (hs : s.cycleCount = n) :
    Co.Keeps (fun t => t.cycleCount = n) (sleepAtBed bot bedBlock s) := by
  unfold sleepAtBed awaitCall awaitDelay
  try dsimp only
  repeat' first
    | assumption
    | split
    | intro _
    | simp only [Co.keeps_done, Co.keeps_susp, State.emit_cycleCount, sleepAborted,
        cycleFault]
    | constructor
    | refine Co.Keeps.bind ?_ ?_
    | refine Co.Keeps.seq ?_ ?_

/-- Invariance of `cycleCount` under `tryToSleep`. -/
theorem tryToSleep_keeps_cycleCount {R : Type} (cfg : Config R) (bot : Bot W) (n : Nat)
    (s : State W) (hs : s.cycleCount = n) :
    Co.Keeps (fun t => t.cycleCount = n) (tryToSleep cfg bot s) := by
  unfold tryToSleep
  try dsimp only
  repeat' first
    | assumption
    | (apply ensureItem_keeps_cycleCount <;> assumption)
    | (apply bedPlacementLoop_keeps_cycleCount <;> assumption)
    | (apply sleepAtBed_keeps_cycleCount <;> assumption)
    | split
    | intro _
    | simp only [Co.keeps_done, Co.keeps_susp, State.emit_cycleCount, sleepAborted,
        cycleFault]
    | constructor
    | refine Co.Keeps.bind ?_ ?_
    | refine Co.Keeps.seq ?_ ?_

/-- Invariance of `cycleCount` under `handOffToSleep`. -/
theorem handOffToSleep_keeps_cycleCount {R : Type} (cfg : Config R) (bot : Bot W) (n : Nat)
    (s : State W) (hs : s.cycleCount = n) :
    Co.Keeps (fun t => t.cycleCount = n) (handOffToSleep cfg bot s) := by
  unfold handOffToSleep
  try dsimp only
  repeat' first
    | assumption
    | (apply tryToSleep_keeps_cycleCount <;> assumption)
    | split
    | intro _
    | simp only [Co.keeps_done, Co.keeps_susp, State.emit_cycleCount, sleepAborted,
        cycleFault]
    | constructor
    | refine Co.Keeps.bind ?_ ?_
    | refine Co.Keeps.seq ?_ ?_

/-- Invariance of `cycleCount` under `walkRounds`. -/
theorem walkRounds_keeps_cycleCount {R : Type} (cfg : Config R) (bot : Bot W)
    (points : List Point) (n : Nat) (rounds : Nat) :
    ∀ s : State W, s.cycleCount = n →
      Co.Keeps (fun t => t.cycleCount = n) (walkRounds cfg bot points rounds s) := by
  induction rounds with
  | zero => intro s hs; simpa [walkRounds] using hs
  | succ k ih =>
    intro s hs
    unfold walkRounds
    refine Co.Keeps.seq (walkPoints_keeps_cycleCount cfg bot n points s hs) ?_
    intro r t ht
    cases r with
    | error e => exact ht
    | ok b =>
      cases b with
      | false => exact ht
      | true => exact ih t ht

/-- Invariance of `cycleCount` under `walkCircle`. -/
theorem walkCircle_keeps_cycleCount {R : Type} [Field R] (M : JsMath R) (cfg : Config R)
    (bot : Bot W) (clockwise : Bool) (rounds : Nat) (n : Nat) (s : State W)
    (hs : s.cycleCount = n) :
    Co.Keeps (fun t => t.cycleCount = n) (walkCircle M cfg bot clockwise rounds s) :=
  walkRounds_keeps_cycleCount cfg bot _ n rounds s hs

/-- A run of `startCircularPattern` leaves `cycleCount` where its entry put it:
unchanged when the guard or the entry night check stops it, one higher
otherwise. -/
theorem startCircularPattern_keeps_cycleCount {R : Type} [Field R] (M : JsMath R)
    (cfg : Config R) (bot : Bot W) (s : State W) :
    Co.Keeps (fun t => t.cycleCount =
        if s.isProcessing || s.isSleeping || nightPreempt cfg bot s then s.cycleCount
        else s.cycleCount + 1)
      (startCircularPattern M cfg bot s) := by
  unfold startCircularPattern
  by_cases hg : (s.isProcessing || s.isSleeping) = true
  · rw [if_pos hg]
    simp [hg]
  · rw [if_neg hg]
    dsimp only
    have hn : nightPreempt cfg bot { s with isProcessing := true } = nightPreempt cfg bot s := rfl
    rw [hn]
    have hg2 : (s.isProcessing || s.isSleeping) = false := by simpa using hg
    by_cases hnight : nightPreempt cfg bot s = true
    · rw [if_pos hnight]
      simp only [hg2, hnight, Bool.or_true, if_true]
      exact handOffToSleep_keeps_cycleCount cfg bot _ _ rfl
    · rw [if_neg hnight]
      have hnight2 : nightPreempt cfg bot s = false := by simpa using hnight
      simp only [hg2, hnight2, Bool.or_false, Bool.false_eq_true, if_false]
      unfold awaitDelay
      repeat' first
        | assumption
        | rfl
        | (apply walkCircle_keeps_cycleCount <;> first | assumption | rfl)
        | (apply placeAndBreakBlock_keeps_cycleCount <;> first | assumption | rfl)
        | (apply chestInteraction_keeps_cycleCount <;> first | assumption | rfl)
        | (apply handOffToSleep_keeps_cycleCount <;> first | assumption | rfl)
        | split
        | intro _
        | simp only [Co.keeps_done, Co.keeps_susp, State.emit_cycleCount, sleepAborted,
            cycleFault]
        | constructor
        | refine Co.Keeps.bind ?_ ?_
        | refine Co.Keeps.seq ?_ ?_

/-- C12 (amended). `cycleCount` is incremented exactly once per started cycle,
at its start.  As long as nothing else touches the counter while the function
is parked: a run of `startCircularPattern` that passes the guard and the entry
night check ends with `cycleCount` raised by one, whether it completes all
steps, is abandoned by a night preemption after a patrol leg, or is cut short
by a fault; a run stopped by the guard or pre-empted at entry leaves
`cycleCount` unchanged. -/
theorem cycleCount_raised_at_start {R : Type} [Field R] (M : JsMath R) (cfg : Config R)
    (bot : Bot W) (env : State W → State W)
    (henv : ∀ t : State W, (env t).cycleCount = t.cycleCount) (s : State W) :
    ((s.isProcessing = true ∨ s.isSleeping = true) →
      (Co.run env (startCircularPattern M cfg bot s)).1.cycleCount = s.cycleCount) ∧
    (s.isProcessing = false → s.isSleeping = false → nightPreempt cfg bot s = true →
      (Co.run env (startCircularPattern M cfg bot s)).1.cycleCount = s.cycleCount) ∧
    (s.isProcessing = false → s.isSleeping = false → nightPreempt cfg bot s = false →
      (Co.run env (startCircularPattern M cfg bot s)).1.cycleCount = s.cycleCount + 1) := by
  have h := Co.Keeps.run (startCircularPattern_keeps_cycleCount M cfg bot s) env
    (fun t ht => by rw [henv t]; exact ht)
  refine ⟨?_, ?_, ?_⟩
  · intro hg
    rcases hg with hg | hg <;> simpa [hg] using h
  · intro hp hs hn
    simpa [hp, hs, hn] using h
  · intro hp hs hn
    simpa [hp, hs, hn] using h

/-- C12, as stated, fails: in a run in which night falls while the bot walks to
the first patrol point, the leg aborts at the second point and the cycle is
abandoned to the sleep routine after one of sixteen point visits and without
any build or container step, yet `cycleCount` has gone from 0 to 1. -/
theorem abandoned_cycle_counted_counterexample :
    (initialState dayBedWorld).cycleCount = 0 ∧
    (Co.run duskEnv (startCircularPattern exactMath demoConfig demoBot
      (initialState dayBedWorld))).1.cycleCount = 1 ∧
    (Co.run duskEnv (startCircularPattern exactMath demoConfig demoBot
      (initialState dayBedWorld))).1.trace
      = [.setGoal (some (.near 10 64 0 1)), .awaitArrival 10 64 0 2,
          .setControlState "jump" false, .setGoal none, .delay 100,
          .setGoal none, .delay 300,
          .sleep { name := "red_bed", position := ⟨1, 64, 0⟩ }, .once .wake] := by
  have hp : generateCirclePoints exactMath demoConfig.centerX demoConfig.centerZ
      demoConfig.radius demoConfig.pointsPerCircle true
      = [⟨10, 0⟩, ⟨7, 7⟩, ⟨0, 10⟩, ⟨-8, 7⟩, ⟨-10, 0⟩, ⟨-8, -8⟩, ⟨0, -10⟩, ⟨7, -8⟩] :=
    scenario_ring_exact
  unfold startCircularPattern walkCircle
  rw [hp]
  refine ⟨rfl, rfl, rfl⟩

theorem totalCount_cons (item : Item) (rest : List Item) :
    totalCount (item :: rest) = (item.count : Int) + totalCount rest := by
  simp [totalCount]

theorem totalCount_nonneg (items : List Item) : 0 ≤ totalCount items := by
  induction items with
  | nil => simp [totalCount]
  | cons item rest ih => rw [totalCount_cons]; omega

theorem depositedAmounts_append (xs ys : List Event) :
    depositedAmounts (xs ++ ys) = depositedAmounts xs ++ depositedAmounts ys := by
  induction xs with
  | nil => rfl
  | cons e rest ih => cases e <;> simp [depositedAmounts, ih]

/-- A stack that holds something is reached, and the loop goes on. -/
theorem stacksBeforeEmpty_cons_pos (item : Item) (rest : List Item) (h : 0 < item.count) :
    stacksBeforeEmpty (item :: rest) = item :: stacksBeforeEmpty rest := by
  simp [stacksBeforeEmpty, List.takeWhile_cons, h]

/-- An empty stack ends the loop. -/
theorem stacksBeforeEmpty_cons_zero (item : Item) (rest : List Item) (h : item.count = 0) :
    stacksBeforeEmpty (item :: rest) = [] := by
  simp [stacksBeforeEmpty, List.takeWhile_cons, h]

/-- Without an empty stack every stack is reached. -/
theorem stacksBeforeEmpty_of_pos (items : List Item) (h : ∀ item ∈ items, 0 < item.count) :
    stacksBeforeEmpty items = items := by
  unfold stacksBeforeEmpty
  rw [List.takeWhile_eq_self_iff]
  intro item hi
  simpa using h item hi

/-- The value of the deposit loop for a requested count. -/
theorem depositLoop_value_some (bot : Bot W) (env : State W → State W)
    (hok : ∀ w, bot.settled w = .ok ()) (c : Int) (items : List Item) :
    ∀ (total : Int) (s : State W), total ≤ c →
      (Co.run env (depositLoop bot (some c) items total s)).2
        = .ok (min c (total + totalCount (stacksBeforeEmpty items))) := by
  induction items with
  | nil =>
    intro total s hle
    simp [depositLoop, totalCount, stacksBeforeEmpty, hle]
  | cons item rest ih =>
    intro total s hle
    have hnn := totalCount_nonneg (stacksBeforeEmpty rest)
    unfold depositLoop
    dsimp only
    rcases Nat.eq_zero_or_pos item.count with hzero | hitem
    · rw [if_pos (by rw [hzero]; simp), stacksBeforeEmpty_cons_zero item rest hzero]
      simp [totalCount, hle]
    · rw [stacksBeforeEmpty_cons_pos item rest hitem]
      by_cases hamt : min (c - total) (item.count : Int) ≤ 0
      · rw [if_pos hamt]
        simp only [Co.run_done, totalCount_cons]
        congr 1
        omega
      · rw [if_neg hamt]
        simp only [awaitCall, awaitDelay, Co.run_susp, hok]
        rw [ih _ _ (by omega), totalCount_cons]
        congr 1
        omega

/-- The value of the deposit loop when no count is requested. -/
theorem depositLoop_value_none (bot : Bot W) (env : State W → State W)
    (hok : ∀ w, bot.settled w = .ok ()) (items : List Item) :
    ∀ (total : Int) (s : State W),
      (Co.run env (depositLoop bot none items total s)).2
        = .ok (total + totalCount (stacksBeforeEmpty items)) := by
  induction items with
  | nil =>
    intro total s
    simp [depositLoop, totalCount, stacksBeforeEmpty]
  | cons item rest ih =>
    intro total s
    unfold depositLoop
    dsimp only
    rcases Nat.eq_zero_or_pos item.count with hzero | hitem
    · rw [if_pos (by rw [hzero]; simp), stacksBeforeEmpty_cons_zero item rest hzero]
      simp [totalCount]
    · rw [stacksBeforeEmpty_cons_pos item rest hitem, if_neg (by omega)]
      simp only [awaitCall, awaitDelay, Co.run_susp, hok]
      rw [ih _ _, totalCount_cons]
      congr 1
      omega

/-- The deposit calls issued by the loop: one per stack in order, each positive
and at most the stack, adding up to the returned total. -/
theorem depositLoop_trace (bot : Bot W) (env : State W → State W) (count : Option Int)
    (hok : ∀ w, bot.settled w = .ok ()) (henv : ∀ t : State W, (env t).trace = t.trace)
    (items : List Item) :
    ∀ (total : Int) (s : State W),
      ∃ evs : List Event,
        (Co.run env (depositLoop bot count items total s)).1.trace = s.trace ++ evs ∧
        (Co.run env (depositLoop bot count items total s)).2
          = .ok (total + (depositedAmounts evs).sum) ∧
        List.Forall₂ (fun (amount : Int) (item : Item) => 0 < amount ∧ amount ≤ (item.count : Int))
          (depositedAmounts evs) (items.take (depositedAmounts evs).length) := by
  induction items with
  | nil =>
    intro total s
    exact ⟨[], by simp [depositLoop, depositedAmounts]⟩
  | cons item rest ih =>
    intro total s
    cases count with
    | none =>
      unfold depositLoop
      dsimp only
      by_cases hamt : (item.count : Int) ≤ 0
      · rw [if_pos hamt]
        exact ⟨[], by simp [depositedAmounts]⟩
      · rw [if_neg hamt]
        simp only [awaitCall, awaitDelay, Co.run_susp, hok]
        obtain ⟨evs, h1, h2, h3⟩ := ih (total + (item.count : Int))
          (env ((env (s.emit (.deposit item.type ((item.count : Int))))).emit (.delay 300)))
        refine ⟨[.deposit item.type ((item.count : Int)), .delay 300] ++ evs, ?_, ?_, ?_⟩
        · rw [h1]
          simp [henv, State.emit]
        · rw [h2]
          simp [depositedAmounts_append, depositedAmounts]
          ring
        · simp only [depositedAmounts_append, depositedAmounts, List.cons_append,
            List.nil_append, List.length_cons, List.take_succ_cons]
          exact List.Forall₂.cons ⟨by omega, le_refl _⟩ h3
    | some c =>
      unfold depositLoop
      dsimp only
      by_cases hamt : min (c - total) (item.count : Int) ≤ 0
      · rw [if_pos hamt]
        exact ⟨[], by simp [depositedAmounts]⟩
      · rw [if_neg hamt]
        simp only [awaitCall, awaitDelay, Co.run_susp, hok]
        obtain ⟨evs, h1, h2, h3⟩ := ih (total + min (c - total) (item.count : Int))
          (env ((env (s.emit (.deposit item.type (min (c - total) (item.count : Int))))).emit (.delay 300)))
        refine ⟨[.deposit item.type (min (c - total) (item.count : Int)), .delay 300] ++ evs, ?_, ?_, ?_⟩
        · rw [h1]
          simp [henv, State.emit]
        · rw [h2]
          simp [depositedAmounts_append, depositedAmounts]
          ring
        · simp only [depositedAmounts_append, depositedAmounts, List.cons_append,
            List.nil_append, List.length_cons, List.take_succ_cons]
          exact List.Forall₂.cons ⟨by omega, min_le_right _ _⟩ h3

/-- C19 (amended). For every inventory, when no container call fails: for every
count `c ≥ 0`, `depositItemsToChest` returns the minimum of `c` and the total
count of the matching stacks in front of the first empty matching stack; with
no count it returns that total; when no matching stack is empty these are
`min c total` and `total` for the total count of all matching stacks; and for
every count the deposit calls it issues go through the matching stacks in
order, each for a positive amount not larger than its stack, and add up to the
returned value, so that no deposit is issued once the count is reached. -/
theorem deposit_returns_min (bot : Bot W) (env : State W → State W) (itemName : String)
    (s : State W) (hok : ∀ w, bot.settled w = .ok ())
    (henv : ∀ t : State W, (env t).trace = t.trace) :
    (∀ c : Int, 0 ≤ c →
      (Co.run env (depositItemsToChest bot itemName (some c) s)).2
        = min c (totalCount (stacksBeforeEmpty
            ((bot.inventoryItems s.world).filter (nameMatches itemName))))) ∧
    (Co.run env (depositItemsToChest bot itemName none s)).2
        = totalCount (stacksBeforeEmpty
            ((bot.inventoryItems s.world).filter (nameMatches itemName))) ∧
    ((∀ item ∈ bot.inventoryItems s.world, nameMatches itemName item = true → 0 < item.count) →
      (∀ c : Int, 0 ≤ c →
        (Co.run env (depositItemsToChest bot itemName (some c) s)).2
          = min c (totalCount ((bot.inventoryItems s.world).filter (nameMatches itemName)))) ∧
      (Co.run env (depositItemsToChest bot itemName none s)).2
          = totalCount ((bot.inventoryItems s.world).filter (nameMatches itemName))) ∧
    (∀ count : Option Int, ∃ evs : List Event,
      (Co.run env (depositItemsToChest bot itemName count s)).1.trace = s.trace ++ evs ∧
      (depositedAmounts evs).sum = (Co.run env (depositItemsToChest bot itemName count s)).2 ∧
      List.Forall₂ (fun (amount : Int) (item : Item) => 0 < amount ∧ amount ≤ (item.count : Int))
        (depositedAmounts evs)
        (((bot.inventoryItems s.world).filter (nameMatches itemName)).take
          (depositedAmounts evs).length)) := by
  have hsome : ∀ c : Int, 0 ≤ c →
      (Co.run env (depositItemsToChest bot itemName (some c) s)).2
        = min c (totalCount (stacksBeforeEmpty
            ((bot.inventoryItems s.world).filter (nameMatches itemName)))) := by
    intro c hc
    unfold depositItemsToChest
    dsimp only
    by_cases hlen : ((bot.inventoryItems s.world).filter (nameMatches itemName)).length = 0
    · rw [if_pos hlen]
      have hnil := List.length_eq_zero.mp hlen
      simp [hnil, totalCount, stacksBeforeEmpty, hc]
    · rw [if_neg hlen, Co.run_seq, depositLoop_value_some bot env hok c _ 0 s hc]
      simp
  have hnone : (Co.run env (depositItemsToChest bot itemName none s)).2
      = totalCount (stacksBeforeEmpty
          ((bot.inventoryItems s.world).filter (nameMatches itemName))) := by
    unfold depositItemsToChest
    dsimp only
    by_cases hlen : ((bot.inventoryItems s.world).filter (nameMatches itemName)).length = 0
    · rw [if_pos hlen]
      have hnil := List.length_eq_zero.mp hlen
      simp [hnil, totalCount, stacksBeforeEmpty]
    · rw [if_neg hlen, Co.run_seq, depositLoop_value_none bot env hok _ 0 s]
      simp
  refine ⟨hsome, hnone, ?_, ?_⟩
  · intro hpos
    have hall : stacksBeforeEmpty ((bot.inventoryItems s.world).filter (nameMatches itemName))
        = (bot.inventoryItems s.world).filter (nameMatches itemName) := by
      apply stacksBeforeEmpty_of_pos
      intro item hi
      rw [List.mem_filter] at hi
      exact hpos item hi.1 hi.2
    rw [← hall]
    exact ⟨hsome, hnone⟩
  · intro count
    unfold depositItemsToChest
    dsimp only
    by_cases hlen : ((bot.inventoryItems s.world).filter (nameMatches itemName)).length = 0
    · rw [if_pos hlen]
      exact ⟨[], by simp [depositedAmounts]⟩
    · rw [if_neg hlen, Co.run_seq]
      obtain ⟨evs, h1, h2, h3⟩ := depositLoop_trace bot env count hok henv
        ((bot.inventoryItems s.world).filter (nameMatches itemName)) 0 s
      refine ⟨evs, ?_, ?_, h3⟩
      · rw [h2]; simpa using h1
      · rw [h2]; simp

/-- C19, as stated, fails: with an empty stone stack in front of a stone stack
of five, `depositItemsToChest` returns 0, both for the count 5 and for no
count, although the matching stacks hold 5 in total: the loop ends at the
first empty stack (line 450). -/
theorem deposit_empty_stack_counterexample :
    totalCount ((demoBot.inventoryItems (initialState emptyStackWorld).world).filter
      (nameMatches "stone")) = 5 ∧
    (Co.run demoEnv (depositItemsToChest demoBot "stone" (some 5)
      (initialState emptyStackWorld))).2 = 0 ∧
    (Co.run demoEnv (depositItemsToChest demoBot "stone" (some 5)
      (initialState emptyStackWorld))).2
      ≠ min 5 (totalCount ((demoBot.inventoryItems (initialState emptyStackWorld).world).filter
          (nameMatches "stone"))) ∧
    (Co.run demoEnv (depositItemsToChest demoBot "stone" none
      (initialState emptyStackWorld))).2 = 0 := by
  decide

/-- The demo surroundings leave `cycleCount` alone. -/
theorem demoEnv_cycleCount (t : State DemoWorld) : (demoEnv t).cycleCount = t.cycleCount := by
  unfold demoEnv
  split <;> rfl

/-- The demo surroundings leave the record of issued calls alone. -/
theorem demoEnv_trace (t : State DemoWorld) : (demoEnv t).trace = t.trace := by
  unfold demoEnv
  split <;> rfl

/-- A daytime run in the demo world ends with `cycleCount` raised by one. -/
theorem cycleCount_raised_at_start_witness :
    (Co.run demoEnv (startCircularPattern exactMath demoConfig demoBot
      (initialState flatWorld))).1.cycleCount = 0 + 1 :=
  (cycleCount_raised_at_start exactMath demoConfig demoBot demoEnv demoEnv_cycleCount
    (initialState flatWorld)).2.2 rfl rfl rfl

/-- Depositing 40 of the 64 stone held in the demo world returns 40. -/
theorem deposit_returns_min_witness :
    (Co.run demoEnv (depositItemsToChest demoBot "stone" (some 40) (initialState flatWorld))).2
      = min 40 (totalCount ((demoBot.inventoryItems (initialState flatWorld).world).filter
          (nameMatches "stone"))) :=
  ((deposit_returns_min demoBot demoEnv "stone" (initialState flatWorld) (fun _ => rfl)
    demoEnv_trace).2.2.1 (by decide)).1 40 (by norm_num)

end Invariants

end Placer
